import Mathlib

/-!
Verification development for the tsunami simulation engine
(`src/simulation/Engine.ts` and `src/simulation/types.ts`).

The engine is embedded shallowly over `ℚ` (TypeScript numbers are IEEE
doubles; the claims under study are about control flow, flags, counters and
exact arithmetic identities, for which exact rational arithmetic is the
faithful model).  Ambient randomness (`Math.random()`) is modelled as an
oracle stream `rand : Nat → ℚ` consulted at an explicit draw counter that is
threaded through every function in source order.  The transcendental library
functions `Math.sin`, `Math.exp` and the constant `Math.PI`, and the external
fact-lookup collaborator `getRandomFactForPhase` (an excluded collaborator
per the specification's interface boundary), are abstracted as fields of an
environment record `Env`.
-/

namespace TsunamiSim

/-- The simulation phases, in the fixed order of the engine. -/
inductive SimulationPhase
  | idle
  | earthquake
  | waveFormation
  | waveTravel
  | waveShoaling
  | waveBreaking
  | inundation
  | recession
  | aftermath
  deriving DecidableEq, Repr

/-- Settlement class of a town. -/
inductive TownType
  | village
  | town
  | city
  deriving DecidableEq, Repr

/-- Building class. -/
inductive BuildingType
  | residential
  | commercial
  deriving DecidableEq, Repr

/-- Debris material tag. -/
inductive DebrisType
  | wood
  | concrete
  | metal
  deriving DecidableEq, Repr

/-- Particle visual tag. -/
inductive ParticleType
  | splash
  | spray
  | dust
  deriving DecidableEq, Repr

/-- Camera state (external concern, carried through the state record). -/
structure Camera where
  x : ℚ
  y : ℚ
  zoom : ℚ
  deriving DecidableEq, Repr

/-- Scalar wave state. -/
structure WaveState where
  position : ℚ
  height : ℚ
  speed : ℚ
  energy : ℚ
  deriving DecidableEq, Repr

/-- Scalar earthquake state. -/
structure EarthquakeState where
  magnitude : ℚ
  epicenterX : ℚ
  active : Bool
  shakeIntensity : ℚ
  plateOffset : ℚ
  deriving DecidableEq, Repr

/-- Debris entity. -/
structure Debris where
  x : ℚ
  y : ℚ
  vx : ℚ
  vy : ℚ
  rotation : ℚ
  rotationSpeed : ℚ
  size : ℚ
  type : DebrisType
  deriving DecidableEq, Repr

/-- Building entity. -/
structure Building where
  id : String
  x : ℚ
  y : ℚ
  width : ℚ
  height : ℚ
  type : BuildingType
  colorIndex : ℤ
  roofColorIndex : ℤ
  health : ℚ
  maxHealth : ℚ
  destroyed : Bool
  debris : List Debris
  deriving DecidableEq, Repr

/-- Vehicle entity. -/
structure Vehicle where
  id : String
  x : ℚ
  y : ℚ
  width : ℚ
  height : ℚ
  colorIndex : ℤ
  speed : ℚ
  fleeing : Bool
  destroyed : Bool
  occupants : ℤ
  evacuated : Bool
  deriving DecidableEq, Repr

/-- Person entity. -/
structure Person where
  id : String
  x : ℚ
  y : ℚ
  speed : ℚ
  fleeing : Bool
  runFrame : ℚ
  skinColorIndex : ℤ
  clothesColorIndex : ℤ
  survived : Bool
  caught : Bool
  deriving DecidableEq, Repr

/-- Town entity. -/
structure Town where
  id : String
  name : String
  x : ℚ
  width : ℚ
  population : ℚ
  type : TownType
  deriving DecidableEq, Repr

/-- Short-lived visual particle. -/
structure Particle where
  x : ℚ
  y : ℚ
  vx : ℚ
  vy : ℚ
  life : ℚ
  maxLife : ℚ
  size : ℚ
  type : ParticleType
  deriving DecidableEq, Repr

/-- Fixed-x sample of the water surface. -/
structure WaterLevel where
  x : ℚ
  baseLevel : ℚ
  currentLevel : ℚ
  velocity : ℚ
  deriving DecidableEq, Repr

/-- The statistics block of the simulation state. -/
structure Stats where
  casualties : ℚ
  survivors : ℚ
  buildingsDestroyed : ℚ
  vehiclesDestroyed : ℚ
  deriving DecidableEq, Repr

/-- The whole simulation state. -/
structure SimulationState where
  phase : SimulationPhase
  time : ℚ
  phaseTime : ℚ
  speed : ℚ
  paused : Bool
  magnitude : ℚ
  camera : Camera
  earthquake : EarthquakeState
  wave : WaveState
  waterLevels : List WaterLevel
  towns : List Town
  buildings : List Building
  vehicles : List Vehicle
  people : List Person
  debris : List Debris
  particles : List Particle
  currentFact : Option String
  stats : Stats
  deriving DecidableEq, Repr

/-- Static world geometry configuration. -/
structure WorldConfig where
  width : ℚ
  height : ℚ
  oceanStartX : ℚ
  oceanEndX : ℚ
  oceanDepth : ℚ
  coastStartX : ℚ
  coastEndX : ℚ
  townStartX : ℚ
  townEndX : ℚ
  groundLevel : ℚ
  seaLevel : ℚ
  deriving DecidableEq, Repr

/-- DEFAULT_WORLD_CONFIG from the source. -/
def DEFAULT_WORLD_CONFIG : WorldConfig :=
  { width := 4000
    height := 1200
    oceanStartX := 0
    oceanEndX := 2800
    oceanDepth := 600
    coastStartX := 2400
    coastEndX := 2800
    townStartX := 2800
    townEndX := 4000
    groundLevel := 600
    seaLevel := 600 }

/-- Environment of ambient effects: the `Math.random()` stream (indexed by
draw count), the transcendental functions `Math.sin` and `Math.exp` and the
constant `Math.PI` abstracted over `ℚ`, and the external collaborator
`getRandomFactForPhase` of the facts module. -/
structure Env where
  rand : Nat → ℚ
  sin : ℚ → ℚ
  exp : ℚ → ℚ
  pi : ℚ
  fact : SimulationPhase → Option String

/-- Modelled from the spec: the source file `src/utils/math.ts` is absent
from the repository sources; the spec describes it as bounded random scalar
generation.  `randomRange(min, max)` returns `min + u * (max - min)` where
`u` is the `Math.random()` draw, made explicit here. -/
def randomRange (lo hi u : ℚ) : ℚ := lo + u * (hi - lo)

/-- Modelled from the spec: the source file `src/utils/math.ts` is absent
from the repository sources; the spec describes it as bounded random integer
generation, inclusive of both bounds as all call sites require
(e.g. `randomInt(0, 3)` indexing 4-element color arrays). -/
def randomInt (lo hi : ℤ) (u : ℚ) : ℤ := lo + ⌊u * ((hi : ℚ) - (lo : ℚ) + 1)⌋

/-- Modelled from the spec: the source file `src/utils/math.ts` is absent
from the repository sources; linear interpolation. -/
def lerp (a b t : ℚ) : ℚ := a + (b - a) * t

/-- Modelled from the spec: the source file `src/utils/math.ts` is absent
from the repository sources; an ease-out curve (cubic), used only through
its value so the exact curve shape does not affect any claim proved here. -/
def easeOut (t : ℚ) : ℚ := 1 - (1 - t) ^ 3

/-- PHASE_DURATIONS from the source; `none` models `Infinity`. -/
def PHASE_DURATIONS : SimulationPhase → Option ℚ
  | .idle => none
  | .earthquake => some 8000
  | .waveFormation => some 6000
  | .waveTravel => some 12000
  | .waveShoaling => some 8000
  | .waveBreaking => some 6000
  | .inundation => some 15000
  | .recession => some 12000
  | .aftermath => none

/-- getNextPhase from the source: the successor in the fixed phase array,
clamped at the last entry. -/
def getNextPhase : SimulationPhase → SimulationPhase
  | .idle => .earthquake
  | .earthquake => .waveFormation
  | .waveFormation => .waveTravel
  | .waveTravel => .waveShoaling
  | .waveShoaling => .waveBreaking
  | .waveBreaking => .inundation
  | .inundation => .recession
  | .recession => .aftermath
  | .aftermath => .aftermath

/-- TOWN_NAMES pools from the source. -/
def TOWN_NAMES : TownType → List String
  | .village =>
    ["Seaside Cove", "Fisherman\x27s Rest", "Coral Bay", "Sandy Point", "Shell Harbor",
     "Driftwood", "Pelican Beach", "Tide Pool", "Anchor Point", "Surf Village",
     "Mist Haven", "Kelp Shores", "Starfish Landing", "Gull\x27s Nest", "Breaker\x27s Edge"]
  | .town =>
    ["Ocean View", "Port Haven", "Bayside", "Harbortown", "Wavecrest",
     "Marina Bay", "Coastline", "Seabrook", "Tidewaters", "Saltwater Springs",
     "Crescent Beach", "Palm Shore", "Sunset Harbor", "Blue Lagoon", "Sailors Rest"]
  | .city =>
    ["Pacific City", "New Atlantis", "Oceanport", "Bay Metropolis", "Coastal Heights",
     "Seagate City", "Maritime Center", "Harbor City", "Aqua Vista", "Tidewater City",
     "Newport Grand", "Eastshore", "Westport", "Bayshore City", "Ocean Heights"]

/-- The capitalized type name used by the fallback branch of `getRandomName`
(the source computes it as first-letter uppercase plus the rest). -/
def typeDisplayName : TownType → String
  | .village => ("Village")
  | .town => ("Town")
  | .city => ("City")

/-- getRandomName from the source: pick an unused name from the pool of the
given type, or fall back to a numbered placeholder when the pool is
exhausted.  Returns the name, the updated used-name set and the next draw
index. -/
def getRandomName (e : Env) (usedNames : List String) (t : TownType) (k : Nat) :
    String × List String × Nat :=
  let names := (TOWN_NAMES t).filter (fun n => !usedNames.contains n)
  if names.length = 0 then
    (typeDisplayName t ++ (" ") ++ toString (randomInt 1 99 (e.rand k)), usedNames, k + 1)
  else
    let name := names.getD (randomInt 0 ((names.length : ℤ) - 1) (e.rand k)).toNat ("")
    (name, name :: usedNames, k + 1)

/-- The body of the `createWaterLevels` for loop (`x` from `oceanStartX` to
`townEndX` in steps of 20), expressed with an explicit fuel bound since the
loop variable is rational. -/
def createWaterLevelsLoop (cfg : WorldConfig) : Nat → ℚ → List WaterLevel
  | 0, _ => []
  | fuel + 1, x =>
    if x ≤ cfg.townEndX then
      { x := x, baseLevel := cfg.seaLevel, currentLevel := cfg.seaLevel, velocity := 0 } ::
        createWaterLevelsLoop cfg fuel (x + 20)
    else []

/-- createWaterLevels from the source. -/
def createWaterLevels (cfg : WorldConfig) : List WaterLevel :=
  createWaterLevelsLoop cfg 10000 cfg.oceanStartX

/-- The body of the `createTowns` settlement loop.  Arguments: remaining
iteration count, loop index `i`, `currentX`, used names, draw index.  The
two `break` statements of the source become early returns. -/
def createTownsLoop (e : Env) (cfg : WorldConfig) (totalWidth : ℚ) :
    Nat → Nat → ℚ → List String → Nat → List Town × Nat
  | 0, _, _, _, k => ([], k)
  | n + 1, i, currentX, usedNames, k =>
    let distanceRatio := (currentX - cfg.townStartX) / totalWidth
    let roll := e.rand k + distanceRatio * 0.3
    let k1 := k + 1
    let twpk : TownType × ℚ × ℚ × Nat :=
      if roll < 0.35 then
        (.village, randomRange 150 250 (e.rand k1),
          ((randomInt 50 200 (e.rand (k1 + 1)) : ℤ) : ℚ), k1 + 2)
      else if roll < 0.7 then
        (.town, randomRange 250 400 (e.rand k1),
          ((randomInt 200 800 (e.rand (k1 + 1)) : ℤ) : ℚ), k1 + 2)
      else
        (.city, randomRange 350 550 (e.rand k1),
          ((randomInt 800 3000 (e.rand (k1 + 1)) : ℤ) : ℚ), k1 + 2)
    let width := min twpk.2.1 (cfg.townEndX - currentX - 50)
    if width < 100 then ([], twpk.2.2.2)
    else
      let nm := getRandomName e usedNames twpk.1 twpk.2.2.2
      let town : Town :=
        { id := ("town-") ++ toString i, name := nm.1, x := currentX, width := width,
          population := twpk.2.2.1, type := twpk.1 }
      let gap := randomRange 40 100 (e.rand nm.2.2)
      let k2 := nm.2.2 + 1
      let nextX := currentX + width + gap
      if nextX ≥ cfg.townEndX - 100 then ([town], k2)
      else
        let rest := createTownsLoop e cfg totalWidth n (i + 1) nextX nm.2.1 k2
        (town :: rest.1, rest.2)

/-- createTowns from the source: 1 to 4 settlements distributed across the
coastal band. -/
def createTowns (e : Env) (cfg : WorldConfig) (k : Nat) : List Town × Nat :=
  let totalWidth := cfg.townEndX - cfg.townStartX
  let numSettlements := randomInt 1 4 (e.rand k)
  createTownsLoop e cfg totalWidth numSettlements.toNat 0 (cfg.townStartX + 30) [] (k + 1)

/-- Draw-count per-building ranges: the body of the `createBuildings` while
loop for one town, with an explicit fuel bound since the loop variable is
rational and the random gap could in principle be non-positive.  Arguments:
fuel, `x`, building id counter, draw index; returns the buildings, the next
id and the next draw index. -/
def createBuildingsLoop (e : Env) (cfg : WorldConfig) (town : Town) (density commercialChance : ℚ) :
    Nat → ℚ → Nat → Nat → List Building × Nat × Nat
  | 0, _, bid, k => ([], bid, k)
  | fuel + 1, x, bid, k =>
    if x < town.x + town.width - 30 then
      let isCommercial : Bool := decide (e.rand k < commercialChance)
      let k1 := k + 1
      let wh : ℚ × ℚ :=
        match town.type with
        | .city =>
          (if isCommercial then randomRange 70 110 (e.rand k1) else randomRange 40 65 (e.rand k1),
           if isCommercial then randomRange 120 200 (e.rand (k1 + 1)) else randomRange 70 120 (e.rand (k1 + 1)))
        | .town =>
          (if isCommercial then randomRange 60 90 (e.rand k1) else randomRange 35 55 (e.rand k1),
           if isCommercial then randomRange 80 140 (e.rand (k1 + 1)) else randomRange 55 95 (e.rand (k1 + 1)))
        | .village =>
          (if isCommercial then randomRange 45 70 (e.rand k1) else randomRange 30 50 (e.rand k1),
           if isCommercial then randomRange 50 90 (e.rand (k1 + 1)) else randomRange 40 70 (e.rand (k1 + 1)))
      let health := wh.1 * wh.2 / 50
      let b : Building :=
        { id := ("building-") ++ toString bid
          x := x
          y := cfg.groundLevel - wh.2
          width := wh.1
          height := wh.2
          type := if isCommercial then .commercial else .residential
          colorIndex := randomInt 0 3 (e.rand (k1 + 2))
          roofColorIndex := randomInt 0 3 (e.rand (k1 + 3))
          health := health
          maxHealth := health
          destroyed := false
          debris := [] }
      let gap := randomRange (25 / density) (60 / density) (e.rand (k1 + 4))
      let rest := createBuildingsLoop e cfg town density commercialChance fuel (x + wh.1 + gap) (bid + 1) (k1 + 5)
      (b :: rest.1, rest.2.1, rest.2.2)
    else ([], bid, k)

/-- The towns traversal of `createBuildings`, threading the shared building
id counter and the draw index. -/
def createBuildingsTowns (e : Env) (cfg : WorldConfig) :
    List Town → Nat → Nat → List Building × Nat × Nat
  | [], bid, k => ([], bid, k)
  | town :: ts, bid, k =>
    let density : ℚ := match town.type with
      | .city => 0.7
      | .town => 0.5
      | .village => 0.35
    let commercialChance : ℚ := match town.type with
      | .city => 0.5
      | .town => 0.3
      | .village => 0.15
    let r := createBuildingsLoop e cfg town density commercialChance 10000 (town.x + 20) bid k
    let rest := createBuildingsTowns e cfg ts r.2.1 r.2.2
    (r.1 ++ rest.1, rest.2.1, rest.2.2)

/-- createBuildings from the source. -/
def createBuildings (e : Env) (cfg : WorldConfig) (towns : List Town) (k : Nat) :
    List Building × Nat :=
  let r := createBuildingsTowns e cfg towns 0 k
  (r.1, r.2.2)

/-- The per-town vehicle loop of `createVehicles`. -/
def createVehiclesLoop (e : Env) (cfg : WorldConfig) (town : Town) :
    Nat → Nat → Nat → List Vehicle × Nat × Nat
  | 0, vid, k => ([], vid, k)
  | n + 1, vid, k =>
    let v : Vehicle :=
      { id := ("vehicle-") ++ toString vid
        x := randomRange (town.x + 20) (town.x + town.width - 50) (e.rand k)
        y := cfg.groundLevel - 20
        width := 40
        height := 20
        colorIndex := randomInt 0 5 (e.rand (k + 1))
        speed := 0
        fleeing := false
        destroyed := false
        occupants := randomInt 1 4 (e.rand (k + 2))
        evacuated := false }
    let rest := createVehiclesLoop e cfg town n (vid + 1) (k + 3)
    (v :: rest.1, rest.2.1, rest.2.2)

/-- The towns traversal of `createVehicles`. -/
def createVehiclesTowns (e : Env) (cfg : WorldConfig) :
    List Town → Nat → Nat → List Vehicle × Nat × Nat
  | [], vid, k => ([], vid, k)
  | town :: ts, vid, k =>
    let numVehicles : ℤ := match town.type with
      | .city => randomInt 6 12 (e.rand k)
      | .town => randomInt 3 7 (e.rand k)
      | .village => randomInt 1 4 (e.rand k)
    let r := createVehiclesLoop e cfg town numVehicles.toNat vid (k + 1)
    let rest := createVehiclesTowns e cfg ts r.2.1 r.2.2
    (r.1 ++ rest.1, rest.2.1, rest.2.2)

/-- createVehicles from the source. -/
def createVehicles (e : Env) (cfg : WorldConfig) (towns : List Town) (k : Nat) :
    List Vehicle × Nat :=
  let r := createVehiclesTowns e cfg towns 0 k
  (r.1, r.2.2)

/-- The doomed-people loop of `createPeople` (first town only). -/
def createDoomedLoop (e : Env) (cfg : WorldConfig) (town : Town) :
    Nat → Nat → Nat → List Person × Nat × Nat
  | 0, pid, k => ([], pid, k)
  | n + 1, pid, k =>
    let p : Person :=
      { id := ("person-doomed-") ++ toString pid
        x := town.x + randomRange 10 80 (e.rand k)
        y := cfg.groundLevel - 15
        speed := randomRange 12 28 (e.rand (k + 1))
        fleeing := false
        runFrame := 0
        skinColorIndex := randomInt 0 3 (e.rand (k + 2))
        clothesColorIndex := randomInt 0 5 (e.rand (k + 3))
        survived := false
        caught := false }
    let rest := createDoomedLoop e cfg town n (pid + 1) (k + 4)
    (p :: rest.1, rest.2.1, rest.2.2)

/-- The regular-citizens loop of `createPeople`.  The at-risk draw is only
consumed when the short-circuiting distance conjunct holds, as in the
source. -/
def createCitizensLoop (e : Env) (cfg : WorldConfig) (town : Town) :
    Nat → Nat → Nat → List Person × Nat × Nat
  | 0, pid, k => ([], pid, k)
  | n + 1, pid, k =>
    let isSlow : Bool := decide (e.rand k < 0.25)
    let isVeryFast : Bool := decide (e.rand (k + 1) < 0.15)
    let personX := randomRange (town.x + 30) (town.x + town.width - 30) (e.rand (k + 2))
    let distanceFromCoast := personX - cfg.townStartX
    let ar : Bool × Nat :=
      if distanceFromCoast < 150 then (decide (e.rand (k + 3) < 0.3), k + 4)
      else (false, k + 3)
    let k4 := ar.2
    let p : Person :=
      { id := (if ar.1 then ("person-atrisk-") else ("person-")) ++ toString pid
        x := personX
        y := cfg.groundLevel - 15
        speed :=
          if ar.1 then randomRange 25 50 (e.rand k4)
          else if isSlow then randomRange 40 70 (e.rand k4)
          else if isVeryFast then randomRange 130 170 (e.rand k4)
          else randomRange 85 130 (e.rand k4)
        fleeing := false
        runFrame := e.rand (k4 + 1) * e.pi
        skinColorIndex := randomInt 0 3 (e.rand (k4 + 2))
        clothesColorIndex := randomInt 0 5 (e.rand (k4 + 3))
        survived := false
        caught := false }
    let rest := createCitizensLoop e cfg town n (pid + 1) (k4 + 4)
    (p :: rest.1, rest.2.1, rest.2.2)

/-- The towns traversal of `createPeople`, with the town index used to spawn
doomed people for the first (closest-to-coast) town. -/
def createPeopleTowns (e : Env) (cfg : WorldConfig) :
    List Town → Nat → Nat → Nat → List Person × Nat × Nat
  | [], _, pid, k => ([], pid, k)
  | town :: ts, townIndex, pid, k =>
    let scaleFactor : ℚ := match town.type with
      | .city => 0.008
      | .town => 0.015
      | .village => 0.025
    let numPeople := (max 3 ⌊town.population * scaleFactor⌋).toNat
    let dr : List Person × Nat × Nat :=
      if townIndex = 0 then
        let numDoomed : ℤ := match town.type with
          | .city => randomInt 3 6 (e.rand k)
          | .town => randomInt 2 4 (e.rand k)
          | .village => randomInt 1 2 (e.rand k)
        createDoomedLoop e cfg town numDoomed.toNat pid (k + 1)
      else ([], pid, k)
    let cr := createCitizensLoop e cfg town numPeople dr.2.1 dr.2.2
    let rest := createPeopleTowns e cfg ts (townIndex + 1) cr.2.1 cr.2.2
    (dr.1 ++ cr.1 ++ rest.1, rest.2.1, rest.2.2)

/-- createPeople from the source. -/
def createPeople (e : Env) (cfg : WorldConfig) (towns : List Town) (k : Nat) :
    List Person × Nat :=
  let r := createPeopleTowns e cfg towns 0 0 k
  (r.1, r.2.2)

/-- createInitialState from the source: a fresh world at phase `idle`. -/
def createInitialState (e : Env) (magnitude : ℚ) (k : Nat) : SimulationState × Nat :=
  let cfg := DEFAULT_WORLD_CONFIG
  let tw := createTowns e cfg k
  let br := createBuildings e cfg tw.1 tw.2
  let vr := createVehicles e cfg tw.1 br.2
  let pr := createPeople e cfg tw.1 vr.2
  ({ phase := .idle
     time := 0
     phaseTime := 0
     speed := 1
     paused := false
     magnitude := magnitude
     camera := { x := 200, y := 100, zoom := 0.55 }
     earthquake :=
       { magnitude := magnitude, epicenterX := 800, active := false,
         shakeIntensity := 0, plateOffset := 0 }
     wave := { position := 800, height := 0, speed := 0, energy := 0 }
     waterLevels := createWaterLevels cfg
     towns := tw.1
     buildings := br.1
     vehicles := vr.1
     people := pr.1
     debris := []
     particles := []
     currentFact := none
     stats := { casualties := 0, survivors := 0, buildingsDestroyed := 0, vehiclesDestroyed := 0 } },
   pr.2)

/-- Map a draw-consuming entity step over a list, threading the draw index
(the shape of a source `forEach` that mutates elements in place and may call
`Math.random()`). -/
def mapRand (f : α → Nat → α × Nat) : List α → Nat → List α × Nat
  | [], k => ([], k)
  | a :: as, k =>
    let r := f a k
    let rest := mapRand f as r.2
    (r.1 :: rest.1, rest.2)

/-- Map a draw-consuming entity step over a list while also threading an
accumulator (the shape of a source `forEach` whose callback additionally
mutates shared state such as the stats block, the debris array or the whole
simulation state). -/
def mapAccumRand (f : σ → α → Nat → α × σ × Nat) : σ → List α → Nat → List α × σ × Nat
  | acc, [], k => ([], acc, k)
  | acc, a :: as, k =>
    let r := f acc a k
    let rest := mapAccumRand f r.2.1 as r.2.2
    (r.1 :: rest.1, rest.2.1, rest.2.2)

/-- The evacuee-spawning loop of `evacuateVehicle`: one person per occupant,
spawned fleeing near the vehicle. -/
def evacueeLoop (e : Env) (cfg : WorldConfig) (v : Vehicle) :
    Nat → Nat → Nat → List Person × Nat
  | 0, _, k => ([], k)
  | n + 1, i, k =>
    let isSlow : Bool := decide (e.rand k < 0.25)
    let p : Person :=
      { id := ("evacuee-") ++ v.id ++ ("-") ++ toString i
        x := v.x + randomRange (-10) 10 (e.rand (k + 1))
        y := cfg.groundLevel - 15
        speed := if isSlow then randomRange 35 60 (e.rand (k + 2)) else randomRange 80 130 (e.rand (k + 2))
        fleeing := true
        runFrame := e.rand (k + 3) * e.pi * 2
        skinColorIndex := randomInt 0 3 (e.rand (k + 4))
        clothesColorIndex := randomInt 0 5 (e.rand (k + 5))
        survived := false
        caught := false }
    let rest := evacueeLoop e cfg v n (i + 1) (k + 6)
    (p :: rest.1, rest.2)

/-- evacuateVehicle from the source: no-op on an evacuated or destroyed
vehicle, otherwise mark it evacuated and push `occupants` new fleeing people
into the state. -/
def evacuateVehicle (e : Env) (cfg : WorldConfig) (v : Vehicle) (s : SimulationState) (k : Nat) :
    Vehicle × SimulationState × Nat :=
  if v.evacuated = true ∨ v.destroyed = true then (v, s, k)
  else
    let v' := { v with evacuated := true }
    let ev := evacueeLoop e cfg v' v.occupants.toNat 0 k
    (v', { s with people := s.people ++ ev.1 }, ev.2)

/-- The per-person fleeing trigger of `updateEarthquake` (runs once
earthquake progress exceeds 0.7): doomed people never react, at-risk people
react with probability 0.008, others with probability 0.02. -/
def earthquakePersonStep (e : Env) (p : Person) (k : Nat) : Person × Nat :=
  if p.id.startsWith ("person-doomed") then (p, k)
  else if p.id.startsWith ("person-atrisk") then
    (if e.rand k < 0.008 then { p with fleeing := true } else p, k + 1)
  else
    (if e.rand k < 0.02 then { p with fleeing := true } else p, k + 1)

/-- updateEarthquake from the source. -/
def updateEarthquake (e : Env) (s : SimulationState) (_dt : ℚ) (_cfg : WorldConfig) (k : Nat) :
    SimulationState × Nat :=
  let progress := s.phaseTime / 8000
  let intensity := e.sin (progress * e.pi) * s.magnitude / 10
  let s1 := { s with earthquake :=
    { s.earthquake with
        active := true
        shakeIntensity := intensity * 20
        plateOffset := e.sin (progress * e.pi * 2) * intensity * 30 } }
  if progress > 0.7 then
    let pr := mapRand (earthquakePersonStep e) s1.people k
    ({ s1 with people := pr.1 }, pr.2)
  else (s1, k)

/-- updateWaveFormation from the source. -/
def updateWaveFormation (e : Env) (s : SimulationState) (_dt : ℚ) (_cfg : WorldConfig) (k : Nat) :
    SimulationState × Nat :=
  let s1 := { s with earthquake :=
    { s.earthquake with active := false, shakeIntensity := s.earthquake.shakeIntensity * 0.95 } }
  let progress := s1.phaseTime / 6000
  let magnitudeScale := (s1.magnitude - 5) / 4
  let s2 := { s1 with wave :=
    { s1.wave with
        height := easeOut progress * (50 + magnitudeScale * 100)
        energy := s1.magnitude * 1000
        speed := 50 } }
  let levels := s2.waterLevels.map (fun level =>
    let dist := |level.x - s2.earthquake.epicenterX|
    if dist < 300 then
      let displacement := (1 - dist / 300) * s2.wave.height * e.sin (progress * e.pi)
      { level with currentLevel := level.baseLevel - displacement }
    else level)
  ({ s2 with waterLevels := levels }, k)

/-- The per-person fleeing trigger of `updateWaveTravel` (runs once travel
progress exceeds 0.3). -/
def waveTravelPersonStep (e : Env) (p : Person) (k : Nat) : Person × Nat :=
  if p.fleeing = true then (p, k)
  else if p.id.startsWith ("person-doomed") then (p, k)
  else if p.id.startsWith ("person-atrisk") then
    (if e.rand k < 0.006 then { p with fleeing := true } else p, k + 1)
  else
    (if e.rand k < 0.015 then { p with fleeing := true } else p, k + 1)

/-- The per-vehicle random evacuation trigger of `updateWaveTravel`; the
draw is only consumed for a not-yet-evacuated vehicle, as in the source
short-circuit. -/
def waveTravelVehicleStep (e : Env) (cfg : WorldConfig) (s : SimulationState) (v : Vehicle) (k : Nat) :
    Vehicle × SimulationState × Nat :=
  if v.evacuated = false then
    if e.rand k < 0.008 then evacuateVehicle e cfg v s (k + 1)
    else (v, s, k + 1)
  else (v, s, k)

/-- The per-person movement integration of `updateFleeingEntities`. -/
def fleeingPersonStep (dt : ℚ) (p : Person) : Person :=
  if p.fleeing = true ∧ p.caught = false then
    { p with x := p.x + p.speed * (dt / 1000), runFrame := p.runFrame + dt / 100 }
  else p

/-- updateFleeingEntities from the source: fleeing, not-caught people run
inland; vehicles stay in place. -/
def updateFleeingEntities (s : SimulationState) (dt : ℚ) (_cfg : WorldConfig) : SimulationState :=
  { s with people := s.people.map (fleeingPersonStep dt) }

/-- updateWaveTravel from the source. -/
def updateWaveTravel (e : Env) (s : SimulationState) (dt : ℚ) (cfg : WorldConfig) (k : Nat) :
    SimulationState × Nat :=
  let progress := s.phaseTime / 12000
  let targetX := cfg.coastStartX
  let s1 := { s with wave :=
    { s.wave with
        position := lerp s.earthquake.epicenterX targetX (easeOut progress)
        speed := 200 + (1 - progress) * 300 } }
  let levels := s1.waterLevels.map (fun level =>
    let dist := level.x - s1.wave.position
    if dist > -100 ∧ dist < 300 then
      let waveShape := e.exp (-((dist - 100) ^ 2) / 20000)
      { level with currentLevel := level.baseLevel - waveShape * s1.wave.height }
    else
      { level with currentLevel := lerp level.currentLevel level.baseLevel 0.02 })
  let s2 := { s1 with waterLevels := levels }
  let sk : SimulationState × Nat :=
    if progress > 0.3 then
      let pr := mapRand (waveTravelPersonStep e) s2.people k
      let s3 := { s2 with people := pr.1 }
      let vr := mapAccumRand (waveTravelVehicleStep e cfg) s3 s3.vehicles pr.2
      ({ vr.2.1 with vehicles := vr.1 }, vr.2.2)
    else (s2, k)
  (updateFleeingEntities sk.1 dt cfg, sk.2)

/-- The per-person forced fleeing of `updateWaveShoaling`: everyone flees,
except at-risk people wait for progress 0.3 and doomed people for 0.7. -/
def shoalingPersonStep (progress : ℚ) (p : Person) : Person :=
  if p.id.startsWith ("person-doomed") then
    if progress > 0.7 then { p with fleeing := true } else p
  else if p.id.startsWith ("person-atrisk") then
    if progress > 0.3 then { p with fleeing := true } else p
  else { p with fleeing := true }

/-- The per-vehicle forced evacuation of `updateWaveShoaling`. -/
def shoalingVehicleStep (e : Env) (cfg : WorldConfig) (s : SimulationState) (v : Vehicle) (k : Nat) :
    Vehicle × SimulationState × Nat :=
  if v.evacuated = false then evacuateVehicle e cfg v s k
  else (v, s, k)

/-- createSprayParticle from the source. -/
def createSprayParticle (e : Env) (x y : ℚ) (k : Nat) : Particle × Nat :=
  ({ x := x
     y := y
     vx := randomRange (-3) 3 (e.rand k)
     vy := randomRange (-8) (-2) (e.rand (k + 1))
     life := 1000
     maxLife := 1000
     size := randomRange 2 6 (e.rand (k + 2))
     type := .spray }, k + 3)

/-- createSplashParticle from the source. -/
def createSplashParticle (e : Env) (x y : ℚ) (k : Nat) : Particle × Nat :=
  ({ x := x
     y := y
     vx := randomRange (-5) 5 (e.rand k)
     vy := randomRange (-10) (-3) (e.rand (k + 1))
     life := 800
     maxLife := 800
     size := randomRange 3 8 (e.rand (k + 2))
     type := .splash }, k + 3)

/-- updateWaveShoaling from the source. -/
def updateWaveShoaling (e : Env) (s : SimulationState) (dt : ℚ) (cfg : WorldConfig) (k : Nat) :
    SimulationState × Nat :=
  let progress := s.phaseTime / 8000
  let targetX := cfg.coastEndX - 100
  let depthFactor := 1 + progress * 3
  let magnitudeScale := (s.magnitude - 5) / 4
  let s1 := { s with wave :=
    { s.wave with
        position := lerp cfg.coastStartX targetX (easeOut progress)
        speed := 200 * (1 - progress * 0.8)
        height := (50 + magnitudeScale * 100) * depthFactor } }
  let levels := s1.waterLevels.map (fun level =>
    let dist := level.x - s1.wave.position
    if dist > -50 ∧ dist < 400 then
      let waveShape := e.exp (-((dist - 50) ^ 2) / 30000)
      { level with currentLevel := level.baseLevel - waveShape * s1.wave.height }
    else level)
  let s2 := { s1 with waterLevels := levels }
  let s3 := { s2 with people := s2.people.map (shoalingPersonStep progress) }
  let vr := mapAccumRand (shoalingVehicleStep e cfg) s3 s3.vehicles k
  let s4 := { vr.2.1 with vehicles := vr.1 }
  let s5 := updateFleeingEntities s4 dt cfg
  if e.rand vr.2.2 < 0.3 then
    let sp := createSprayParticle e s5.wave.position (cfg.seaLevel - s5.wave.height) (vr.2.2 + 1)
    ({ s5 with particles := s5.particles ++ [sp.1] }, sp.2)
  else (s5, vr.2.2 + 1)

/-- The spray loop of `updateWaveBreaking` (three particles per tick). -/
def breakingSprayLoop (e : Env) (cfg : WorldConfig) : Nat → SimulationState → Nat → SimulationState × Nat
  | 0, s, k => (s, k)
  | n + 1, s, k =>
    let x := s.wave.position + randomRange (-30) 30 (e.rand k)
    let y := cfg.seaLevel - s.wave.height + randomRange (-20) 20 (e.rand (k + 1))
    let sp := createSprayParticle e x y (k + 2)
    breakingSprayLoop e cfg n { s with particles := s.particles ++ [sp.1] } sp.2

/-- updateWaveBreaking from the source. -/
def updateWaveBreaking (e : Env) (s : SimulationState) (dt : ℚ) (cfg : WorldConfig) (k : Nat) :
    SimulationState × Nat :=
  let progress := s.phaseTime / 6000
  let magnitudeScale := (s.magnitude - 5) / 4
  let s1 := { s with wave :=
    { s.wave with
        position := lerp (cfg.coastEndX - 100) cfg.townStartX progress
        height := (50 + magnitudeScale * 100) * (3 + progress) } }
  let levels := s1.waterLevels.map (fun level =>
    let dist := level.x - s1.wave.position
    if dist > -100 ∧ dist < 200 then
      let waveShape := e.exp (-(dist ^ 2) / 10000)
      { level with currentLevel := level.baseLevel - waveShape * s1.wave.height }
    else level)
  let s2 := { s1 with waterLevels := levels }
  let s3 := updateFleeingEntities s2 dt cfg
  breakingSprayLoop e cfg 3 s3 k

/-- createDebris from the source: one debris piece at a randomized offset
within the building footprint. -/
def createDebris (e : Env) (b : Building) (k : Nat) : Debris × Nat :=
  ({ x := b.x + randomRange 0 b.width (e.rand k)
     y := b.y + randomRange 0 b.height (e.rand (k + 1))
     vx := randomRange (-5) 5 (e.rand (k + 2))
     vy := randomRange (-10) 0 (e.rand (k + 3))
     rotation := randomRange 0 (e.pi * 2) (e.rand (k + 4))
     rotationSpeed := randomRange (-0.2) 0.2 (e.rand (k + 5))
     size := randomRange 5 15 (e.rand (k + 6))
     type := if e.rand (k + 7) > 0.5 then .wood else .concrete }, k + 8)

/-- The `for i in 0..5` debris loop run when a building is destroyed. -/
def debrisLoop (e : Env) (b : Building) : Nat → List Debris → Nat → List Debris × Nat
  | 0, ds, k => (ds, k)
  | n + 1, ds, k =>
    let d := createDebris e b k
    debrisLoop e b n (ds ++ [d.1]) d.2

/-- The per-building damage step of `updateInundation`, accumulating the
shared debris array and stats block. -/
def inundationBuildingStep (e : Env) (waterFront waterDepth magnitudeScale dt : ℚ)
    (acc : List Debris × Stats) (b : Building) (k : Nat) :
    Building × (List Debris × Stats) × Nat :=
  if b.destroyed = false ∧ b.x < waterFront then
    let damage := waterDepth * (dt / 1000) * (magnitudeScale + 0.5)
    let health := b.health - damage
    if health ≤ 0 then
      let b' := { b with health := health, destroyed := true }
      let stats := { acc.2 with buildingsDestroyed := acc.2.buildingsDestroyed + 1 }
      let dr := debrisLoop e b' 5 acc.1 k
      (b', (dr.1, stats), dr.2)
    else ({ b with health := health }, acc, k)
  else (b, acc, k)

/-- The per-vehicle destruction step of `updateInundation`. -/
def inundationVehicleStep (waterFront : ℚ) (acc : Stats) (v : Vehicle) (k : Nat) :
    Vehicle × Stats × Nat :=
  if v.destroyed = false ∧ v.x < waterFront then
    ({ v with destroyed := true },
     { acc with vehiclesDestroyed := acc.vehiclesDestroyed + 1 }, k)
  else (v, acc, k)

/-- The per-person resolution step of `updateInundation`: an unresolved
person behind the water front is caught; otherwise one past the safe
threshold survives. -/
def inundationPersonStep (cfg : WorldConfig) (waterFront : ℚ) (acc : Stats) (p : Person) (k : Nat) :
    Person × Stats × Nat :=
  if p.caught = false ∧ p.survived = false then
    if p.x < waterFront then
      ({ p with caught := true }, { acc with casualties := acc.casualties + 1 }, k)
    else if p.x > cfg.townEndX - 100 then
      ({ p with survived := true }, { acc with survivors := acc.survivors + 1 }, k)
    else (p, acc, k)
  else (p, acc, k)

/-- updateInundation from the source. -/
def updateInundation (e : Env) (s : SimulationState) (dt : ℚ) (cfg : WorldConfig) (k : Nat) :
    SimulationState × Nat :=
  let progress := s.phaseTime / 15000
  let inundationDistance := progress * (cfg.townEndX - cfg.townStartX)
  let waterFront := cfg.townStartX + inundationDistance
  let magnitudeScale := (s.magnitude - 5) / 4
  let waterDepth := (30 + magnitudeScale * 70) * (1 - progress * 0.5)
  let levels := s.waterLevels.map (fun level =>
    if level.x < waterFront then
      let distFromFront := waterFront - level.x
      let depth := min waterDepth (distFromFront * 0.3)
      { level with currentLevel := level.baseLevel - depth }
    else level)
  let s1 := { s with waterLevels := levels }
  let br := mapAccumRand (inundationBuildingStep e waterFront waterDepth magnitudeScale dt)
    (s1.debris, s1.stats) s1.buildings k
  let s2 := { s1 with buildings := br.1, debris := br.2.1.1, stats := br.2.1.2 }
  let vr := mapAccumRand (inundationVehicleStep waterFront) s2.stats s2.vehicles br.2.2
  let s3 := { s2 with vehicles := vr.1, stats := vr.2.1 }
  let pr := mapAccumRand (inundationPersonStep cfg waterFront) s3.stats s3.people vr.2.2
  let s4 := { s3 with people := pr.1, stats := pr.2.1 }
  let s5 := updateFleeingEntities s4 dt cfg
  if e.rand pr.2.2 < 0.5 then
    let sp := createSplashParticle e waterFront (cfg.groundLevel - waterDepth) (pr.2.2 + 1)
    ({ s5 with particles := s5.particles ++ [sp.1] }, sp.2)
  else (s5, pr.2.2 + 1)

/-- The per-person backwash step of `updateRecession`; the backwash draw is
only consumed when the person is inside the receding water area, as in the
source short-circuit. -/
def recessionPersonStep (e : Env) (cfg : WorldConfig) (currentWaterFront : ℚ)
    (acc : Stats) (p : Person) (k : Nat) : Person × Stats × Nat :=
  if p.caught = false ∧ p.survived = false then
    if p.x < currentWaterFront ∧ p.x > cfg.townStartX then
      if e.rand k < 0.002 then
        ({ p with caught := true }, { acc with casualties := acc.casualties + 1 }, k + 1)
      else if p.x > cfg.townEndX - 100 then
        ({ p with survived := true }, { acc with survivors := acc.survivors + 1 }, k + 1)
      else (p, acc, k + 1)
    else if p.x > cfg.townEndX - 100 then
      ({ p with survived := true }, { acc with survivors := acc.survivors + 1 }, k)
    else (p, acc, k)
  else (p, acc, k)

/-- updateRecession from the source. -/
def updateRecession (e : Env) (s : SimulationState) (dt : ℚ) (cfg : WorldConfig) (k : Nat) :
    SimulationState × Nat :=
  let progress := s.phaseTime / 12000
  let magnitudeScale := (s.magnitude - 5) / 4
  let recessionProgress := easeOut progress
  let maxInlandDistance := cfg.townEndX - cfg.townStartX
  let currentWaterFront := cfg.townStartX + maxInlandDistance * (1 - recessionProgress * 0.9)
  let baseDepth := (30 + magnitudeScale * 70) * 0.5
  let currentDepth := baseDepth * (1 - recessionProgress)
  let levels := s.waterLevels.map (fun level =>
    if level.x ≥ cfg.townStartX then
      if level.x < currentWaterFront then
        let distFromFront := currentWaterFront - level.x
        let depth := min currentDepth (distFromFront * 0.2) * (1 - recessionProgress * 0.8)
        { level with currentLevel := lerp level.currentLevel (level.baseLevel - depth) 0.05 }
      else
        { level with currentLevel := lerp level.currentLevel level.baseLevel 0.1 }
    else if level.x ≥ cfg.coastEndX then
      let coastProgress := 1 - (level.x - cfg.coastEndX) / (cfg.townStartX - cfg.coastEndX)
      let returnDepth := currentDepth * coastProgress * 0.5
      { level with currentLevel := lerp level.currentLevel (level.baseLevel - returnDepth) 0.03 }
    else
      { level with currentLevel := lerp level.currentLevel level.baseLevel 0.02 })
  let s1 := { s with waterLevels := levels }
  let s2 := { s1 with wave :=
    { s1.wave with
        position := lerp cfg.townStartX cfg.coastStartX recessionProgress
        height := max 0 (s1.wave.height * (1 - progress * 0.1)) } }
  let pr := mapAccumRand (recessionPersonStep e cfg currentWaterFront) s2.stats s2.people k
  let s3 := { s2 with people := pr.1, stats := pr.2.1 }
  let s4 := updateFleeingEntities s3 dt cfg
  let s5 := { s4 with debris := s4.debris.map (fun d =>
    if d.x > cfg.townStartX ∧ d.x < currentWaterFront then { d with vx := d.vx - 0.3 } else d) }
  let c1 := e.rand pr.2.2 < 0.3
  let k1 := pr.2.2 + 1
  if c1 ∧ currentWaterFront > cfg.townStartX + 50 then
    let xoff := randomRange 10 50 (e.rand k1)
    let sp := createSplashParticle e (currentWaterFront - xoff) (cfg.groundLevel - currentDepth * 0.5) (k1 + 1)
    ({ s5 with particles := s5.particles ++ [sp.1] }, sp.2)
  else (s5, k1)

/-- The per-person forced survival of `updateAftermath`: any still
unresolved person is counted as a survivor. -/
def aftermathPersonStep (acc : Stats) (p : Person) (k : Nat) : Person × Stats × Nat :=
  if p.caught = false ∧ p.survived = false then
    ({ p with survived := true }, { acc with survivors := acc.survivors + 1 }, k)
  else (p, acc, k)

/-- The per-debris falling/settling physics of `updateAftermath`. -/
def aftermathDebrisStep (cfg : WorldConfig) (dt : ℚ) (d : Debris) : Debris :=
  let vy := d.vy + 0.5
  let x := d.x + d.vx * (dt / 16)
  let y := d.y + vy * (dt / 16)
  let rotation := d.rotation + d.rotationSpeed
  if y > cfg.groundLevel then
    { d with x := x, y := cfg.groundLevel, vx := d.vx * 0.8, vy := vy * (-0.3), rotation := rotation }
  else
    { d with x := x, y := y, vy := vy, rotation := rotation }

/-- updateAftermath from the source. -/
def updateAftermath (_e : Env) (s : SimulationState) (dt : ℚ) (cfg : WorldConfig) (k : Nat) :
    SimulationState × Nat :=
  let levels := s.waterLevels.map (fun level =>
    { level with currentLevel := lerp level.currentLevel level.baseLevel (0.001 * dt) })
  let s1 := { s with waterLevels := levels }
  let pr := mapAccumRand aftermathPersonStep s1.stats s1.people k
  let s2 := { s1 with people := pr.1, stats := pr.2.1 }
  ({ s2 with debris := s2.debris.map (aftermathDebrisStep cfg dt) }, pr.2.2)

/-- The per-particle integration of `updateParticles` (the source mutates
each particle, then filters on the updated remaining life). -/
def particleStep (dt : ℚ) (p : Particle) : Particle :=
  { p with
      x := p.x + p.vx * (dt / 16)
      y := p.y + p.vy * (dt / 16)
      vy := p.vy + 0.2
      life := p.life - dt }

/-- updateParticles from the source. -/
def updateParticles (s : SimulationState) (dt : ℚ) : SimulationState :=
  { s with particles := (s.particles.map (particleStep dt)).filter (fun p => decide (p.life > 0)) }

/-- updateSimulation from the source: no-op when paused, otherwise advance
the clocks, fire at most one phase transition (checked against the pre-tick
`phaseTime`), run the handler of the (possibly new) phase, and always
advance particles. -/
def updateSimulation (e : Env) (s : SimulationState) (deltaTime : ℚ) (cfg : WorldConfig) (k : Nat) :
    SimulationState × Nat :=
  if s.paused = true then (s, k)
  else
    let dt := deltaTime * s.speed
    let s1 := { s with time := s.time + dt, phaseTime := s.phaseTime + dt }
    let s2 :=
      match PHASE_DURATIONS s.phase with
      | some d =>
        if s.phaseTime ≥ d then
          let p := getNextPhase s.phase
          { s1 with phase := p, phaseTime := 0, currentFact := e.fact p }
        else s1
      | none => s1
    let hr : SimulationState × Nat :=
      match s2.phase with
      | .earthquake => updateEarthquake e s2 dt cfg k
      | .waveFormation => updateWaveFormation e s2 dt cfg k
      | .waveTravel => updateWaveTravel e s2 dt cfg k
      | .waveShoaling => updateWaveShoaling e s2 dt cfg k
      | .waveBreaking => updateWaveBreaking e s2 dt cfg k
      | .inundation => updateInundation e s2 dt cfg k
      | .recession => updateRecession e s2 dt cfg k
      | .aftermath => updateAftermath e s2 dt cfg k
      | .idle => (s2, k)
    (updateParticles hr.1 dt, hr.2)

/-- startSimulation from the source: regenerate the world at the current
magnitude, keep the camera, and force-enter the earthquake phase with its
fact. -/
def startSimulation (e : Env) (s : SimulationState) (k : Nat) : SimulationState × Nat :=
  let ns := createInitialState e s.magnitude k
  ({ ns.1 with phase := .earthquake, camera := s.camera, currentFact := e.fact .earthquake }, ns.2)

/-- resetSimulation from the source. -/
def resetSimulation (e : Env) (magnitude : ℚ) (k : Nat) : SimulationState × Nat :=
  createInitialState e magnitude k

/-- States reachable through the engine's public operations, under any
environment, magnitude, draw positions and tick lengths. -/
inductive Reachable : SimulationState → Prop
  | init (e : Env) (m : ℚ) (k : Nat) : Reachable (createInitialState e m k).1
  | start (e : Env) (s : SimulationState) (k : Nat) :
      Reachable s → Reachable (startSimulation e s k).1
  | reset (e : Env) (m : ℚ) (k : Nat) : Reachable (resetSimulation e m k).1
  | step (e : Env) (s : SimulationState) (dt : ℚ) (cfg : WorldConfig) (k : Nat) :
      Reachable s → Reachable (updateSimulation e s dt cfg k).1

/-! ### Generic lemmas about the threading combinators -/

theorem mapRand_length (f : α → Nat → α × Nat) (l : List α) (k : Nat) :
    (mapRand f l k).1.length = l.length := by
  induction l generalizing k with
  | nil => simp [mapRand]
  | cons a as ih => simp [mapRand, ih]

theorem mapRand_mem (f : α → Nat → α × Nat) (l : List α) (k : Nat) :
    ∀ b ∈ (mapRand f l k).1, ∃ a ∈ l, ∃ k', b = (f a k').1 := by
  induction l generalizing k with
  | nil => simp [mapRand]
  | cons a as ih =>
    intro b hb
    simp only [mapRand, List.mem_cons] at hb
    rcases hb with hb | hb
    · exact ⟨a, List.mem_cons_self a as, k, hb⟩
    · rcases ih (f a k).2 b hb with ⟨a', ha', k', h⟩
      exact ⟨a', List.mem_cons_of_mem a ha', k', h⟩

theorem mapRand_get (f : α → Nat → α × Nat) (l : List α) (k : Nat) (i : Nat)
    (hi : i < l.length) (hi' : i < (mapRand f l k).1.length) :
    ∃ k', (mapRand f l k).1.get ⟨i, hi'⟩ = (f (l.get ⟨i, hi⟩) k').1 := by
  induction l generalizing k i with
  | nil => simp at hi
  | cons a as ih =>
    cases i with
    | zero => exact ⟨k, rfl⟩
    | succ n =>
      have hn : n < as.length := by simpa using hi
      have hn' : n < (mapRand f as (f a k).2).1.length := by
        rw [mapRand_length]; exact hn
      rcases ih (f a k).2 n hn hn' with ⟨k', h⟩
      exact ⟨k', h⟩

theorem mapRand_countP (f : α → Nat → α × Nat) (q : α → Bool)
    (hf : ∀ a k, q (f a k).1 = q a) (l : List α) (k : Nat) :
    (mapRand f l k).1.countP q = l.countP q := by
  induction l generalizing k with
  | nil => simp [mapRand]
  | cons a as ih => simp [mapRand, List.countP_cons, ih, hf]

theorem mapAccumRand_length (f : σ → α → Nat → α × σ × Nat) (acc : σ) (l : List α) (k : Nat) :
    (mapAccumRand f acc l k).1.length = l.length := by
  induction l generalizing acc k with
  | nil => simp [mapAccumRand]
  | cons a as ih => simp [mapAccumRand, ih]

theorem mapAccumRand_mem (f : σ → α → Nat → α × σ × Nat) (acc : σ) (l : List α) (k : Nat) :
    ∀ b ∈ (mapAccumRand f acc l k).1, ∃ a ∈ l, ∃ acc' k', b = (f acc' a k').1 := by
  induction l generalizing acc k with
  | nil => simp [mapAccumRand]
  | cons a as ih =>
    intro b hb
    simp only [mapAccumRand, List.mem_cons] at hb
    rcases hb with hb | hb
    · exact ⟨a, List.mem_cons_self a as, acc, k, hb⟩
    · rcases ih (f acc a k).2.1 (f acc a k).2.2 b hb with ⟨a', ha', acc', k', h⟩
      exact ⟨a', List.mem_cons_of_mem a ha', acc', k', h⟩

theorem mapAccumRand_get (f : σ → α → Nat → α × σ × Nat) (acc : σ) (l : List α) (k : Nat)
    (i : Nat) (hi : i < l.length) (hi' : i < (mapAccumRand f acc l k).1.length) :
    ∃ acc' k', (mapAccumRand f acc l k).1.get ⟨i, hi'⟩ = (f acc' (l.get ⟨i, hi⟩) k').1 := by
  induction l generalizing acc k i with
  | nil => simp at hi
  | cons a as ih =>
    cases i with
    | zero => exact ⟨acc, k, rfl⟩
    | succ n =>
      have hn : n < as.length := by simpa using hi
      have hn' : n < (mapAccumRand f (f acc a k).2.1 as (f acc a k).2.2).1.length := by
        rw [mapAccumRand_length]; exact hn
      rcases ih (f acc a k).2.1 (f acc a k).2.2 n hn hn' with ⟨acc', k', h⟩
      exact ⟨acc', k', h⟩

theorem mapAccumRand_countP (f : σ → α → Nat → α × σ × Nat) (q : α → Bool)
    (hf : ∀ acc a k, q (f acc a k).1 = q a) (acc : σ) (l : List α) (k : Nat) :
    (mapAccumRand f acc l k).1.countP q = l.countP q := by
  induction l generalizing acc k with
  | nil => simp [mapAccumRand]
  | cons a as ih => simp [mapAccumRand, List.countP_cons, ih, hf]

theorem mapAccumRand_fst_eq_map (f : σ → α → Nat → α × σ × Nat) (g : α → α)
    (hf : ∀ acc a k, (f acc a k).1 = g a) (acc : σ) (l : List α) (k : Nat) :
    (mapAccumRand f acc l k).1 = l.map g := by
  induction l generalizing acc k with
  | nil => simp [mapAccumRand]
  | cons a as ih => simp [mapAccumRand, ih, hf]

/-! ### Entity-count abbreviations and the run invariant -/

/-- Number of people marked caught. -/
def countCaught (l : List Person) : Nat := l.countP (fun p => p.caught)

/-- Number of people marked survived. -/
def countSurvived (l : List Person) : Nat := l.countP (fun p => p.survived)

/-- Number of destroyed buildings. -/
def countDestroyedBuildings (l : List Building) : Nat := l.countP (fun b => b.destroyed)

/-- Number of destroyed vehicles. -/
def countDestroyedVehicles (l : List Vehicle) : Nat := l.countP (fun v => v.destroyed)

/-- The stats block agrees with the terminal-flag counts. -/
def StatsOk (s : SimulationState) : Prop :=
  s.stats.casualties = (countCaught s.people : ℚ) ∧
  s.stats.survivors = (countSurvived s.people : ℚ) ∧
  s.stats.buildingsDestroyed = (countDestroyedBuildings s.buildings : ℚ) ∧
  s.stats.vehiclesDestroyed = (countDestroyedVehicles s.vehicles : ℚ)

/-- No person is both caught and survived. -/
def PeopleOk (s : SimulationState) : Prop :=
  ∀ p ∈ s.people, ¬(p.caught = true ∧ p.survived = true)

/-- Every destroyed vehicle was evacuated first. -/
def VehOk (s : SimulationState) : Prop :=
  ∀ v ∈ s.vehicles, v.destroyed = true → v.evacuated = true

/-- All vehicles are evacuated. -/
def AllEvac (s : SimulationState) : Prop :=
  ∀ v ∈ s.vehicles, v.evacuated = true

/-- Phases at or after wave shoaling, by which point the engine has
force-evacuated every vehicle. -/
def phaseAtLeastShoaling : SimulationPhase → Bool
  | .waveShoaling => true
  | .waveBreaking => true
  | .inundation => true
  | .recession => true
  | .aftermath => true
  | _ => false

/-- In phases at or after shoaling, all vehicles are evacuated. -/
def PhaseEvac (s : SimulationState) : Prop :=
  phaseAtLeastShoaling s.phase = true → AllEvac s

/-- The run invariant maintained by every public engine operation. -/
def Inv (s : SimulationState) : Prop :=
  PeopleOk s ∧ StatsOk s ∧ VehOk s ∧ PhaseEvac s

/-! ### Per-step flag lemmas -/

theorem earthquakePersonStep_flags (e : Env) (p : Person) (k : Nat) :
    (earthquakePersonStep e p k).1.caught = p.caught ∧
    (earthquakePersonStep e p k).1.survived = p.survived := by
  unfold earthquakePersonStep
  split_ifs <;> simp

theorem waveTravelPersonStep_flags (e : Env) (p : Person) (k : Nat) :
    (waveTravelPersonStep e p k).1.caught = p.caught ∧
    (waveTravelPersonStep e p k).1.survived = p.survived := by
  unfold waveTravelPersonStep
  split_ifs <;> simp

theorem shoalingPersonStep_flags (progress : ℚ) (p : Person) :
    (shoalingPersonStep progress p).caught = p.caught ∧
    (shoalingPersonStep progress p).survived = p.survived := by
  unfold shoalingPersonStep
  split_ifs <;> simp

theorem fleeingPersonStep_flags (dt : ℚ) (p : Person) :
    (fleeingPersonStep dt p).caught = p.caught ∧
    (fleeingPersonStep dt p).survived = p.survived := by
  unfold fleeingPersonStep
  split_ifs <;> simp

theorem inundationPersonStep_flagsLe (cfg : WorldConfig) (waterFront : ℚ)
    (acc : Stats) (p : Person) (k : Nat) :
    (p.caught = true → (inundationPersonStep cfg waterFront acc p k).1.caught = true) ∧
    (p.survived = true → (inundationPersonStep cfg waterFront acc p k).1.survived = true) := by
  unfold inundationPersonStep
  split_ifs with h1 h2 h3 <;> simp_all

theorem inundationPersonStep_mutex (cfg : WorldConfig) (waterFront : ℚ)
    (acc : Stats) (p : Person) (k : Nat) (h : ¬(p.caught = true ∧ p.survived = true)) :
    ¬((inundationPersonStep cfg waterFront acc p k).1.caught = true ∧
      (inundationPersonStep cfg waterFront acc p k).1.survived = true) := by
  unfold inundationPersonStep
  split_ifs with h1 h2 h3 <;> simp_all

theorem recessionPersonStep_flagsLe (e : Env) (cfg : WorldConfig) (front : ℚ)
    (acc : Stats) (p : Person) (k : Nat) :
    (p.caught = true → (recessionPersonStep e cfg front acc p k).1.caught = true) ∧
    (p.survived = true → (recessionPersonStep e cfg front acc p k).1.survived = true) := by
  unfold recessionPersonStep
  split_ifs <;> simp_all

theorem recessionPersonStep_mutex (e : Env) (cfg : WorldConfig) (front : ℚ)
    (acc : Stats) (p : Person) (k : Nat) (h : ¬(p.caught = true ∧ p.survived = true)) :
    ¬((recessionPersonStep e cfg front acc p k).1.caught = true ∧
      (recessionPersonStep e cfg front acc p k).1.survived = true) := by
  unfold recessionPersonStep
  split_ifs <;> simp_all

theorem aftermathPersonStep_flagsLe (acc : Stats) (p : Person) (k : Nat) :
    (p.caught = true → (aftermathPersonStep acc p k).1.caught = true) ∧
    (p.survived = true → (aftermathPersonStep acc p k).1.survived = true) := by
  unfold aftermathPersonStep
  split_ifs <;> simp_all

theorem aftermathPersonStep_mutex (acc : Stats) (p : Person) (k : Nat)
    (h : ¬(p.caught = true ∧ p.survived = true)) :
    ¬((aftermathPersonStep acc p k).1.caught = true ∧
      (aftermathPersonStep acc p k).1.survived = true) := by
  unfold aftermathPersonStep
  split_ifs <;> simp_all

/-! ### Characterization of vehicle evacuation -/

theorem evacueeLoop_flags (e : Env) (cfg : WorldConfig) (v : Vehicle) :
    ∀ n i k, ∀ p ∈ (evacueeLoop e cfg v n i k).1,
      p.caught = false ∧ p.survived = false ∧ p.fleeing = true := by
  intro n
  induction n with
  | zero => intro i k p hp; simp [evacueeLoop] at hp
  | succ m ih =>
    intro i k p hp
    simp only [evacueeLoop, List.mem_cons] at hp
    rcases hp with hp | hp
    · subst hp; exact ⟨rfl, rfl, rfl⟩
    · exact ih (i + 1) (k + 6) p hp

theorem evacueeLoop_length (e : Env) (cfg : WorldConfig) (v : Vehicle) :
    ∀ n i k, (evacueeLoop e cfg v n i k).1.length = n := by
  intro n
  induction n with
  | zero => intro i k; simp [evacueeLoop]
  | succ m ih => intro i k; simp [evacueeLoop, ih]

theorem evacuateVehicle_state (e : Env) (cfg : WorldConfig) (v : Vehicle)
    (s : SimulationState) (k : Nat) :
    ∃ ps, (evacuateVehicle e cfg v s k).2.1 = { s with people := s.people ++ ps } ∧
      ∀ p ∈ ps, p.caught = false ∧ p.survived = false ∧ p.fleeing = true := by
  unfold evacuateVehicle
  split_ifs with h
  · exact ⟨[], by simp, by simp⟩
  · exact ⟨_, rfl, evacueeLoop_flags e cfg _ _ 0 k⟩

theorem evacuateVehicle_vehicle (e : Env) (cfg : WorldConfig) (v : Vehicle)
    (s : SimulationState) (k : Nat) :
    (evacuateVehicle e cfg v s k).1.destroyed = v.destroyed ∧
    (evacuateVehicle e cfg v s k).1.evacuated = (v.evacuated || !v.destroyed) := by
  unfold evacuateVehicle
  split_ifs with h
  · rcases h with h | h <;> simp [h]
  · push_neg at h
    simp [h.1, h.2]

theorem waveTravelVehicleStep_vehicle (e : Env) (cfg : WorldConfig) (s : SimulationState)
    (v : Vehicle) (k : Nat) :
    (waveTravelVehicleStep e cfg s v k).1.destroyed = v.destroyed ∧
    (v.evacuated = true → (waveTravelVehicleStep e cfg s v k).1.evacuated = true) := by
  unfold waveTravelVehicleStep
  split_ifs with h1 h2
  · exact ⟨(evacuateVehicle_vehicle e cfg v s (k + 1)).1, by simp [h1]⟩
  · simp
  · simp

theorem waveTravelVehicleStep_state (e : Env) (cfg : WorldConfig) (s : SimulationState)
    (v : Vehicle) (k : Nat) :
    ∃ ps, (waveTravelVehicleStep e cfg s v k).2.1 = { s with people := s.people ++ ps } ∧
      ∀ p ∈ ps, p.caught = false ∧ p.survived = false ∧ p.fleeing = true := by
  unfold waveTravelVehicleStep
  split_ifs with h1 h2
  · exact evacuateVehicle_state e cfg v s (k + 1)
  · exact ⟨[], by simp, by simp⟩
  · exact ⟨[], by simp, by simp⟩

theorem shoalingVehicleStep_vehicle (e : Env) (cfg : WorldConfig) (s : SimulationState)
    (v : Vehicle) (k : Nat) :
    (shoalingVehicleStep e cfg s v k).1.destroyed = v.destroyed ∧
    (shoalingVehicleStep e cfg s v k).1.evacuated = (v.evacuated || !v.destroyed) := by
  unfold shoalingVehicleStep
  split_ifs with h1
  · exact ⟨(evacuateVehicle_vehicle e cfg v s k).1,
      by rw [(evacuateVehicle_vehicle e cfg v s k).2]⟩
  · have : v.evacuated = true := by
      cases hv : v.evacuated
      · exact absurd hv h1
      · rfl
    simp [this]

theorem shoalingVehicleStep_state (e : Env) (cfg : WorldConfig) (s : SimulationState)
    (v : Vehicle) (k : Nat) :
    ∃ ps, (shoalingVehicleStep e cfg s v k).2.1 = { s with people := s.people ++ ps } ∧
      ∀ p ∈ ps, p.caught = false ∧ p.survived = false ∧ p.fleeing = true := by
  unfold shoalingVehicleStep
  split_ifs with h1
  · exact evacuateVehicle_state e cfg v s k
  · exact ⟨[], by simp, by simp⟩

theorem inundationVehicleStep_vehicle (waterFront : ℚ) (acc : Stats) (v : Vehicle) (k : Nat) :
    (inundationVehicleStep waterFront acc v k).1.evacuated = v.evacuated ∧
    (v.destroyed = true → (inundationVehicleStep waterFront acc v k).1.destroyed = true) := by
  unfold inundationVehicleStep
  split_ifs <;> simp_all

/-! ### Counting lemmas for the stats-coupled folds -/

theorem mapAccumRand_cons (f : σ → α → Nat → α × σ × Nat) (acc : σ) (a : α) (l : List α) (k : Nat) :
    mapAccumRand f acc (a :: l) k =
      ((f acc a k).1 :: (mapAccumRand f (f acc a k).2.1 l (f acc a k).2.2).1,
       (mapAccumRand f (f acc a k).2.1 l (f acc a k).2.2).2.1,
       (mapAccumRand f (f acc a k).2.1 l (f acc a k).2.2).2.2) := rfl

theorem debrisLoop_length (e : Env) (b : Building) :
    ∀ n ds k, (debrisLoop e b n ds k).1.length = ds.length + n := by
  intro n
  induction n with
  | zero => intro ds k; simp [debrisLoop]
  | succ m ih =>
    intro ds k
    simp only [debrisLoop]
    rw [ih]
    simp
    omega

theorem inundationBuildingStep_summary (e : Env) (front depth ms dt : ℚ)
    (ds : List Debris) (st : Stats) (b : Building) (k : Nat) :
    (inundationBuildingStep e front depth ms dt (ds, st) b k).2.1.2.casualties = st.casualties ∧
    (inundationBuildingStep e front depth ms dt (ds, st) b k).2.1.2.survivors = st.survivors ∧
    (inundationBuildingStep e front depth ms dt (ds, st) b k).2.1.2.vehiclesDestroyed = st.vehiclesDestroyed ∧
    (inundationBuildingStep e front depth ms dt (ds, st) b k).2.1.2.buildingsDestroyed
        + (if b.destroyed then (1 : ℚ) else 0)
      = st.buildingsDestroyed
        + (if (inundationBuildingStep e front depth ms dt (ds, st) b k).1.destroyed then (1 : ℚ) else 0) ∧
    (inundationBuildingStep e front depth ms dt (ds, st) b k).2.1.1.length
        + 5 * (if b.destroyed then 1 else 0)
      = ds.length
        + 5 * (if (inundationBuildingStep e front depth ms dt (ds, st) b k).1.destroyed then 1 else 0) := by
  by_cases h1 : b.destroyed = false ∧ b.x < front
  · by_cases h2 : b.health - depth * (dt / 1000) * (ms + 0.5) ≤ 0
    · unfold inundationBuildingStep
      simp only [if_pos h1]
      simp only [if_pos h2]
      simp [h1.1, debrisLoop_length]
    · unfold inundationBuildingStep
      simp only [if_pos h1]
      simp only [if_neg h2]
      simp [h1.1]
  · unfold inundationBuildingStep
    simp only [if_neg h1]
    simp

theorem inundation_buildings_stats (e : Env) (front depth ms dt : ℚ) :
    ∀ (l : List Building) (ds : List Debris) (st : Stats) (k : Nat),
      (mapAccumRand (inundationBuildingStep e front depth ms dt) (ds, st) l k).2.1.2.casualties = st.casualties ∧
      (mapAccumRand (inundationBuildingStep e front depth ms dt) (ds, st) l k).2.1.2.survivors = st.survivors ∧
      (mapAccumRand (inundationBuildingStep e front depth ms dt) (ds, st) l k).2.1.2.vehiclesDestroyed = st.vehiclesDestroyed ∧
      (mapAccumRand (inundationBuildingStep e front depth ms dt) (ds, st) l k).2.1.2.buildingsDestroyed
          + (countDestroyedBuildings l : ℚ)
        = st.buildingsDestroyed
          + (countDestroyedBuildings (mapAccumRand (inundationBuildingStep e front depth ms dt) (ds, st) l k).1 : ℚ) ∧
      (mapAccumRand (inundationBuildingStep e front depth ms dt) (ds, st) l k).2.1.1.length
          + 5 * countDestroyedBuildings l
        = ds.length
          + 5 * countDestroyedBuildings (mapAccumRand (inundationBuildingStep e front depth ms dt) (ds, st) l k).1 := by
  intro l
  induction l with
  | nil => intro ds st k; simp [mapAccumRand, countDestroyedBuildings]
  | cons b bs ih =>
    intro ds st k
    rw [mapAccumRand_cons]
    obtain ⟨s1, s2, s3, s4, s5⟩ := inundationBuildingStep_summary e front depth ms dt ds st b k
    obtain ⟨i1, i2, i3, i4, i5⟩ :=
      ih (inundationBuildingStep e front depth ms dt (ds, st) b k).2.1.1
        (inundationBuildingStep e front depth ms dt (ds, st) b k).2.1.2
        (inundationBuildingStep e front depth ms dt (ds, st) b k).2.2
    simp only [Prod.mk.eta] at i1 i2 i3 i4 i5
    refine ⟨by rw [i1, s1], by rw [i2, s2], by rw [i3, s3], ?_, ?_⟩
    · simp only [countDestroyedBuildings, List.countP_cons] at i4 ⊢
      by_cases hb : b.destroyed <;>
        by_cases hr : (inundationBuildingStep e front depth ms dt (ds, st) b k).1.destroyed <;>
        · simp only [hb, hr] at s4 ⊢
          push_cast at i4 ⊢
          simp at s4 ⊢
          linarith
    · simp only [countDestroyedBuildings, List.countP_cons] at i5 ⊢
      by_cases hb : b.destroyed <;>
        by_cases hr : (inundationBuildingStep e front depth ms dt (ds, st) b k).1.destroyed <;>
        · simp only [hb, hr] at s5 ⊢
          simp at s5 ⊢
          omega

/-- Generic counting lemma: a person fold whose step books casualties and
survivors exactly when it sets the corresponding flag keeps the running
stats in sync with the flag counts. -/
theorem people_fold_stats (f : Stats → Person → Nat → Person × Stats × Nat)
    (hf : ∀ st p k,
      (f st p k).2.1.buildingsDestroyed = st.buildingsDestroyed ∧
      (f st p k).2.1.vehiclesDestroyed = st.vehiclesDestroyed ∧
      (f st p k).2.1.casualties + (if p.caught then (1 : ℚ) else 0)
        = st.casualties + (if (f st p k).1.caught then (1 : ℚ) else 0) ∧
      (f st p k).2.1.survivors + (if p.survived then (1 : ℚ) else 0)
        = st.survivors + (if (f st p k).1.survived then (1 : ℚ) else 0)) :
    ∀ (l : List Person) (st : Stats) (k : Nat),
      (mapAccumRand f st l k).2.1.buildingsDestroyed = st.buildingsDestroyed ∧
      (mapAccumRand f st l k).2.1.vehiclesDestroyed = st.vehiclesDestroyed ∧
      (mapAccumRand f st l k).2.1.casualties + (countCaught l : ℚ)
        = st.casualties + (countCaught (mapAccumRand f st l k).1 : ℚ) ∧
      (mapAccumRand f st l k).2.1.survivors + (countSurvived l : ℚ)
        = st.survivors + (countSurvived (mapAccumRand f st l k).1 : ℚ) := by
  intro l
  induction l with
  | nil => intro st k; simp [mapAccumRand, countCaught, countSurvived]
  | cons p ps ih =>
    intro st k
    rw [mapAccumRand_cons]
    obtain ⟨s1, s2, s3, s4⟩ := hf st p k
    obtain ⟨i1, i2, i3, i4⟩ := ih (f st p k).2.1 (f st p k).2.2
    refine ⟨by rw [i1, s1], by rw [i2, s2], ?_, ?_⟩
    · simp only [countCaught, List.countP_cons] at i3 ⊢
      by_cases hp : p.caught <;> by_cases hr : (f st p k).1.caught <;>
        · simp only [hp, hr] at s3 ⊢
          push_cast at i3 ⊢
          simp at s3 ⊢
          linarith
    · simp only [countSurvived, List.countP_cons] at i4 ⊢
      by_cases hp : p.survived <;> by_cases hr : (f st p k).1.survived <;>
        · simp only [hp, hr] at s4 ⊢
          push_cast at i4 ⊢
          simp at s4 ⊢
          linarith

/-- Generic counting lemma for a vehicle fold, mirroring
`people_fold_stats` for the destroyed-vehicle counter. -/
theorem vehicles_fold_stats (f : Stats → Vehicle → Nat → Vehicle × Stats × Nat)
    (hf : ∀ st v k,
      (f st v k).2.1.buildingsDestroyed = st.buildingsDestroyed ∧
      (f st v k).2.1.casualties = st.casualties ∧
      (f st v k).2.1.survivors = st.survivors ∧
      (f st v k).2.1.vehiclesDestroyed + (if v.destroyed then (1 : ℚ) else 0)
        = st.vehiclesDestroyed + (if (f st v k).1.destroyed then (1 : ℚ) else 0)) :
    ∀ (l : List Vehicle) (st : Stats) (k : Nat),
      (mapAccumRand f st l k).2.1.buildingsDestroyed = st.buildingsDestroyed ∧
      (mapAccumRand f st l k).2.1.casualties = st.casualties ∧
      (mapAccumRand f st l k).2.1.survivors = st.survivors ∧
      (mapAccumRand f st l k).2.1.vehiclesDestroyed + (countDestroyedVehicles l : ℚ)
        = st.vehiclesDestroyed + (countDestroyedVehicles (mapAccumRand f st l k).1 : ℚ) := by
  intro l
  induction l with
  | nil => intro st k; simp [mapAccumRand, countDestroyedVehicles]
  | cons v vs ih =>
    intro st k
    rw [mapAccumRand_cons]
    obtain ⟨s1, s2, s3, s4⟩ := hf st v k
    obtain ⟨i1, i2, i3, i4⟩ := ih (f st v k).2.1 (f st v k).2.2
    refine ⟨by rw [i1, s1], by rw [i2, s2], by rw [i3, s3], ?_⟩
    simp only [countDestroyedVehicles, List.countP_cons] at i4 ⊢
    by_cases hv : v.destroyed <;> by_cases hr : (f st v k).1.destroyed <;>
      · simp only [hv, hr] at s4 ⊢
        push_cast at i4 ⊢
        simp at s4 ⊢
        linarith

theorem inundationVehicleStep_summary (front : ℚ) (st : Stats) (v : Vehicle) (k : Nat) :
    (inundationVehicleStep front st v k).2.1.buildingsDestroyed = st.buildingsDestroyed ∧
    (inundationVehicleStep front st v k).2.1.casualties = st.casualties ∧
    (inundationVehicleStep front st v k).2.1.survivors = st.survivors ∧
    (inundationVehicleStep front st v k).2.1.vehiclesDestroyed + (if v.destroyed then (1 : ℚ) else 0)
      = st.vehiclesDestroyed + (if (inundationVehicleStep front st v k).1.destroyed then (1 : ℚ) else 0) := by
  by_cases h1 : v.destroyed = false ∧ v.x < front
  · unfold inundationVehicleStep
    simp only [if_pos h1]
    simp [h1.1]
  · unfold inundationVehicleStep
    simp only [if_neg h1]
    simp

theorem inundationPersonStep_summary (cfg : WorldConfig) (front : ℚ)
    (st : Stats) (p : Person) (k : Nat) :
    (inundationPersonStep cfg front st p k).2.1.buildingsDestroyed = st.buildingsDestroyed ∧
    (inundationPersonStep cfg front st p k).2.1.vehiclesDestroyed = st.vehiclesDestroyed ∧
    (inundationPersonStep cfg front st p k).2.1.casualties + (if p.caught then (1 : ℚ) else 0)
      = st.casualties + (if (inundationPersonStep cfg front st p k).1.caught then (1 : ℚ) else 0) ∧
    (inundationPersonStep cfg front st p k).2.1.survivors + (if p.survived then (1 : ℚ) else 0)
      = st.survivors + (if (inundationPersonStep cfg front st p k).1.survived then (1 : ℚ) else 0) := by
  by_cases h1 : p.caught = false ∧ p.survived = false
  · by_cases h2 : p.x < front
    · unfold inundationPersonStep
      simp only [if_pos h1, if_pos h2]
      simp [h1.1, h1.2]
    · by_cases h3 : p.x > cfg.townEndX - 100
      · unfold inundationPersonStep
        simp only [if_pos h1, if_neg h2, if_pos h3]
        simp [h1.1, h1.2]
      · unfold inundationPersonStep
        simp only [if_pos h1, if_neg h2, if_neg h3]
        simp
  · unfold inundationPersonStep
    simp only [if_neg h1]
    simp

theorem recessionPersonStep_summary (e : Env) (cfg : WorldConfig) (front : ℚ)
    (st : Stats) (p : Person) (k : Nat) :
    (recessionPersonStep e cfg front st p k).2.1.buildingsDestroyed = st.buildingsDestroyed ∧
    (recessionPersonStep e cfg front st p k).2.1.vehiclesDestroyed = st.vehiclesDestroyed ∧
    (recessionPersonStep e cfg front st p k).2.1.casualties + (if p.caught then (1 : ℚ) else 0)
      = st.casualties + (if (recessionPersonStep e cfg front st p k).1.caught then (1 : ℚ) else 0) ∧
    (recessionPersonStep e cfg front st p k).2.1.survivors + (if p.survived then (1 : ℚ) else 0)
      = st.survivors + (if (recessionPersonStep e cfg front st p k).1.survived then (1 : ℚ) else 0) := by
  by_cases h1 : p.caught = false ∧ p.survived = false
  · by_cases h2 : p.x < front ∧ p.x > cfg.townStartX
    · by_cases h3 : e.rand k < 0.002
      · unfold recessionPersonStep
        simp only [if_pos h1, if_pos h2, if_pos h3]
        simp [h1.1, h1.2]
      · by_cases h4 : p.x > cfg.townEndX - 100
        · unfold recessionPersonStep
          simp only [if_pos h1, if_pos h2, if_neg h3, if_pos h4]
          simp [h1.1, h1.2]
        · unfold recessionPersonStep
          simp only [if_pos h1, if_pos h2, if_neg h3, if_neg h4]
          simp
    · by_cases h4 : p.x > cfg.townEndX - 100
      · unfold recessionPersonStep
        simp only [if_pos h1, if_neg h2, if_pos h4]
        simp [h1.1, h1.2]
      · unfold recessionPersonStep
        simp only [if_pos h1, if_neg h2, if_neg h4]
        simp
  · unfold recessionPersonStep
    simp only [if_neg h1]
    simp

theorem aftermathPersonStep_summary (st : Stats) (p : Person) (k : Nat) :
    (aftermathPersonStep st p k).2.1.buildingsDestroyed = st.buildingsDestroyed ∧
    (aftermathPersonStep st p k).2.1.vehiclesDestroyed = st.vehiclesDestroyed ∧
    (aftermathPersonStep st p k).2.1.casualties + (if p.caught then (1 : ℚ) else 0)
      = st.casualties + (if (aftermathPersonStep st p k).1.caught then (1 : ℚ) else 0) ∧
    (aftermathPersonStep st p k).2.1.survivors + (if p.survived then (1 : ℚ) else 0)
      = st.survivors + (if (aftermathPersonStep st p k).1.survived then (1 : ℚ) else 0) := by
  by_cases h1 : p.caught = false ∧ p.survived = false
  · unfold aftermathPersonStep
    simp only [if_pos h1]
    simp [h1.1, h1.2]
  · unfold aftermathPersonStep
    simp only [if_neg h1]
    simp

/-- Generic shape of the vehicle-evacuation folds: the threaded state comes
out with some fresh unresolved fleeing people appended and nothing else
changed. -/
theorem vehicles_state_fold (f : SimulationState → Vehicle → Nat → Vehicle × SimulationState × Nat)
    (hf : ∀ s v k, ∃ ps, (f s v k).2.1 = { s with people := s.people ++ ps } ∧
      ∀ p ∈ ps, p.caught = false ∧ p.survived = false ∧ p.fleeing = true) :
    ∀ (l : List Vehicle) (s : SimulationState) (k : Nat),
      ∃ ps, (mapAccumRand f s l k).2.1 = { s with people := s.people ++ ps } ∧
        ∀ p ∈ ps, p.caught = false ∧ p.survived = false ∧ p.fleeing = true := by
  intro l
  induction l with
  | nil =>
    intro s k
    exact ⟨[], by simp [mapAccumRand], by simp⟩
  | cons v vs ih =>
    intro s k
    rw [mapAccumRand_cons]
    obtain ⟨ps1, h1, hf1⟩ := hf s v k
    rw [h1]
    obtain ⟨ps2, h2, hf2⟩ := ih { s with people := s.people ++ ps1 } (f s v k).2.2
    refine ⟨ps1 ++ ps2, ?_, ?_⟩
    · rw [h2]
      simp [List.append_assoc]
    · intro p hp
      rcases List.mem_append.1 hp with hp | hp
      · exact hf1 p hp
      · exact hf2 p hp

/-- Zero counts on a list of unresolved people. -/
theorem counts_zero_of_unresolved (ps : List Person)
    (h : ∀ p ∈ ps, p.caught = false ∧ p.survived = false ∧ p.fleeing = true) :
    countCaught ps = 0 ∧ countSurvived ps = 0 := by
  constructor
  · exact List.countP_eq_zero.2 (fun p hp => by simp [(h p hp).1])
  · exact List.countP_eq_zero.2 (fun p hp => by simp [(h p hp).2.1])

/-! ### Handler component lemmas -/

theorem updateParticles_comps (s : SimulationState) (dt : ℚ) :
    (updateParticles s dt).phase = s.phase ∧
    (updateParticles s dt).phaseTime = s.phaseTime ∧
    (updateParticles s dt).people = s.people ∧
    (updateParticles s dt).vehicles = s.vehicles ∧
    (updateParticles s dt).buildings = s.buildings ∧
    (updateParticles s dt).stats = s.stats := by
  simp [updateParticles]

theorem updateFleeingEntities_comps (s : SimulationState) (dt : ℚ) (cfg : WorldConfig) :
    (updateFleeingEntities s dt cfg).phase = s.phase ∧
    (updateFleeingEntities s dt cfg).phaseTime = s.phaseTime ∧
    (updateFleeingEntities s dt cfg).vehicles = s.vehicles ∧
    (updateFleeingEntities s dt cfg).buildings = s.buildings ∧
    (updateFleeingEntities s dt cfg).stats = s.stats ∧
    countCaught (updateFleeingEntities s dt cfg).people = countCaught s.people ∧
    countSurvived (updateFleeingEntities s dt cfg).people = countSurvived s.people ∧
    (∀ p' ∈ (updateFleeingEntities s dt cfg).people, ∃ p ∈ s.people,
      p'.caught = p.caught ∧ p'.survived = p.survived) := by
  refine ⟨rfl, rfl, rfl, rfl, rfl, ?_, ?_, ?_⟩
  · simp only [updateFleeingEntities, countCaught, List.countP_map]
    exact List.countP_congr (fun p _ => by
      simp [Function.comp, (fleeingPersonStep_flags dt p).1])
  · simp only [updateFleeingEntities, countSurvived, List.countP_map]
    exact List.countP_congr (fun p _ => by
      simp [Function.comp, (fleeingPersonStep_flags dt p).2])
  · intro p' hp'
    simp only [updateFleeingEntities, List.mem_map] at hp'
    obtain ⟨p, hp, rfl⟩ := hp'
    exact ⟨p, hp, (fleeingPersonStep_flags dt p).1, (fleeingPersonStep_flags dt p).2⟩

theorem updateWaveFormation_comps (e : Env) (s : SimulationState) (dt : ℚ) (cfg : WorldConfig) (k : Nat) :
    (updateWaveFormation e s dt cfg k).1.phase = s.phase ∧
    (updateWaveFormation e s dt cfg k).1.phaseTime = s.phaseTime ∧
    (updateWaveFormation e s dt cfg k).1.people = s.people ∧
    (updateWaveFormation e s dt cfg k).1.vehicles = s.vehicles ∧
    (updateWaveFormation e s dt cfg k).1.buildings = s.buildings ∧
    (updateWaveFormation e s dt cfg k).1.stats = s.stats := by
  simp [updateWaveFormation]

theorem updateEarthquake_fixed (e : Env) (s : SimulationState) (dt : ℚ) (cfg : WorldConfig) (k : Nat) :
    (updateEarthquake e s dt cfg k).1.phase = s.phase ∧
    (updateEarthquake e s dt cfg k).1.phaseTime = s.phaseTime ∧
    (updateEarthquake e s dt cfg k).1.vehicles = s.vehicles ∧
    (updateEarthquake e s dt cfg k).1.buildings = s.buildings ∧
    (updateEarthquake e s dt cfg k).1.stats = s.stats := by
  by_cases h : s.phaseTime / 8000 > 0.7
  · simp [updateEarthquake, if_pos h]
  · simp [updateEarthquake, if_neg h]

theorem updateEarthquake_people (e : Env) (s : SimulationState) (dt : ℚ) (cfg : WorldConfig) (k : Nat) :
    (updateEarthquake e s dt cfg k).1.people = s.people ∨
    (updateEarthquake e s dt cfg k).1.people = (mapRand (earthquakePersonStep e) s.people k).1 := by
  by_cases h : s.phaseTime / 8000 > 0.7
  · right
    simp only [updateEarthquake, if_pos h]
  · left
    simp only [updateEarthquake, if_neg h]

theorem updateEarthquake_people_rel (e : Env) (s : SimulationState) (dt : ℚ) (cfg : WorldConfig) (k : Nat) :
    countCaught (updateEarthquake e s dt cfg k).1.people = countCaught s.people ∧
    countSurvived (updateEarthquake e s dt cfg k).1.people = countSurvived s.people ∧
    (∀ p' ∈ (updateEarthquake e s dt cfg k).1.people, ∃ p ∈ s.people,
      p'.caught = p.caught ∧ p'.survived = p.survived) := by
  rcases updateEarthquake_people e s dt cfg k with hp | hp <;> rw [hp]
  · exact ⟨rfl, rfl, fun p' hp' => ⟨p', hp', rfl, rfl⟩⟩
  · refine ⟨mapRand_countP (earthquakePersonStep e) (fun p => p.caught)
      (fun p k' => (earthquakePersonStep_flags e p k').1) s.people k,
      mapRand_countP (earthquakePersonStep e) (fun p => p.survived)
      (fun p k' => (earthquakePersonStep_flags e p k').2) s.people k, ?_⟩
    intro p' hp'
    obtain ⟨p, hpm, k', heq⟩ := mapRand_mem (earthquakePersonStep e) s.people k p' hp'
    refine ⟨p, hpm, ?_, ?_⟩
    · rw [heq]
      exact (earthquakePersonStep_flags e p k').1
    · rw [heq]
      exact (earthquakePersonStep_flags e p k').2

/-- Core lemma for the two vehicle-evacuation passes (`updateWaveTravel`
and `updateWaveShoaling`): folding an evacuation step over the vehicles and
then running `updateFleeingEntities` preserves phase, clocks, buildings and
stats, preserves the terminal-flag counts (appended evacuees are
unresolved), and relates every output person and vehicle to an input one. -/
theorem evacFold_core (f : SimulationState → Vehicle → Nat → Vehicle × SimulationState × Nat)
    (hstate : ∀ s v k, ∃ ps, (f s v k).2.1 = { s with people := s.people ++ ps } ∧
      ∀ p ∈ ps, p.caught = false ∧ p.survived = false ∧ p.fleeing = true)
    (hveh : ∀ s v k, (f s v k).1.destroyed = v.destroyed ∧
      (v.evacuated = true → (f s v k).1.evacuated = true))
    (dt : ℚ) (cfg : WorldConfig) (s3 : SimulationState) (k : Nat) :
    (updateFleeingEntities { (mapAccumRand f s3 s3.vehicles k).2.1 with
        vehicles := (mapAccumRand f s3 s3.vehicles k).1 } dt cfg).phase = s3.phase ∧
    (updateFleeingEntities { (mapAccumRand f s3 s3.vehicles k).2.1 with
        vehicles := (mapAccumRand f s3 s3.vehicles k).1 } dt cfg).phaseTime = s3.phaseTime ∧
    (updateFleeingEntities { (mapAccumRand f s3 s3.vehicles k).2.1 with
        vehicles := (mapAccumRand f s3 s3.vehicles k).1 } dt cfg).buildings = s3.buildings ∧
    (updateFleeingEntities { (mapAccumRand f s3 s3.vehicles k).2.1 with
        vehicles := (mapAccumRand f s3 s3.vehicles k).1 } dt cfg).stats = s3.stats ∧
    countCaught (updateFleeingEntities { (mapAccumRand f s3 s3.vehicles k).2.1 with
        vehicles := (mapAccumRand f s3 s3.vehicles k).1 } dt cfg).people = countCaught s3.people ∧
    countSurvived (updateFleeingEntities { (mapAccumRand f s3 s3.vehicles k).2.1 with
        vehicles := (mapAccumRand f s3 s3.vehicles k).1 } dt cfg).people = countSurvived s3.people ∧
    (∀ p' ∈ (updateFleeingEntities { (mapAccumRand f s3 s3.vehicles k).2.1 with
        vehicles := (mapAccumRand f s3 s3.vehicles k).1 } dt cfg).people,
      (p'.caught = false ∧ p'.survived = false) ∨
      ∃ p ∈ s3.people, p'.caught = p.caught ∧ p'.survived = p.survived) ∧
    countDestroyedVehicles (updateFleeingEntities { (mapAccumRand f s3 s3.vehicles k).2.1 with
        vehicles := (mapAccumRand f s3 s3.vehicles k).1 } dt cfg).vehicles
      = countDestroyedVehicles s3.vehicles ∧
    (∀ v' ∈ (updateFleeingEntities { (mapAccumRand f s3 s3.vehicles k).2.1 with
        vehicles := (mapAccumRand f s3 s3.vehicles k).1 } dt cfg).vehicles,
      ∃ v ∈ s3.vehicles, v'.destroyed = v.destroyed ∧
        (v.evacuated = true → v'.evacuated = true)) := by
  obtain ⟨ps, hacc, hflags⟩ := vehicles_state_fold f hstate s3.vehicles s3 k
  obtain ⟨hz1, hz2⟩ := counts_zero_of_unresolved ps hflags
  rw [hacc]
  simp only [updateFleeingEntities]
  refine ⟨trivial, trivial, trivial, trivial, ?_, ?_, ?_, ?_, ?_⟩
  · simp only [countCaught, List.countP_map]
    have hcg : List.countP ((fun p => p.caught) ∘ fleeingPersonStep dt) (s3.people ++ ps)
        = List.countP (fun p => p.caught) (s3.people ++ ps) :=
      List.countP_congr (fun p _ => by simp [Function.comp, (fleeingPersonStep_flags dt p).1])
    rw [hcg, List.countP_append]
    have hz : ps.countP (fun p => p.caught) = 0 := hz1
    simp [hz]
  · simp only [countSurvived, List.countP_map]
    have hcg : List.countP ((fun p => p.survived) ∘ fleeingPersonStep dt) (s3.people ++ ps)
        = List.countP (fun p => p.survived) (s3.people ++ ps) :=
      List.countP_congr (fun p _ => by simp [Function.comp, (fleeingPersonStep_flags dt p).2])
    rw [hcg, List.countP_append]
    have hz : ps.countP (fun p => p.survived) = 0 := hz2
    simp [hz]
  · intro p' hp'
    simp only [List.mem_map] at hp'
    obtain ⟨q, hq, hqe⟩ := hp'
    have hflq := fleeingPersonStep_flags dt q
    rcases List.mem_append.1 hq with hq0 | hq0
    · right
      exact ⟨q, hq0, by rw [← hqe]; exact hflq.1, by rw [← hqe]; exact hflq.2⟩
    · left
      rw [← hqe]
      exact ⟨hflq.1.trans (hflags q hq0).1, hflq.2.trans (hflags q hq0).2.1⟩
  · exact mapAccumRand_countP f (fun v => v.destroyed)
      (fun s' v k' => (hveh s' v k').1) s3 s3.vehicles k
  · intro v' hv'
    obtain ⟨v, hvm, s', k', heq⟩ := mapAccumRand_mem f s3 s3.vehicles k v' hv'
    refine ⟨v, hvm, ?_, ?_⟩
    · rw [heq]
      exact (hveh s' v k').1
    · intro hev
      rw [heq]
      exact (hveh s' v k').2 hev

theorem updateWaveTravel_comps (e : Env) (s : SimulationState) (dt : ℚ) (cfg : WorldConfig) (k : Nat) :
    (updateWaveTravel e s dt cfg k).1.phase = s.phase ∧
    (updateWaveTravel e s dt cfg k).1.phaseTime = s.phaseTime ∧
    (updateWaveTravel e s dt cfg k).1.buildings = s.buildings ∧
    (updateWaveTravel e s dt cfg k).1.stats = s.stats ∧
    countCaught (updateWaveTravel e s dt cfg k).1.people = countCaught s.people ∧
    countSurvived (updateWaveTravel e s dt cfg k).1.people = countSurvived s.people ∧
    (∀ p' ∈ (updateWaveTravel e s dt cfg k).1.people,
      (p'.caught = false ∧ p'.survived = false) ∨
      ∃ p ∈ s.people, p'.caught = p.caught ∧ p'.survived = p.survived) ∧
    countDestroyedVehicles (updateWaveTravel e s dt cfg k).1.vehicles
      = countDestroyedVehicles s.vehicles ∧
    (∀ v' ∈ (updateWaveTravel e s dt cfg k).1.vehicles, ∃ v ∈ s.vehicles,
      v'.destroyed = v.destroyed ∧ (v.evacuated = true → v'.evacuated = true)) := by
  by_cases h : s.phaseTime / 12000 > 0.3
  · simp only [updateWaveTravel, if_pos h]
    refine ⟨?_, ?_, ?_, ?_, ?_, ?_, ?_, ?_, ?_⟩
    · exact (evacFold_core (waveTravelVehicleStep e cfg) (waveTravelVehicleStep_state e cfg)
        (waveTravelVehicleStep_vehicle e cfg) dt cfg _ _).1
    · exact (evacFold_core (waveTravelVehicleStep e cfg) (waveTravelVehicleStep_state e cfg)
        (waveTravelVehicleStep_vehicle e cfg) dt cfg _ _).2.1
    · exact (evacFold_core (waveTravelVehicleStep e cfg) (waveTravelVehicleStep_state e cfg)
        (waveTravelVehicleStep_vehicle e cfg) dt cfg _ _).2.2.1
    · exact (evacFold_core (waveTravelVehicleStep e cfg) (waveTravelVehicleStep_state e cfg)
        (waveTravelVehicleStep_vehicle e cfg) dt cfg _ _).2.2.2.1
    · exact ((evacFold_core (waveTravelVehicleStep e cfg) (waveTravelVehicleStep_state e cfg)
        (waveTravelVehicleStep_vehicle e cfg) dt cfg _ _).2.2.2.2.1).trans
        (mapRand_countP (waveTravelPersonStep e) (fun p => p.caught)
          (fun p k' => (waveTravelPersonStep_flags e p k').1) s.people k)
    · exact ((evacFold_core (waveTravelVehicleStep e cfg) (waveTravelVehicleStep_state e cfg)
        (waveTravelVehicleStep_vehicle e cfg) dt cfg _ _).2.2.2.2.2.1).trans
        (mapRand_countP (waveTravelPersonStep e) (fun p => p.survived)
          (fun p k' => (waveTravelPersonStep_flags e p k').2) s.people k)
    · intro p' hp'
      rcases (evacFold_core (waveTravelVehicleStep e cfg) (waveTravelVehicleStep_state e cfg)
          (waveTravelVehicleStep_vehicle e cfg) dt cfg _ _).2.2.2.2.2.2.1 p' hp' with
        hp0 | ⟨p, hpm, hpc, hps⟩
      · exact Or.inl hp0
      · obtain ⟨q, hqm, k', heq⟩ := mapRand_mem (waveTravelPersonStep e) s.people k p hpm
        right
        refine ⟨q, hqm, ?_, ?_⟩
        · rw [hpc, heq]
          exact (waveTravelPersonStep_flags e q k').1
        · rw [hps, heq]
          exact (waveTravelPersonStep_flags e q k').2
    · exact (evacFold_core (waveTravelVehicleStep e cfg) (waveTravelVehicleStep_state e cfg)
        (waveTravelVehicleStep_vehicle e cfg) dt cfg _ _).2.2.2.2.2.2.2.1
    · exact (evacFold_core (waveTravelVehicleStep e cfg) (waveTravelVehicleStep_state e cfg)
        (waveTravelVehicleStep_vehicle e cfg) dt cfg _ _).2.2.2.2.2.2.2.2
  · simp only [updateWaveTravel, if_neg h, updateFleeingEntities]
    refine ⟨trivial, trivial, trivial, trivial, ?_, ?_, ?_, ?_, ?_⟩
    · simp only [countCaught, List.countP_map]
      exact List.countP_congr (fun p _ => by
        simp [Function.comp, (fleeingPersonStep_flags dt p).1])
    · simp only [countSurvived, List.countP_map]
      exact List.countP_congr (fun p _ => by
        simp [Function.comp, (fleeingPersonStep_flags dt p).2])
    · intro p' hp'
      simp only [List.mem_map] at hp'
      obtain ⟨q, hq, hqe⟩ := hp'
      have hflq := fleeingPersonStep_flags dt q
      right
      exact ⟨q, hq, by rw [← hqe]; exact hflq.1, by rw [← hqe]; exact hflq.2⟩
    · trivial
    · exact fun v' hv' => ⟨v', hv', rfl, fun hev => hev⟩

/-- Appending a particle (or not) leaves every non-particle component of
the state unchanged. -/
theorem ite_particles_comps (c : Prop) [Decidable c] (s5 : SimulationState)
    (part : List Particle) (k1 k2 : Nat) :
    ((if c then ({ s5 with particles := part }, k1) else (s5, k2)).1).phase = s5.phase ∧
    ((if c then ({ s5 with particles := part }, k1) else (s5, k2)).1).phaseTime = s5.phaseTime ∧
    ((if c then ({ s5 with particles := part }, k1) else (s5, k2)).1).people = s5.people ∧
    ((if c then ({ s5 with particles := part }, k1) else (s5, k2)).1).vehicles = s5.vehicles ∧
    ((if c then ({ s5 with particles := part }, k1) else (s5, k2)).1).buildings = s5.buildings ∧
    ((if c then ({ s5 with particles := part }, k1) else (s5, k2)).1).stats = s5.stats ∧
    ((if c then ({ s5 with particles := part }, k1) else (s5, k2)).1).debris = s5.debris := by
  split <;> simp

theorem ite_particles_mem_people (c : Prop) [Decidable c] (s5 : SimulationState)
    (part : List Particle) (k1 k2 : Nat) (p : Person)
    (hp : p ∈ ((if c then ({ s5 with particles := part }, k1) else (s5, k2)).1).people) :
    p ∈ s5.people := by
  split at hp <;> simpa using hp

theorem ite_particles_mem_vehicles (c : Prop) [Decidable c] (s5 : SimulationState)
    (part : List Particle) (k1 k2 : Nat) (v : Vehicle)
    (hv : v ∈ ((if c then ({ s5 with particles := part }, k1) else (s5, k2)).1).vehicles) :
    v ∈ s5.vehicles := by
  split at hv <;> simpa using hv

theorem shoalingPeople_counts (progress : ℚ) (l : List Person) :
    countCaught (l.map (shoalingPersonStep progress)) = countCaught l ∧
    countSurvived (l.map (shoalingPersonStep progress)) = countSurvived l := by
  constructor
  · simp only [countCaught, List.countP_map]
    exact List.countP_congr (fun p _ => by
      simp [Function.comp, (shoalingPersonStep_flags progress p).1])
  · simp only [countSurvived, List.countP_map]
    exact List.countP_congr (fun p _ => by
      simp [Function.comp, (shoalingPersonStep_flags progress p).2])

theorem updateWaveShoaling_comps (e : Env) (s : SimulationState) (dt : ℚ) (cfg : WorldConfig) (k : Nat) :
    (updateWaveShoaling e s dt cfg k).1.phase = s.phase ∧
    (updateWaveShoaling e s dt cfg k).1.phaseTime = s.phaseTime ∧
    (updateWaveShoaling e s dt cfg k).1.buildings = s.buildings ∧
    (updateWaveShoaling e s dt cfg k).1.stats = s.stats ∧
    countCaught (updateWaveShoaling e s dt cfg k).1.people = countCaught s.people ∧
    countSurvived (updateWaveShoaling e s dt cfg k).1.people = countSurvived s.people ∧
    (∀ p' ∈ (updateWaveShoaling e s dt cfg k).1.people,
      (p'.caught = false ∧ p'.survived = false) ∨
      ∃ p ∈ s.people, p'.caught = p.caught ∧ p'.survived = p.survived) ∧
    countDestroyedVehicles (updateWaveShoaling e s dt cfg k).1.vehicles
      = countDestroyedVehicles s.vehicles ∧
    (∀ v' ∈ (updateWaveShoaling e s dt cfg k).1.vehicles, ∃ v ∈ s.vehicles,
      v'.destroyed = v.destroyed ∧ (v.evacuated = true → v'.evacuated = true)) ∧
    ((∀ v ∈ s.vehicles, v.destroyed = true → v.evacuated = true) →
      ∀ v' ∈ (updateWaveShoaling e s dt cfg k).1.vehicles, v'.evacuated = true) := by
  simp only [updateWaveShoaling]
  refine ⟨?_, ?_, ?_, ?_, ?_, ?_, ?_, ?_, ?_, ?_⟩
  · exact ((ite_particles_comps _ _ _ _ _).1).trans
      (evacFold_core (shoalingVehicleStep e cfg) (shoalingVehicleStep_state e cfg)
        (fun s' v k' => ⟨(shoalingVehicleStep_vehicle e cfg s' v k').1,
          fun hev => by rw [(shoalingVehicleStep_vehicle e cfg s' v k').2, hev]; rfl⟩)
        dt cfg _ _).1
  · exact ((ite_particles_comps _ _ _ _ _).2.1).trans
      (evacFold_core (shoalingVehicleStep e cfg) (shoalingVehicleStep_state e cfg)
        (fun s' v k' => ⟨(shoalingVehicleStep_vehicle e cfg s' v k').1,
          fun hev => by rw [(shoalingVehicleStep_vehicle e cfg s' v k').2, hev]; rfl⟩)
        dt cfg _ _).2.1
  · exact ((ite_particles_comps _ _ _ _ _).2.2.2.2.1).trans
      (evacFold_core (shoalingVehicleStep e cfg) (shoalingVehicleStep_state e cfg)
        (fun s' v k' => ⟨(shoalingVehicleStep_vehicle e cfg s' v k').1,
          fun hev => by rw [(shoalingVehicleStep_vehicle e cfg s' v k').2, hev]; rfl⟩)
        dt cfg _ _).2.2.1
  · exact ((ite_particles_comps _ _ _ _ _).2.2.2.2.2.1).trans
      (evacFold_core (shoalingVehicleStep e cfg) (shoalingVehicleStep_state e cfg)
        (fun s' v k' => ⟨(shoalingVehicleStep_vehicle e cfg s' v k').1,
          fun hev => by rw [(shoalingVehicleStep_vehicle e cfg s' v k').2, hev]; rfl⟩)
        dt cfg _ _).2.2.2.1
  · rw [(ite_particles_comps _ _ _ _ _).2.2.1]
    exact ((evacFold_core (shoalingVehicleStep e cfg) (shoalingVehicleStep_state e cfg)
      (fun s' v k' => ⟨(shoalingVehicleStep_vehicle e cfg s' v k').1,
        fun hev => by rw [(shoalingVehicleStep_vehicle e cfg s' v k').2, hev]; rfl⟩)
      dt cfg _ _).2.2.2.2.1).trans (shoalingPeople_counts (s.phaseTime / 8000) s.people).1
  · rw [(ite_particles_comps _ _ _ _ _).2.2.1]
    exact ((evacFold_core (shoalingVehicleStep e cfg) (shoalingVehicleStep_state e cfg)
      (fun s' v k' => ⟨(shoalingVehicleStep_vehicle e cfg s' v k').1,
        fun hev => by rw [(shoalingVehicleStep_vehicle e cfg s' v k').2, hev]; rfl⟩)
      dt cfg _ _).2.2.2.2.2.1).trans (shoalingPeople_counts (s.phaseTime / 8000) s.people).2
  · rw [(ite_particles_comps _ _ _ _ _).2.2.1]
    intro p' hp'
    rcases (evacFold_core (shoalingVehicleStep e cfg) (shoalingVehicleStep_state e cfg)
        (fun s' v k' => ⟨(shoalingVehicleStep_vehicle e cfg s' v k').1,
          fun hev => by rw [(shoalingVehicleStep_vehicle e cfg s' v k').2, hev]; rfl⟩)
        dt cfg _ _).2.2.2.2.2.2.1 p' hp' with hp0 | ⟨p, hpm, hpc, hps⟩
    · exact Or.inl hp0
    · simp only [List.mem_map] at hpm
      obtain ⟨q, hqm, hqe⟩ := hpm
      right
      refine ⟨q, hqm, ?_, ?_⟩
      · rw [hpc, ← hqe]
        exact (shoalingPersonStep_flags (s.phaseTime / 8000) q).1
      · rw [hps, ← hqe]
        exact (shoalingPersonStep_flags (s.phaseTime / 8000) q).2
  · rw [(ite_particles_comps _ _ _ _ _).2.2.2.1]
    exact (evacFold_core (shoalingVehicleStep e cfg) (shoalingVehicleStep_state e cfg)
      (fun s' v k' => ⟨(shoalingVehicleStep_vehicle e cfg s' v k').1,
        fun hev => by rw [(shoalingVehicleStep_vehicle e cfg s' v k').2, hev]; rfl⟩)
      dt cfg _ _).2.2.2.2.2.2.2.1
  · rw [(ite_particles_comps _ _ _ _ _).2.2.2.1]
    exact (evacFold_core (shoalingVehicleStep e cfg) (shoalingVehicleStep_state e cfg)
      (fun s' v k' => ⟨(shoalingVehicleStep_vehicle e cfg s' v k').1,
        fun hev => by rw [(shoalingVehicleStep_vehicle e cfg s' v k').2, hev]; rfl⟩)
      dt cfg _ _).2.2.2.2.2.2.2.2
  · intro hvok v' hv'
    rw [(ite_particles_comps _ _ _ _ _).2.2.2.1] at hv'
    obtain ⟨v, hvm, s', k', heq⟩ := mapAccumRand_mem (shoalingVehicleStep e cfg) _ _ _ v' hv'
    rw [heq, (shoalingVehicleStep_vehicle e cfg s' v k').2]
    cases hd : v.destroyed
    · simp [hd]
    · simp [hvok v hvm hd]

theorem breakingSprayLoop_comps (e : Env) (cfg : WorldConfig) :
    ∀ n (s : SimulationState) (k : Nat),
      (breakingSprayLoop e cfg n s k).1.phase = s.phase ∧
      (breakingSprayLoop e cfg n s k).1.phaseTime = s.phaseTime ∧
      (breakingSprayLoop e cfg n s k).1.people = s.people ∧
      (breakingSprayLoop e cfg n s k).1.vehicles = s.vehicles ∧
      (breakingSprayLoop e cfg n s k).1.buildings = s.buildings ∧
      (breakingSprayLoop e cfg n s k).1.stats = s.stats := by
  intro n
  induction n with
  | zero => intro s k; exact ⟨rfl, rfl, rfl, rfl, rfl, rfl⟩
  | succ m ih =>
    intro s k
    simp only [breakingSprayLoop]
    exact ih _ _

theorem updateWaveBreaking_comps (e : Env) (s : SimulationState) (dt : ℚ) (cfg : WorldConfig) (k : Nat) :
    (updateWaveBreaking e s dt cfg k).1.phase = s.phase ∧
    (updateWaveBreaking e s dt cfg k).1.phaseTime = s.phaseTime ∧
    (updateWaveBreaking e s dt cfg k).1.buildings = s.buildings ∧
    (updateWaveBreaking e s dt cfg k).1.stats = s.stats ∧
    (updateWaveBreaking e s dt cfg k).1.vehicles = s.vehicles ∧
    countCaught (updateWaveBreaking e s dt cfg k).1.people = countCaught s.people ∧
    countSurvived (updateWaveBreaking e s dt cfg k).1.people = countSurvived s.people ∧
    (∀ p' ∈ (updateWaveBreaking e s dt cfg k).1.people, ∃ p ∈ s.people,
      p'.caught = p.caught ∧ p'.survived = p.survived) := by
  simp only [updateWaveBreaking]
  obtain ⟨b1, b2, b3, b4, b5, b6⟩ := breakingSprayLoop_comps e cfg 3
    (updateFleeingEntities { s with
        wave := { position := lerp (cfg.coastEndX - 100) cfg.townStartX (s.phaseTime / 6000),
                  height := (50 + (s.magnitude - 5) / 4 * 100) * (3 + s.phaseTime / 6000),
                  speed := s.wave.speed, energy := s.wave.energy }
        waterLevels := s.waterLevels.map (fun level =>
          let dist := level.x - lerp (cfg.coastEndX - 100) cfg.townStartX (s.phaseTime / 6000)
          if dist > -100 ∧ dist < 200 then
            { level with currentLevel := level.baseLevel - e.exp (-(dist ^ 2) / 10000) * ((50 + (s.magnitude - 5) / 4 * 100) * (3 + s.phaseTime / 6000)) }
          else level) } dt cfg) k
  refine ⟨b1, b2, ?_, ?_, ?_, ?_, ?_, ?_⟩
  · exact b5
  · exact b6
  · exact b4
  · rw [b3]
    simp only [updateFleeingEntities, countCaught, List.countP_map]
    exact List.countP_congr (fun p _ => by
      simp [Function.comp, (fleeingPersonStep_flags dt p).1])
  · rw [b3]
    simp only [updateFleeingEntities, countSurvived, List.countP_map]
    exact List.countP_congr (fun p _ => by
      simp [Function.comp, (fleeingPersonStep_flags dt p).2])
  · intro p' hp'
    rw [b3] at hp'
    simp only [updateFleeingEntities, List.mem_map] at hp'
    obtain ⟨q, hq, hqe⟩ := hp'
    have hflq := fleeingPersonStep_flags dt q
    exact ⟨q, hq, by rw [← hqe]; exact hflq.1, by rw [← hqe]; exact hflq.2⟩

/-- The three damage folds of `updateInundation`, run back to back, keep the
stats block in sync with the terminal-flag counts. -/
theorem inundation_stats_chain (e : Env) (cfg : WorldConfig) (front depth ms dt : ℚ)
    (bs : List Building) (vs : List Vehicle) (l : List Person) (ds : List Debris)
    (st : Stats) (k : Nat)
    (br : List Building × (List Debris × Stats) × Nat)
    (vr : List Vehicle × Stats × Nat)
    (pr : List Person × Stats × Nat)
    (hbr : br = mapAccumRand (inundationBuildingStep e front depth ms dt) (ds, st) bs k)
    (hvr : vr = mapAccumRand (inundationVehicleStep front) br.2.1.2 vs br.2.2)
    (hpr : pr = mapAccumRand (inundationPersonStep cfg front) vr.2.1 l vr.2.2)
    (h1 : st.casualties = (countCaught l : ℚ))
    (h2 : st.survivors = (countSurvived l : ℚ))
    (h3 : st.buildingsDestroyed = (countDestroyedBuildings bs : ℚ))
    (h4 : st.vehiclesDestroyed = (countDestroyedVehicles vs : ℚ)) :
    pr.2.1.casualties = (countCaught pr.1 : ℚ) ∧
    pr.2.1.survivors = (countSurvived pr.1 : ℚ) ∧
    pr.2.1.buildingsDestroyed = (countDestroyedBuildings br.1 : ℚ) ∧
    pr.2.1.vehiclesDestroyed = (countDestroyedVehicles vr.1 : ℚ) := by
  obtain ⟨b1, b2, b3, b4, b5⟩ := inundation_buildings_stats e front depth ms dt bs ds st k
  rw [← hbr] at b1 b2 b3 b4 b5
  obtain ⟨v1, v2, v3, v4⟩ := vehicles_fold_stats (inundationVehicleStep front)
    (inundationVehicleStep_summary front) vs br.2.1.2 br.2.2
  rw [← hvr] at v1 v2 v3 v4
  obtain ⟨p1, p2, p3, p4⟩ := people_fold_stats (inundationPersonStep cfg front)
    (inundationPersonStep_summary cfg front) l vr.2.1 vr.2.2
  rw [← hpr] at p1 p2 p3 p4
  refine ⟨?_, ?_, ?_, ?_⟩
  · have := p3
    rw [v2, b1, h1] at this
    linarith
  · have := p4
    rw [v3, b2, h2] at this
    linarith
  · rw [p1, v1]
    have := b4
    rw [h3] at this
    linarith
  · rw [p2]
    have := v4
    rw [b3, h4] at this
    linarith

theorem updateInundation_inv (e : Env) (s : SimulationState) (dt : ℚ) (cfg : WorldConfig) (k : Nat) :
    (updateInundation e s dt cfg k).1.phase = s.phase ∧
    (updateInundation e s dt cfg k).1.phaseTime = s.phaseTime ∧
    (StatsOk s → StatsOk (updateInundation e s dt cfg k).1) ∧
    (PeopleOk s → PeopleOk (updateInundation e s dt cfg k).1) ∧
    (AllEvac s → ∀ v' ∈ (updateInundation e s dt cfg k).1.vehicles, v'.evacuated = true) := by
  simp only [updateInundation, updateFleeingEntities]
  refine ⟨?_, ?_, ?_, ?_, ?_⟩
  · exact ((ite_particles_comps _ _ _ _ _).1).trans rfl
  · exact ((ite_particles_comps _ _ _ _ _).2.1).trans rfl
  · intro hso
    obtain ⟨c1, c2, c3, c4⟩ := inundation_stats_chain e cfg
      (cfg.townStartX + s.phaseTime / 15000 * (cfg.townEndX - cfg.townStartX))
      ((30 + (s.magnitude - 5) / 4 * 70) * (1 - s.phaseTime / 15000 * 0.5))
      ((s.magnitude - 5) / 4) dt s.buildings s.vehicles s.people s.debris s.stats k
      _ _ _ rfl rfl rfl hso.1 hso.2.1 hso.2.2.1 hso.2.2.2
    simp only [StatsOk]
    split
    · refine ⟨c1.trans ?_, c2.trans ?_, c3, c4⟩
      · congr 1
        simp only [countCaught, List.countP_map]
        exact (List.countP_congr (fun p _ => by
          simp [Function.comp, (fleeingPersonStep_flags dt p).1])).symm
      · congr 1
        simp only [countSurvived, List.countP_map]
        exact (List.countP_congr (fun p _ => by
          simp [Function.comp, (fleeingPersonStep_flags dt p).2])).symm
    · refine ⟨c1.trans ?_, c2.trans ?_, c3, c4⟩
      · congr 1
        simp only [countCaught, List.countP_map]
        exact (List.countP_congr (fun p _ => by
          simp [Function.comp, (fleeingPersonStep_flags dt p).1])).symm
      · congr 1
        simp only [countSurvived, List.countP_map]
        exact (List.countP_congr (fun p _ => by
          simp [Function.comp, (fleeingPersonStep_flags dt p).2])).symm
  · intro hpo
    intro p' hp'
    have hp2 := ite_particles_mem_people _ _ _ _ _ p' hp'
    simp only [List.mem_map] at hp2
    obtain ⟨q, hq, hqe⟩ := hp2
    have hflq := fleeingPersonStep_flags dt q
    obtain ⟨p, hpm, acc', k', heq⟩ := mapAccumRand_mem
      (inundationPersonStep cfg
        (cfg.townStartX + s.phaseTime / 15000 * (cfg.townEndX - cfg.townStartX))) _ _ _ q hq
    intro hcon
    have hmut := inundationPersonStep_mutex cfg
      (cfg.townStartX + s.phaseTime / 15000 * (cfg.townEndX - cfg.townStartX))
      acc' p k' (hpo p hpm)
    apply hmut
    refine ⟨?_, ?_⟩
    · rw [← heq, ← hflq.1, hqe]
      exact hcon.1
    · rw [← heq, ← hflq.2, hqe]
      exact hcon.2
  · intro hae v' hv'
    have hv2 := ite_particles_mem_vehicles _ _ _ _ _ v' hv'
    obtain ⟨v, hvm, acc', k', heq⟩ := mapAccumRand_mem
      (inundationVehicleStep
        (cfg.townStartX + s.phaseTime / 15000 * (cfg.townEndX - cfg.townStartX))) _ _ _ v' hv2
    rw [heq, (inundationVehicleStep_vehicle _ acc' v k').1]
    exact hae v hvm

theorem people_fold_statsOk (f : Stats → Person → Nat → Person × Stats × Nat)
    (hf : ∀ st p k,
      (f st p k).2.1.buildingsDestroyed = st.buildingsDestroyed ∧
      (f st p k).2.1.vehiclesDestroyed = st.vehiclesDestroyed ∧
      (f st p k).2.1.casualties + (if p.caught then (1 : ℚ) else 0)
        = st.casualties + (if (f st p k).1.caught then (1 : ℚ) else 0) ∧
      (f st p k).2.1.survivors + (if p.survived then (1 : ℚ) else 0)
        = st.survivors + (if (f st p k).1.survived then (1 : ℚ) else 0))
    (l : List Person) (st : Stats) (k : Nat)
    (h1 : st.casualties = (countCaught l : ℚ))
    (h2 : st.survivors = (countSurvived l : ℚ)) :
    (mapAccumRand f st l k).2.1.casualties = (countCaught (mapAccumRand f st l k).1 : ℚ) ∧
    (mapAccumRand f st l k).2.1.survivors = (countSurvived (mapAccumRand f st l k).1 : ℚ) ∧
    (mapAccumRand f st l k).2.1.buildingsDestroyed = st.buildingsDestroyed ∧
    (mapAccumRand f st l k).2.1.vehiclesDestroyed = st.vehiclesDestroyed := by
  obtain ⟨a, b, c, d⟩ := people_fold_stats f hf l st k
  refine ⟨by linarith, by linarith, a, b⟩

theorem people_fold_peopleOk (f : Stats → Person → Nat → Person × Stats × Nat)
    (hmut : ∀ st p k, ¬(p.caught = true ∧ p.survived = true) →
      ¬((f st p k).1.caught = true ∧ (f st p k).1.survived = true))
    (l : List Person) (st : Stats) (k : Nat)
    (hpo : ∀ p ∈ l, ¬(p.caught = true ∧ p.survived = true)) :
    ∀ q ∈ (mapAccumRand f st l k).1, ¬(q.caught = true ∧ q.survived = true) := by
  intro q hq
  obtain ⟨p, hpm, st', k', heq⟩ := mapAccumRand_mem f st l k q hq
  rw [heq]
  exact hmut st' p k' (hpo p hpm)

theorem updateRecession_inv (e : Env) (s : SimulationState) (dt : ℚ) (cfg : WorldConfig) (k : Nat) :
    (updateRecession e s dt cfg k).1.phase = s.phase ∧
    (updateRecession e s dt cfg k).1.phaseTime = s.phaseTime ∧
    (updateRecession e s dt cfg k).1.vehicles = s.vehicles ∧
    (updateRecession e s dt cfg k).1.buildings = s.buildings ∧
    (StatsOk s → StatsOk (updateRecession e s dt cfg k).1) ∧
    (PeopleOk s → PeopleOk (updateRecession e s dt cfg k).1) := by
  simp only [updateRecession, updateFleeingEntities]
  refine ⟨?_, ?_, ?_, ?_, ?_, ?_⟩
  · exact ((ite_particles_comps _ _ _ _ _).1).trans rfl
  · exact ((ite_particles_comps _ _ _ _ _).2.1).trans rfl
  · exact ((ite_particles_comps _ _ _ _ _).2.2.2.1).trans rfl
  · exact ((ite_particles_comps _ _ _ _ _).2.2.2.2.1).trans rfl
  · intro hso
    obtain ⟨c1, c2, c3, c4⟩ := people_fold_statsOk
      (recessionPersonStep e cfg
        (cfg.townStartX + (cfg.townEndX - cfg.townStartX) * (1 - easeOut (s.phaseTime / 12000) * 0.9)))
      (recessionPersonStep_summary e cfg
        (cfg.townStartX + (cfg.townEndX - cfg.townStartX) * (1 - easeOut (s.phaseTime / 12000) * 0.9)))
      s.people s.stats k hso.1 hso.2.1
    simp only [StatsOk]
    split
    · refine ⟨c1.trans ?_, c2.trans ?_, c3.trans (by rw [hso.2.2.1]), c4.trans (by rw [hso.2.2.2])⟩
      · congr 1
        simp only [countCaught, List.countP_map]
        exact (List.countP_congr (fun p _ => by
          simp [Function.comp, (fleeingPersonStep_flags dt p).1])).symm
      · congr 1
        simp only [countSurvived, List.countP_map]
        exact (List.countP_congr (fun p _ => by
          simp [Function.comp, (fleeingPersonStep_flags dt p).2])).symm
    · refine ⟨c1.trans ?_, c2.trans ?_, c3.trans (by rw [hso.2.2.1]), c4.trans (by rw [hso.2.2.2])⟩
      · congr 1
        simp only [countCaught, List.countP_map]
        exact (List.countP_congr (fun p _ => by
          simp [Function.comp, (fleeingPersonStep_flags dt p).1])).symm
      · congr 1
        simp only [countSurvived, List.countP_map]
        exact (List.countP_congr (fun p _ => by
          simp [Function.comp, (fleeingPersonStep_flags dt p).2])).symm
  · intro hpo p' hp'
    have hp2 := ite_particles_mem_people _ _ _ _ _ p' hp'
    simp only [List.mem_map] at hp2
    obtain ⟨q, hq, hqe⟩ := hp2
    have hflq := fleeingPersonStep_flags dt q
    have hmem := people_fold_peopleOk
      (recessionPersonStep e cfg
        (cfg.townStartX + (cfg.townEndX - cfg.townStartX) * (1 - easeOut (s.phaseTime / 12000) * 0.9)))
      (recessionPersonStep_mutex e cfg
        (cfg.townStartX + (cfg.townEndX - cfg.townStartX) * (1 - easeOut (s.phaseTime / 12000) * 0.9)))
      s.people s.stats k hpo q hq
    intro hcon
    apply hmem
    refine ⟨?_, ?_⟩
    · rw [← hflq.1, hqe]
      exact hcon.1
    · rw [← hflq.2, hqe]
      exact hcon.2

theorem updateAftermath_inv (e : Env) (s : SimulationState) (dt : ℚ) (cfg : WorldConfig) (k : Nat) :
    (updateAftermath e s dt cfg k).1.phase = s.phase ∧
    (updateAftermath e s dt cfg k).1.phaseTime = s.phaseTime ∧
    (updateAftermath e s dt cfg k).1.vehicles = s.vehicles ∧
    (updateAftermath e s dt cfg k).1.buildings = s.buildings ∧
    (StatsOk s → StatsOk (updateAftermath e s dt cfg k).1) ∧
    (PeopleOk s → PeopleOk (updateAftermath e s dt cfg k).1) := by
  simp only [updateAftermath]
  refine ⟨trivial, trivial, trivial, trivial, ?_, ?_⟩
  · intro hso
    obtain ⟨c1, c2, c3, c4⟩ := people_fold_statsOk aftermathPersonStep
      (fun st p k' => aftermathPersonStep_summary st p k')
      s.people s.stats k hso.1 hso.2.1
    exact ⟨c1, c2, c3.trans (by rw [hso.2.2.1]), c4.trans (by rw [hso.2.2.2])⟩
  · intro hpo p' hp'
    exact people_fold_peopleOk aftermathPersonStep
      (fun st p k' => aftermathPersonStep_mutex st p k')
      s.people s.stats k hpo p' hp'

/-! ### Invariant transport helpers -/

theorem statsOk_transport (s s' : SimulationState)
    (hst : s'.stats = s.stats)
    (hcc : countCaught s'.people = countCaught s.people)
    (hcs : countSurvived s'.people = countSurvived s.people)
    (hb : s'.buildings = s.buildings)
    (hv : countDestroyedVehicles s'.vehicles = countDestroyedVehicles s.vehicles)
    (h : StatsOk s) : StatsOk s' := by
  refine ⟨?_, ?_, ?_, ?_⟩
  · rw [hst, hcc]
    exact h.1
  · rw [hst, hcs]
    exact h.2.1
  · rw [hst, hb]
    exact h.2.2.1
  · rw [hst, hv]
    exact h.2.2.2

theorem peopleOk_transport (s s' : SimulationState)
    (hmem : ∀ p' ∈ s'.people, (p'.caught = false ∧ p'.survived = false) ∨
      ∃ p ∈ s.people, p'.caught = p.caught ∧ p'.survived = p.survived)
    (h : PeopleOk s) : PeopleOk s' := by
  intro p' hp' hcon
  rcases hmem p' hp' with h0 | ⟨p, hpm, hc, hs2⟩
  · rw [h0.1] at hcon
    exact Bool.false_ne_true hcon.1
  · exact h p hpm ⟨hc ▸ hcon.1, hs2 ▸ hcon.2⟩

theorem vehOk_transport (s s' : SimulationState)
    (hmem : ∀ v' ∈ s'.vehicles, ∃ v ∈ s.vehicles,
      v'.destroyed = v.destroyed ∧ (v.evacuated = true → v'.evacuated = true))
    (h : VehOk s) : VehOk s' := by
  intro v' hv' hd
  obtain ⟨v, hvm, hde, hev⟩ := hmem v' hv'
  exact hev (h v hvm (hde ▸ hd))

theorem allEvac_transport (s s' : SimulationState)
    (hmem : ∀ v' ∈ s'.vehicles, ∃ v ∈ s.vehicles,
      v'.destroyed = v.destroyed ∧ (v.evacuated = true → v'.evacuated = true))
    (h : AllEvac s) : AllEvac s' := by
  intro v' hv'
  obtain ⟨v, hvm, _, hev⟩ := hmem v' hv'
  exact hev (h v hvm)

theorem phaseEvac_of_not_late (s' : SimulationState)
    (h : phaseAtLeastShoaling s'.phase = false) : PhaseEvac s' := by
  intro hl
  rw [h] at hl
  exact absurd hl Bool.false_ne_true

/-- Equality of the vehicles component gives the membership relation used
by the transports. -/
theorem vehMem_of_eq (s s' : SimulationState) (h : s'.vehicles = s.vehicles) :
    ∀ v' ∈ s'.vehicles, ∃ v ∈ s.vehicles,
      v'.destroyed = v.destroyed ∧ (v.evacuated = true → v'.evacuated = true) := by
  intro v' hv'
  rw [h] at hv'
  exact ⟨v', hv', rfl, fun he => he⟩

set_option maxHeartbeats 3200000 in
/-- One engine tick preserves the run invariant. -/
theorem inv_step (e : Env) (s : SimulationState) (dt : ℚ) (cfg : WorldConfig) (k : Nat)
    (h : Inv s) : Inv (updateSimulation e s dt cfg k).1 := by
  obtain ⟨hpo, hso, hvo, hpe⟩ := h
  by_cases hp : s.paused = true
  · simp only [updateSimulation, if_pos hp]
    exact ⟨hpo, hso, hvo, hpe⟩
  · cases hph : s.phase
    · -- idle
      simp only [updateSimulation, if_neg hp, hph, PHASE_DURATIONS]
      exact ⟨peopleOk_transport s _ (fun p' hp' => Or.inr ⟨p', hp', rfl, rfl⟩) hpo,
        statsOk_transport s _ rfl rfl rfl rfl rfl hso,
        vehOk_transport s _ (vehMem_of_eq s _ rfl) hvo,
        phaseEvac_of_not_late _ rfl⟩
    · -- earthquake
      simp only [updateSimulation, if_neg hp, hph, PHASE_DURATIONS, getNextPhase]
      by_cases ht : s.phaseTime ≥ 8000
      · simp only [if_pos ht]
        exact ⟨peopleOk_transport s _ (fun p' hp' => Or.inr ⟨p', hp', rfl, rfl⟩) hpo,
          statsOk_transport s _ rfl rfl rfl rfl rfl hso,
          vehOk_transport s _ (vehMem_of_eq s _ rfl) hvo,
          phaseEvac_of_not_late _ rfl⟩
      · simp only [if_neg ht]
        refine ⟨peopleOk_transport s _ ?_ hpo,
          statsOk_transport s _ ?_ ?_ ?_ ?_ ?_ hso,
          vehOk_transport s _ ?_ hvo,
          phaseEvac_of_not_late _ ?_⟩
        · intro p' hp'
          have hrel := (updateEarthquake_people_rel e _ (dt * s.speed) cfg k).2.2 p' hp'
          exact Or.inr hrel
        · rw [(updateParticles_comps _ (dt * s.speed)).2.2.2.2.2]
          exact (updateEarthquake_fixed e _ (dt * s.speed) cfg k).2.2.2.2
        · rw [(updateParticles_comps _ (dt * s.speed)).2.2.1]
          exact (updateEarthquake_people_rel e _ (dt * s.speed) cfg k).1
        · rw [(updateParticles_comps _ (dt * s.speed)).2.2.1]
          exact (updateEarthquake_people_rel e _ (dt * s.speed) cfg k).2.1
        · rw [(updateParticles_comps _ (dt * s.speed)).2.2.2.2.1]
          exact (updateEarthquake_fixed e _ (dt * s.speed) cfg k).2.2.2.1
        · rw [(updateParticles_comps _ (dt * s.speed)).2.2.2.1]
          exact congrArg countDestroyedVehicles (updateEarthquake_fixed e _ (dt * s.speed) cfg k).2.2.1
        · intro v' hv'
          rw [(updateParticles_comps _ (dt * s.speed)).2.2.2.1, (updateEarthquake_fixed e _ (dt * s.speed) cfg k).2.2.1] at hv'
          exact ⟨v', hv', rfl, fun hx => hx⟩
        · rw [(updateParticles_comps _ (dt * s.speed)).1, (updateEarthquake_fixed e _ (dt * s.speed) cfg k).1]
          rfl
    · -- waveFormation
      simp only [updateSimulation, if_neg hp, hph, PHASE_DURATIONS, getNextPhase]
      by_cases ht : s.phaseTime ≥ 6000
      · simp only [if_pos ht]
        refine ⟨peopleOk_transport s _ ?_ hpo,
          statsOk_transport s _ ?_ ?_ ?_ ?_ ?_ hso,
          vehOk_transport s _ ?_ hvo,
          phaseEvac_of_not_late _ ?_⟩
        · intro p' hp'
          rcases (updateWaveTravel_comps e _ (dt * s.speed) cfg k).2.2.2.2.2.2.1 p' hp' with h0 | h0
          · exact Or.inl h0
          · exact Or.inr h0
        · rw [(updateParticles_comps _ (dt * s.speed)).2.2.2.2.2]
          exact (updateWaveTravel_comps e _ (dt * s.speed) cfg k).2.2.2.1
        · rw [(updateParticles_comps _ (dt * s.speed)).2.2.1]
          exact (updateWaveTravel_comps e _ (dt * s.speed) cfg k).2.2.2.2.1
        · rw [(updateParticles_comps _ (dt * s.speed)).2.2.1]
          exact (updateWaveTravel_comps e _ (dt * s.speed) cfg k).2.2.2.2.2.1
        · rw [(updateParticles_comps _ (dt * s.speed)).2.2.2.2.1]
          exact (updateWaveTravel_comps e _ (dt * s.speed) cfg k).2.2.1
        · rw [(updateParticles_comps _ (dt * s.speed)).2.2.2.1]
          exact (updateWaveTravel_comps e _ (dt * s.speed) cfg k).2.2.2.2.2.2.2.1
        · intro v' hv'
          have h0 := (updateWaveTravel_comps e _ (dt * s.speed) cfg k).2.2.2.2.2.2.2.2 v' hv'
          exact h0
        · rw [(updateParticles_comps _ (dt * s.speed)).1, (updateWaveTravel_comps e _ (dt * s.speed) cfg k).1]
          rfl
      · simp only [if_neg ht]
        exact ⟨peopleOk_transport s _ (fun p' hp' => Or.inr ⟨p', hp', rfl, rfl⟩) hpo,
          statsOk_transport s _ rfl rfl rfl rfl rfl hso,
          vehOk_transport s _ (vehMem_of_eq s _ rfl) hvo,
          phaseEvac_of_not_late _ rfl⟩
    · -- waveTravel
      simp only [updateSimulation, if_neg hp, hph, PHASE_DURATIONS, getNextPhase]
      by_cases ht : s.phaseTime ≥ 12000
      · simp only [if_pos ht]
        refine ⟨peopleOk_transport s _ ?_ hpo,
          statsOk_transport s _ ?_ ?_ ?_ ?_ ?_ hso,
          vehOk_transport s _ ?_ hvo,
          ?_⟩
        · intro p' hp'
          rcases (updateWaveShoaling_comps e _ (dt * s.speed) cfg k).2.2.2.2.2.2.1 p' hp' with h0 | h0
          · exact Or.inl h0
          · exact Or.inr h0
        · rw [(updateParticles_comps _ (dt * s.speed)).2.2.2.2.2]
          exact (updateWaveShoaling_comps e _ (dt * s.speed) cfg k).2.2.2.1
        · rw [(updateParticles_comps _ (dt * s.speed)).2.2.1]
          exact (updateWaveShoaling_comps e _ (dt * s.speed) cfg k).2.2.2.2.1
        · rw [(updateParticles_comps _ (dt * s.speed)).2.2.1]
          exact (updateWaveShoaling_comps e _ (dt * s.speed) cfg k).2.2.2.2.2.1
        · rw [(updateParticles_comps _ (dt * s.speed)).2.2.2.2.1]
          exact (updateWaveShoaling_comps e _ (dt * s.speed) cfg k).2.2.1
        · rw [(updateParticles_comps _ (dt * s.speed)).2.2.2.1]
          exact (updateWaveShoaling_comps e _ (dt * s.speed) cfg k).2.2.2.2.2.2.2.1
        · intro v' hv'
          have h0 := (updateWaveShoaling_comps e _ (dt * s.speed) cfg k).2.2.2.2.2.2.2.2.1 v' hv'
          exact h0
        · intro _ v' hv'
          rw [(updateParticles_comps _ (dt * s.speed)).2.2.2.1] at hv'
          refine (updateWaveShoaling_comps e _ (dt * s.speed) cfg k).2.2.2.2.2.2.2.2.2 ?_ v' hv'
          exact hvo
      · simp only [if_neg ht]
        refine ⟨peopleOk_transport s _ ?_ hpo,
          statsOk_transport s _ ?_ ?_ ?_ ?_ ?_ hso,
          vehOk_transport s _ ?_ hvo,
          phaseEvac_of_not_late _ ?_⟩
        · intro p' hp'
          rcases (updateWaveTravel_comps e _ (dt * s.speed) cfg k).2.2.2.2.2.2.1 p' hp' with h0 | h0
          · exact Or.inl h0
          · exact Or.inr h0
        · rw [(updateParticles_comps _ (dt * s.speed)).2.2.2.2.2]
          exact (updateWaveTravel_comps e _ (dt * s.speed) cfg k).2.2.2.1
        · rw [(updateParticles_comps _ (dt * s.speed)).2.2.1]
          exact (updateWaveTravel_comps e _ (dt * s.speed) cfg k).2.2.2.2.1
        · rw [(updateParticles_comps _ (dt * s.speed)).2.2.1]
          exact (updateWaveTravel_comps e _ (dt * s.speed) cfg k).2.2.2.2.2.1
        · rw [(updateParticles_comps _ (dt * s.speed)).2.2.2.2.1]
          exact (updateWaveTravel_comps e _ (dt * s.speed) cfg k).2.2.1
        · rw [(updateParticles_comps _ (dt * s.speed)).2.2.2.1]
          exact (updateWaveTravel_comps e _ (dt * s.speed) cfg k).2.2.2.2.2.2.2.1
        · intro v' hv'
          have h0 := (updateWaveTravel_comps e _ (dt * s.speed) cfg k).2.2.2.2.2.2.2.2 v' hv'
          exact h0
        · rw [(updateParticles_comps _ (dt * s.speed)).1, (updateWaveTravel_comps e _ (dt * s.speed) cfg k).1]
          rfl
    · -- waveShoaling
      simp only [updateSimulation, if_neg hp, hph, PHASE_DURATIONS, getNextPhase]
      by_cases ht : s.phaseTime ≥ 8000
      · simp only [if_pos ht]
        have hae : AllEvac s := hpe (by rw [hph]; rfl)
        refine ⟨peopleOk_transport s _ ?_ hpo,
          statsOk_transport s _ ?_ ?_ ?_ ?_ ?_ hso,
          vehOk_transport s _ ?_ hvo,
          fun _ => ?_⟩
        · intro p' hp'
          have h0 := (updateWaveBreaking_comps e _ (dt * s.speed) cfg k).2.2.2.2.2.2.2 p' hp'
          exact Or.inr h0
        · rw [(updateParticles_comps _ (dt * s.speed)).2.2.2.2.2]
          exact (updateWaveBreaking_comps e _ (dt * s.speed) cfg k).2.2.2.1
        · rw [(updateParticles_comps _ (dt * s.speed)).2.2.1]
          exact (updateWaveBreaking_comps e _ (dt * s.speed) cfg k).2.2.2.2.2.1
        · rw [(updateParticles_comps _ (dt * s.speed)).2.2.1]
          exact (updateWaveBreaking_comps e _ (dt * s.speed) cfg k).2.2.2.2.2.2.1
        · rw [(updateParticles_comps _ (dt * s.speed)).2.2.2.2.1]
          exact (updateWaveBreaking_comps e _ (dt * s.speed) cfg k).2.2.1
        · rw [(updateParticles_comps _ (dt * s.speed)).2.2.2.1]
          exact congrArg countDestroyedVehicles (updateWaveBreaking_comps e _ (dt * s.speed) cfg k).2.2.2.2.1
        · intro v' hv'
          rw [(updateParticles_comps _ (dt * s.speed)).2.2.2.1, (updateWaveBreaking_comps e _ (dt * s.speed) cfg k).2.2.2.2.1] at hv'
          exact ⟨v', hv', rfl, fun hx => hx⟩
        · intro v' hv'
          rw [(updateParticles_comps _ (dt * s.speed)).2.2.2.1, (updateWaveBreaking_comps e _ (dt * s.speed) cfg k).2.2.2.2.1] at hv'
          exact hae v' hv'
      · simp only [if_neg ht]
        refine ⟨peopleOk_transport s _ ?_ hpo,
          statsOk_transport s _ ?_ ?_ ?_ ?_ ?_ hso,
          vehOk_transport s _ ?_ hvo,
          ?_⟩
        · intro p' hp'
          rcases (updateWaveShoaling_comps e _ (dt * s.speed) cfg k).2.2.2.2.2.2.1 p' hp' with h0 | h0
          · exact Or.inl h0
          · exact Or.inr h0
        · rw [(updateParticles_comps _ (dt * s.speed)).2.2.2.2.2]
          exact (updateWaveShoaling_comps e _ (dt * s.speed) cfg k).2.2.2.1
        · rw [(updateParticles_comps _ (dt * s.speed)).2.2.1]
          exact (updateWaveShoaling_comps e _ (dt * s.speed) cfg k).2.2.2.2.1
        · rw [(updateParticles_comps _ (dt * s.speed)).2.2.1]
          exact (updateWaveShoaling_comps e _ (dt * s.speed) cfg k).2.2.2.2.2.1
        · rw [(updateParticles_comps _ (dt * s.speed)).2.2.2.2.1]
          exact (updateWaveShoaling_comps e _ (dt * s.speed) cfg k).2.2.1
        · rw [(updateParticles_comps _ (dt * s.speed)).2.2.2.1]
          exact (updateWaveShoaling_comps e _ (dt * s.speed) cfg k).2.2.2.2.2.2.2.1
        · intro v' hv'
          have h0 := (updateWaveShoaling_comps e _ (dt * s.speed) cfg k).2.2.2.2.2.2.2.2.1 v' hv'
          exact h0
        · intro _ v' hv'
          rw [(updateParticles_comps _ (dt * s.speed)).2.2.2.1] at hv'
          refine (updateWaveShoaling_comps e _ (dt * s.speed) cfg k).2.2.2.2.2.2.2.2.2 ?_ v' hv'
          exact hvo
    · -- waveBreaking
      simp only [updateSimulation, if_neg hp, hph, PHASE_DURATIONS, getNextPhase]
      by_cases ht : s.phaseTime ≥ 6000
      · simp only [if_pos ht]
        have hae : AllEvac s := hpe (by rw [hph]; rfl)
        refine ⟨?_, ?_, ?_, fun _ => ?_⟩
        · intro p' hp'
          rw [(updateParticles_comps _ (dt * s.speed)).2.2.1] at hp'
          refine (updateInundation_inv e _ (dt * s.speed) cfg k).2.2.2.1 ?_ p' hp'
          exact hpo
        · simp only [StatsOk]
          rw [(updateParticles_comps _ (dt * s.speed)).2.2.2.2.2,
              (updateParticles_comps _ (dt * s.speed)).2.2.1,
              (updateParticles_comps _ (dt * s.speed)).2.2.2.2.1,
              (updateParticles_comps _ (dt * s.speed)).2.2.2.1]
          refine (updateInundation_inv e _ (dt * s.speed) cfg k).2.2.1 ?_
          exact hso
        · intro v' hv' _
          rw [(updateParticles_comps _ (dt * s.speed)).2.2.2.1] at hv'
          refine (updateInundation_inv e _ (dt * s.speed) cfg k).2.2.2.2 ?_ v' hv'
          exact hae
        · intro v' hv'
          rw [(updateParticles_comps _ (dt * s.speed)).2.2.2.1] at hv'
          refine (updateInundation_inv e _ (dt * s.speed) cfg k).2.2.2.2 ?_ v' hv'
          exact hae
      · simp only [if_neg ht]
        have hae : AllEvac s := hpe (by rw [hph]; rfl)
        refine ⟨peopleOk_transport s _ ?_ hpo,
          statsOk_transport s _ ?_ ?_ ?_ ?_ ?_ hso,
          vehOk_transport s _ ?_ hvo,
          fun _ => ?_⟩
        · intro p' hp'
          have h0 := (updateWaveBreaking_comps e _ (dt * s.speed) cfg k).2.2.2.2.2.2.2 p' hp'
          exact Or.inr h0
        · rw [(updateParticles_comps _ (dt * s.speed)).2.2.2.2.2]
          exact (updateWaveBreaking_comps e _ (dt * s.speed) cfg k).2.2.2.1
        · rw [(updateParticles_comps _ (dt * s.speed)).2.2.1]
          exact (updateWaveBreaking_comps e _ (dt * s.speed) cfg k).2.2.2.2.2.1
        · rw [(updateParticles_comps _ (dt * s.speed)).2.2.1]
          exact (updateWaveBreaking_comps e _ (dt * s.speed) cfg k).2.2.2.2.2.2.1
        · rw [(updateParticles_comps _ (dt * s.speed)).2.2.2.2.1]
          exact (updateWaveBreaking_comps e _ (dt * s.speed) cfg k).2.2.1
        · rw [(updateParticles_comps _ (dt * s.speed)).2.2.2.1]
          exact congrArg countDestroyedVehicles (updateWaveBreaking_comps e _ (dt * s.speed) cfg k).2.2.2.2.1
        · intro v' hv'
          rw [(updateParticles_comps _ (dt * s.speed)).2.2.2.1, (updateWaveBreaking_comps e _ (dt * s.speed) cfg k).2.2.2.2.1] at hv'
          exact ⟨v', hv', rfl, fun hx => hx⟩
        · intro v' hv'
          rw [(updateParticles_comps _ (dt * s.speed)).2.2.2.1, (updateWaveBreaking_comps e _ (dt * s.speed) cfg k).2.2.2.2.1] at hv'
          exact hae v' hv'
    · -- inundation
      simp only [updateSimulation, if_neg hp, hph, PHASE_DURATIONS, getNextPhase]
      by_cases ht : s.phaseTime ≥ 15000
      · simp only [if_pos ht]
        have hae : AllEvac s := hpe (by rw [hph]; rfl)
        refine ⟨?_, ?_, ?_, fun _ => ?_⟩
        · intro p' hp'
          rw [(updateParticles_comps _ (dt * s.speed)).2.2.1] at hp'
          refine (updateRecession_inv e _ (dt * s.speed) cfg k).2.2.2.2.2 ?_ p' hp'
          exact hpo
        · simp only [StatsOk]
          rw [(updateParticles_comps _ (dt * s.speed)).2.2.2.2.2,
              (updateParticles_comps _ (dt * s.speed)).2.2.1,
              (updateParticles_comps _ (dt * s.speed)).2.2.2.2.1,
              (updateParticles_comps _ (dt * s.speed)).2.2.2.1]
          refine (updateRecession_inv e _ (dt * s.speed) cfg k).2.2.2.2.1 ?_
          exact hso
        · intro v' hv'
          rw [(updateParticles_comps _ (dt * s.speed)).2.2.2.1, (updateRecession_inv e _ (dt * s.speed) cfg k).2.2.1] at hv'
          exact hvo v' hv'
        · intro v' hv'
          rw [(updateParticles_comps _ (dt * s.speed)).2.2.2.1, (updateRecession_inv e _ (dt * s.speed) cfg k).2.2.1] at hv'
          exact hae v' hv'
      · simp only [if_neg ht]
        have hae : AllEvac s := hpe (by rw [hph]; rfl)
        refine ⟨?_, ?_, ?_, fun _ => ?_⟩
        · intro p' hp'
          rw [(updateParticles_comps _ (dt * s.speed)).2.2.1] at hp'
          refine (updateInundation_inv e _ (dt * s.speed) cfg k).2.2.2.1 ?_ p' hp'
          exact hpo
        · simp only [StatsOk]
          rw [(updateParticles_comps _ (dt * s.speed)).2.2.2.2.2,
              (updateParticles_comps _ (dt * s.speed)).2.2.1,
              (updateParticles_comps _ (dt * s.speed)).2.2.2.2.1,
              (updateParticles_comps _ (dt * s.speed)).2.2.2.1]
          refine (updateInundation_inv e _ (dt * s.speed) cfg k).2.2.1 ?_
          exact hso
        · intro v' hv' _
          rw [(updateParticles_comps _ (dt * s.speed)).2.2.2.1] at hv'
          refine (updateInundation_inv e _ (dt * s.speed) cfg k).2.2.2.2 ?_ v' hv'
          exact hae
        · intro v' hv'
          rw [(updateParticles_comps _ (dt * s.speed)).2.2.2.1] at hv'
          refine (updateInundation_inv e _ (dt * s.speed) cfg k).2.2.2.2 ?_ v' hv'
          exact hae
    · -- recession
      simp only [updateSimulation, if_neg hp, hph, PHASE_DURATIONS, getNextPhase]
      by_cases ht : s.phaseTime ≥ 12000
      · simp only [if_pos ht]
        have hae : AllEvac s := hpe (by rw [hph]; rfl)
        refine ⟨?_, ?_, ?_, fun _ => ?_⟩
        · intro p' hp'
          rw [(updateParticles_comps _ (dt * s.speed)).2.2.1] at hp'
          refine (updateAftermath_inv e _ (dt * s.speed) cfg k).2.2.2.2.2 ?_ p' hp'
          exact hpo
        · simp only [StatsOk]
          rw [(updateParticles_comps _ (dt * s.speed)).2.2.2.2.2,
              (updateParticles_comps _ (dt * s.speed)).2.2.1,
              (updateParticles_comps _ (dt * s.speed)).2.2.2.2.1,
              (updateParticles_comps _ (dt * s.speed)).2.2.2.1]
          refine (updateAftermath_inv e _ (dt * s.speed) cfg k).2.2.2.2.1 ?_
          exact hso
        · intro v' hv'
          rw [(updateParticles_comps _ (dt * s.speed)).2.2.2.1, (updateAftermath_inv e _ (dt * s.speed) cfg k).2.2.1] at hv'
          exact hvo v' hv'
        · intro v' hv'
          rw [(updateParticles_comps _ (dt * s.speed)).2.2.2.1, (updateAftermath_inv e _ (dt * s.speed) cfg k).2.2.1] at hv'
          exact hae v' hv'
      · simp only [if_neg ht]
        have hae : AllEvac s := hpe (by rw [hph]; rfl)
        refine ⟨?_, ?_, ?_, fun _ => ?_⟩
        · intro p' hp'
          rw [(updateParticles_comps _ (dt * s.speed)).2.2.1] at hp'
          refine (updateRecession_inv e _ (dt * s.speed) cfg k).2.2.2.2.2 ?_ p' hp'
          exact hpo
        · simp only [StatsOk]
          rw [(updateParticles_comps _ (dt * s.speed)).2.2.2.2.2,
              (updateParticles_comps _ (dt * s.speed)).2.2.1,
              (updateParticles_comps _ (dt * s.speed)).2.2.2.2.1,
              (updateParticles_comps _ (dt * s.speed)).2.2.2.1]
          refine (updateRecession_inv e _ (dt * s.speed) cfg k).2.2.2.2.1 ?_
          exact hso
        · intro v' hv'
          rw [(updateParticles_comps _ (dt * s.speed)).2.2.2.1, (updateRecession_inv e _ (dt * s.speed) cfg k).2.2.1] at hv'
          exact hvo v' hv'
        · intro v' hv'
          rw [(updateParticles_comps _ (dt * s.speed)).2.2.2.1, (updateRecession_inv e _ (dt * s.speed) cfg k).2.2.1] at hv'
          exact hae v' hv'
    · -- aftermath
      simp only [updateSimulation, if_neg hp, hph, PHASE_DURATIONS]
      have hae : AllEvac s := hpe (by rw [hph]; rfl)
      refine ⟨?_, ?_, ?_, fun _ => ?_⟩
      · intro p' hp'
        rw [(updateParticles_comps _ (dt * s.speed)).2.2.1] at hp'
        refine (updateAftermath_inv e _ (dt * s.speed) cfg k).2.2.2.2.2 ?_ p' hp'
        exact hpo
      · simp only [StatsOk]
        rw [(updateParticles_comps _ (dt * s.speed)).2.2.2.2.2,
            (updateParticles_comps _ (dt * s.speed)).2.2.1,
            (updateParticles_comps _ (dt * s.speed)).2.2.2.2.1,
            (updateParticles_comps _ (dt * s.speed)).2.2.2.1]
        refine (updateAftermath_inv e _ (dt * s.speed) cfg k).2.2.2.2.1 ?_
        exact hso
      · intro v' hv'
        rw [(updateParticles_comps _ (dt * s.speed)).2.2.2.1, (updateAftermath_inv e _ (dt * s.speed) cfg k).2.2.1] at hv'
        exact hvo v' hv'
      · intro v' hv'
        rw [(updateParticles_comps _ (dt * s.speed)).2.2.2.1, (updateAftermath_inv e _ (dt * s.speed) cfg k).2.2.1] at hv'
        exact hae v' hv'

/-! ### The invariant at creation time -/

theorem createDoomedLoop_flags (e : Env) (cfg : WorldConfig) (t : Town) (n pid k : Nat) :
    ∀ p ∈ (createDoomedLoop e cfg t n pid k).1, p.caught = false ∧ p.survived = false := by
  induction n generalizing pid k with
  | zero => simp [createDoomedLoop]
  | succ m ih =>
    intro p hp
    simp only [createDoomedLoop, List.mem_cons] at hp
    rcases hp with hp | hp
    · subst hp; exact ⟨rfl, rfl⟩
    · exact ih (pid + 1) (k + 4) p hp

theorem createCitizensLoop_flags (e : Env) (cfg : WorldConfig) (t : Town) (n pid k : Nat) :
    ∀ p ∈ (createCitizensLoop e cfg t n pid k).1, p.caught = false ∧ p.survived = false := by
  induction n generalizing pid k with
  | zero => simp [createCitizensLoop]
  | succ m ih =>
    intro p hp
    simp only [createCitizensLoop, List.mem_cons] at hp
    rcases hp with hp | hp
    · subst hp; exact ⟨rfl, rfl⟩
    · exact ih _ _ p hp

theorem createPeopleTowns_flags (e : Env) (cfg : WorldConfig) (ts : List Town)
    (i pid k : Nat) :
    ∀ p ∈ (createPeopleTowns e cfg ts i pid k).1, p.caught = false ∧ p.survived = false := by
  induction ts generalizing i pid k with
  | nil => simp [createPeopleTowns]
  | cons t ts ih =>
    intro p hp
    simp only [createPeopleTowns, List.mem_append] at hp
    rcases hp with (hp | hp) | hp
    · by_cases h0 : i = 0
      · simp only [if_pos h0] at hp
        exact createDoomedLoop_flags e cfg t _ pid (k + 1) p hp
      · simp only [if_neg h0] at hp
        simp at hp
    · exact createCitizensLoop_flags e cfg t _ _ _ p hp
    · exact ih _ _ _ p hp

theorem createPeople_flags (e : Env) (cfg : WorldConfig) (ts : List Town) (k : Nat) :
    ∀ p ∈ (createPeople e cfg ts k).1, p.caught = false ∧ p.survived = false := by
  intro p hp
  exact createPeopleTowns_flags e cfg ts 0 0 k p hp

theorem createVehiclesLoop_flags (e : Env) (cfg : WorldConfig) (t : Town) (n vid k : Nat) :
    ∀ v ∈ (createVehiclesLoop e cfg t n vid k).1, v.destroyed = false ∧ v.evacuated = false := by
  induction n generalizing vid k with
  | zero => simp [createVehiclesLoop]
  | succ m ih =>
    intro v hv
    simp only [createVehiclesLoop, List.mem_cons] at hv
    rcases hv with hv | hv
    · subst hv; exact ⟨rfl, rfl⟩
    · exact ih (vid + 1) (k + 3) v hv

theorem createVehiclesTowns_flags (e : Env) (cfg : WorldConfig) (ts : List Town) (vid k : Nat) :
    ∀ v ∈ (createVehiclesTowns e cfg ts vid k).1, v.destroyed = false ∧ v.evacuated = false := by
  induction ts generalizing vid k with
  | nil => simp [createVehiclesTowns]
  | cons t ts ih =>
    intro v hv
    simp only [createVehiclesTowns, List.mem_append] at hv
    rcases hv with hv | hv
    · exact createVehiclesLoop_flags e cfg t _ vid (k + 1) v hv
    · exact ih _ _ v hv

theorem createVehicles_flags (e : Env) (cfg : WorldConfig) (ts : List Town) (k : Nat) :
    ∀ v ∈ (createVehicles e cfg ts k).1, v.destroyed = false ∧ v.evacuated = false := by
  intro v hv
  exact createVehiclesTowns_flags e cfg ts 0 k v hv

theorem createBuildingsLoop_flags (e : Env) (cfg : WorldConfig) (t : Town)
    (d c : ℚ) (fuel : Nat) (x : ℚ) (bid k : Nat) :
    ∀ b ∈ (createBuildingsLoop e cfg t d c fuel x bid k).1, b.destroyed = false := by
  induction fuel generalizing x bid k with
  | zero => simp [createBuildingsLoop]
  | succ m ih =>
    intro b hb
    by_cases hx : x < t.x + t.width - 30
    · simp only [createBuildingsLoop, if_pos hx, List.mem_cons] at hb
      rcases hb with hb | hb
      · subst hb; rfl
      · exact ih _ _ _ b hb
    · simp only [createBuildingsLoop, if_neg hx] at hb
      simp at hb

theorem createBuildingsTowns_flags (e : Env) (cfg : WorldConfig) (ts : List Town)
    (bid k : Nat) :
    ∀ b ∈ (createBuildingsTowns e cfg ts bid k).1, b.destroyed = false := by
  induction ts generalizing bid k with
  | nil => simp [createBuildingsTowns]
  | cons t ts ih =>
    intro b hb
    simp only [createBuildingsTowns, List.mem_append] at hb
    rcases hb with hb | hb
    · exact createBuildingsLoop_flags e cfg t _ _ 10000 _ bid k b hb
    · exact ih _ _ b hb

theorem createBuildings_flags (e : Env) (cfg : WorldConfig) (ts : List Town) (k : Nat) :
    ∀ b ∈ (createBuildings e cfg ts k).1, b.destroyed = false := by
  intro b hb
  exact createBuildingsTowns_flags e cfg ts 0 k b hb

/-- The component equations of a fresh state. -/
theorem createInitialState_comps (e : Env) (m : ℚ) (k : Nat) :
    (createInitialState e m k).1.phase = .idle ∧
    (createInitialState e m k).1.people =
      (createPeople e DEFAULT_WORLD_CONFIG (createTowns e DEFAULT_WORLD_CONFIG k).1
        (createVehicles e DEFAULT_WORLD_CONFIG (createTowns e DEFAULT_WORLD_CONFIG k).1
          (createBuildings e DEFAULT_WORLD_CONFIG (createTowns e DEFAULT_WORLD_CONFIG k).1
            (createTowns e DEFAULT_WORLD_CONFIG k).2).2).2).1 ∧
    (createInitialState e m k).1.vehicles =
      (createVehicles e DEFAULT_WORLD_CONFIG (createTowns e DEFAULT_WORLD_CONFIG k).1
        (createBuildings e DEFAULT_WORLD_CONFIG (createTowns e DEFAULT_WORLD_CONFIG k).1
          (createTowns e DEFAULT_WORLD_CONFIG k).2).2).1 ∧
    (createInitialState e m k).1.buildings =
      (createBuildings e DEFAULT_WORLD_CONFIG (createTowns e DEFAULT_WORLD_CONFIG k).1
        (createTowns e DEFAULT_WORLD_CONFIG k).2).1 ∧
    (createInitialState e m k).1.stats =
      { casualties := 0, survivors := 0, buildingsDestroyed := 0, vehiclesDestroyed := 0 } := by
  exact ⟨rfl, rfl, rfl, rfl, rfl⟩

theorem inv_init (e : Env) (m : ℚ) (k : Nat) : Inv (createInitialState e m k).1 := by
  obtain ⟨hph, hpp, hvv, hbb, hst⟩ := createInitialState_comps e m k
  refine ⟨?_, ?_, ?_, ?_⟩
  · intro p hp hcon
    rw [hpp] at hp
    have := (createPeople_flags e _ _ _ p hp).1
    rw [this] at hcon
    exact Bool.false_ne_true hcon.1
  · have hc : countCaught (createInitialState e m k).1.people = 0 := by
      rw [hpp]
      exact List.countP_eq_zero.mpr fun p hp => by
        simp [(createPeople_flags e _ _ _ p hp).1]
    have hs : countSurvived (createInitialState e m k).1.people = 0 := by
      rw [hpp]
      exact List.countP_eq_zero.mpr fun p hp => by
        simp [(createPeople_flags e _ _ _ p hp).2]
    have hb : countDestroyedBuildings (createInitialState e m k).1.buildings = 0 := by
      rw [hbb]
      exact List.countP_eq_zero.mpr fun b hb => by
        simp [createBuildings_flags e _ _ _ b hb]
    have hv : countDestroyedVehicles (createInitialState e m k).1.vehicles = 0 := by
      rw [hvv]
      exact List.countP_eq_zero.mpr fun v hv => by
        simp [(createVehicles_flags e _ _ _ v hv).1]
    refine ⟨?_, ?_, ?_, ?_⟩
    · rw [hst, hc]; rfl
    · rw [hst, hs]; rfl
    · rw [hst, hb]; rfl
    · rw [hst, hv]; rfl
  · intro v hv hd
    rw [hvv] at hv
    have := (createVehicles_flags e _ _ _ v hv).1
    rw [this] at hd
    exact absurd hd Bool.false_ne_true
  · apply phaseEvac_of_not_late
    rw [hph]
    rfl

theorem inv_start (e : Env) (s : SimulationState) (k : Nat) :
    Inv (startSimulation e s k).1 := by
  have h0 := inv_init e s.magnitude k
  obtain ⟨hpo, hso, hvo, _⟩ := h0
  refine ⟨?_, ?_, ?_, ?_⟩
  · intro p hp
    exact hpo p hp
  · exact hso
  · intro v hv
    exact hvo v hv
  · apply phaseEvac_of_not_late
    rfl

theorem inv_reset (e : Env) (m : ℚ) (k : Nat) : Inv (resetSimulation e m k).1 :=
  inv_init e m k

theorem invariant_of_reachable (s : SimulationState) (h : Reachable s) : Inv s := by
  induction h with
  | init e m k => exact inv_init e m k
  | start e s k _ _ => exact inv_start e s k
  | reset e m k => exact inv_reset e m k
  | step e s dt cfg k _ ih => exact inv_step e s dt cfg k ih

/-! ### Positional flag monotonicity -/

/-- Terminal flags only go from false to true between `p` and `q`. -/
def FlagsLe (p q : Person) : Prop :=
  (p.caught = true → q.caught = true) ∧ (p.survived = true → q.survived = true)

/-- Positional flag monotonicity between two people lists: each index of
`l` is still present in `l'` and its terminal flags are monotone. -/
def PeopleLe (l l' : List Person) : Prop :=
  ∀ i (hi : i < l.length), ∃ (hi' : i < l'.length),
    FlagsLe (l.get ⟨i, hi⟩) (l'.get ⟨i, hi'⟩)

/-- Positional persistence of the evacuated flag between two vehicle lists. -/
def EvacLe (l l' : List Vehicle) : Prop :=
  ∀ i (hi : i < l.length), ∃ (hi' : i < l'.length),
    (l.get ⟨i, hi⟩).evacuated = true → (l'.get ⟨i, hi'⟩).evacuated = true

theorem flagsLe_refl (p : Person) : FlagsLe p p := ⟨id, id⟩

theorem flagsLe_trans {p q r : Person} (h1 : FlagsLe p q) (h2 : FlagsLe q r) : FlagsLe p r :=
  ⟨fun h => h2.1 (h1.1 h), fun h => h2.2 (h1.2 h)⟩

theorem flagsLe_of_eq {p q : Person} (hc : q.caught = p.caught) (hs : q.survived = p.survived) :
    FlagsLe p q := ⟨fun h => hc.trans h, fun h => hs.trans h⟩

theorem peopleLe_refl (l : List Person) : PeopleLe l l :=
  fun _ hi => ⟨hi, flagsLe_refl _⟩

theorem peopleLe_trans {l1 l2 l3 : List Person} (h1 : PeopleLe l1 l2) (h2 : PeopleLe l2 l3) :
    PeopleLe l1 l3 := by
  intro i hi
  obtain ⟨hi2, f1⟩ := h1 i hi
  obtain ⟨hi3, f2⟩ := h2 i hi2
  exact ⟨hi3, flagsLe_trans f1 f2⟩

theorem peopleLe_of_eq {l l' : List Person} (h : l' = l) : PeopleLe l l' := by
  subst h
  exact peopleLe_refl _

theorem peopleLe_map (g : Person → Person) (hg : ∀ p, FlagsLe p (g p)) (l : List Person) :
    PeopleLe l (l.map g) := by
  intro i hi
  have hi' : i < (l.map g).length := by simpa using hi
  refine ⟨hi', ?_⟩
  have hm : (l.map g).get ⟨i, hi'⟩ = g (l.get ⟨i, hi⟩) := by
    simp
  rw [hm]
  exact hg _

theorem peopleLe_mapRand (f : Person → Nat → Person × Nat)
    (hf : ∀ p k, FlagsLe p (f p k).1) (l : List Person) (k : Nat) :
    PeopleLe l (mapRand f l k).1 := by
  intro i hi
  have hi' : i < (mapRand f l k).1.length := by
    rw [mapRand_length]
    exact hi
  obtain ⟨k', hk⟩ := mapRand_get f l k i hi hi'
  refine ⟨hi', ?_⟩
  rw [hk]
  exact hf _ k'

theorem peopleLe_mapAccumRand (f : σ → Person → Nat → Person × σ × Nat)
    (hf : ∀ acc p k, FlagsLe p (f acc p k).1) (acc : σ) (l : List Person) (k : Nat) :
    PeopleLe l (mapAccumRand f acc l k).1 := by
  intro i hi
  have hi' : i < (mapAccumRand f acc l k).1.length := by
    rw [mapAccumRand_length]
    exact hi
  obtain ⟨acc', k', hk⟩ := mapAccumRand_get f acc l k i hi hi'
  refine ⟨hi', ?_⟩
  rw [hk]
  exact hf acc' _ k'

theorem peopleLe_append (l l' ps : List Person) (h : PeopleLe l l') :
    PeopleLe l (l' ++ ps) := by
  intro i hi
  obtain ⟨hi', hf⟩ := h i hi
  have hi2 : i < (l' ++ ps).length := by
    rw [List.length_append]
    omega
  refine ⟨hi2, ?_⟩
  have hm : (l' ++ ps).get ⟨i, hi2⟩ = l'.get ⟨i, hi'⟩ := by
    simp [List.getElem_append_left hi']
  rw [hm]
  exact hf

theorem evacLe_refl (l : List Vehicle) : EvacLe l l :=
  fun _ hi => ⟨hi, id⟩

theorem evacLe_trans {l1 l2 l3 : List Vehicle} (h1 : EvacLe l1 l2) (h2 : EvacLe l2 l3) :
    EvacLe l1 l3 := by
  intro i hi
  obtain ⟨hi2, f1⟩ := h1 i hi
  obtain ⟨hi3, f2⟩ := h2 i hi2
  exact ⟨hi3, fun h => f2 (f1 h)⟩

theorem evacLe_of_eq {l l' : List Vehicle} (h : l' = l) : EvacLe l l' := by
  subst h
  exact evacLe_refl _

theorem evacLe_mapAccumRand (f : σ → Vehicle → Nat → Vehicle × σ × Nat)
    (hf : ∀ acc v k, v.evacuated = true → (f acc v k).1.evacuated = true)
    (acc : σ) (l : List Vehicle) (k : Nat) :
    EvacLe l (mapAccumRand f acc l k).1 := by
  intro i hi
  have hi' : i < (mapAccumRand f acc l k).1.length := by
    rw [mapAccumRand_length]
    exact hi
  obtain ⟨acc', k', hk⟩ := mapAccumRand_get f acc l k i hi hi'
  refine ⟨hi', ?_⟩
  rw [hk]
  exact hf acc' _ k'

/-- The evacuation folds append evacuees but leave the existing people
prefix untouched. -/
theorem peopleLe_evacFold (f : SimulationState → Vehicle → Nat → Vehicle × SimulationState × Nat)
    (hstate : ∀ s v k, ∃ ps, (f s v k).2.1 = { s with people := s.people ++ ps } ∧
      ∀ p ∈ ps, p.caught = false ∧ p.survived = false ∧ p.fleeing = true)
    (s3 : SimulationState) (k : Nat) :
    PeopleLe s3.people (mapAccumRand f s3 s3.vehicles k).2.1.people := by
  obtain ⟨ps, hacc, _⟩ := vehicles_state_fold f hstate s3.vehicles s3 k
  rw [hacc]
  exact peopleLe_append s3.people s3.people ps (peopleLe_refl _)

theorem fleeingPersonStep_fle (dt : ℚ) (p : Person) : FlagsLe p (fleeingPersonStep dt p) :=
  flagsLe_of_eq (fleeingPersonStep_flags dt p).1 (fleeingPersonStep_flags dt p).2

theorem shoalingPersonStep_fle (progress : ℚ) (p : Person) :
    FlagsLe p (shoalingPersonStep progress p) :=
  flagsLe_of_eq (shoalingPersonStep_flags progress p).1 (shoalingPersonStep_flags progress p).2

theorem earthquakePersonStep_fle (e : Env) (p : Person) (k : Nat) :
    FlagsLe p (earthquakePersonStep e p k).1 :=
  flagsLe_of_eq (earthquakePersonStep_flags e p k).1 (earthquakePersonStep_flags e p k).2

theorem waveTravelPersonStep_fle (e : Env) (p : Person) (k : Nat) :
    FlagsLe p (waveTravelPersonStep e p k).1 :=
  flagsLe_of_eq (waveTravelPersonStep_flags e p k).1 (waveTravelPersonStep_flags e p k).2

theorem inundationPersonStep_fle (cfg : WorldConfig) (front : ℚ) (acc : Stats)
    (p : Person) (k : Nat) : FlagsLe p (inundationPersonStep cfg front acc p k).1 :=
  ⟨(inundationPersonStep_flagsLe cfg front acc p k).1,
   (inundationPersonStep_flagsLe cfg front acc p k).2⟩

theorem recessionPersonStep_fle (e : Env) (cfg : WorldConfig) (front : ℚ) (acc : Stats)
    (p : Person) (k : Nat) : FlagsLe p (recessionPersonStep e cfg front acc p k).1 :=
  ⟨(recessionPersonStep_flagsLe e cfg front acc p k).1,
   (recessionPersonStep_flagsLe e cfg front acc p k).2⟩

theorem aftermathPersonStep_fle (acc : Stats) (p : Person) (k : Nat) :
    FlagsLe p (aftermathPersonStep acc p k).1 :=
  ⟨(aftermathPersonStep_flagsLe acc p k).1, (aftermathPersonStep_flagsLe acc p k).2⟩

/-! ### Per-handler positional monotonicity -/

theorem updateEarthquake_peopleLe (e : Env) (s : SimulationState) (dt : ℚ) (cfg : WorldConfig)
    (k : Nat) (l : List Person) (hl : s.people = l) :
    PeopleLe l (updateEarthquake e s dt cfg k).1.people := by
  subst hl
  rcases updateEarthquake_people e s dt cfg k with h | h
  · exact peopleLe_of_eq h
  · rw [h]
    exact peopleLe_mapRand _ (earthquakePersonStep_fle e) s.people k

theorem updateWaveFormation_peopleLe (e : Env) (s : SimulationState) (dt : ℚ) (cfg : WorldConfig)
    (k : Nat) (l : List Person) (hl : s.people = l) :
    PeopleLe l (updateWaveFormation e s dt cfg k).1.people := by
  subst hl
  exact peopleLe_of_eq (updateWaveFormation_comps e s dt cfg k).2.2.1

theorem updateWaveTravel_peopleLe (e : Env) (s : SimulationState) (dt : ℚ) (cfg : WorldConfig)
    (k : Nat) (l : List Person) (hl : s.people = l) :
    PeopleLe l (updateWaveTravel e s dt cfg k).1.people := by
  subst hl
  simp only [updateWaveTravel]
  by_cases h : s.phaseTime / 12000 > 0.3
  · simp only [if_pos h, updateFleeingEntities]
    refine peopleLe_trans ?_ (peopleLe_map (fleeingPersonStep dt) (fleeingPersonStep_fle dt) _)
    refine peopleLe_trans ?_ (peopleLe_evacFold (waveTravelVehicleStep e cfg)
      (waveTravelVehicleStep_state e cfg) _ _)
    exact peopleLe_mapRand (waveTravelPersonStep e) (waveTravelPersonStep_fle e) s.people k
  · simp only [if_neg h, updateFleeingEntities]
    exact peopleLe_map (fleeingPersonStep dt) (fleeingPersonStep_fle dt) _

theorem updateWaveShoaling_peopleLe (e : Env) (s : SimulationState) (dt : ℚ) (cfg : WorldConfig)
    (k : Nat) (l : List Person) (hl : s.people = l) :
    PeopleLe l (updateWaveShoaling e s dt cfg k).1.people := by
  subst hl
  simp only [updateWaveShoaling, updateFleeingEntities]
  refine peopleLe_trans ?_ (peopleLe_of_eq (ite_particles_comps _ _ _ _ _).2.2.1)
  refine peopleLe_trans ?_ (peopleLe_map (fleeingPersonStep dt) (fleeingPersonStep_fle dt) _)
  refine peopleLe_trans ?_ (peopleLe_evacFold (shoalingVehicleStep e cfg)
    (shoalingVehicleStep_state e cfg) _ _)
  exact peopleLe_map (shoalingPersonStep (s.phaseTime / 8000))
    (shoalingPersonStep_fle (s.phaseTime / 8000)) s.people

theorem updateWaveBreaking_peopleLe (e : Env) (s : SimulationState) (dt : ℚ) (cfg : WorldConfig)
    (k : Nat) (l : List Person) (hl : s.people = l) :
    PeopleLe l (updateWaveBreaking e s dt cfg k).1.people := by
  subst hl
  simp only [updateWaveBreaking, updateFleeingEntities]
  refine peopleLe_trans (peopleLe_map (fleeingPersonStep dt) (fleeingPersonStep_fle dt) s.people)
    (peopleLe_of_eq (breakingSprayLoop_comps e cfg 3 _ k).2.2.1)

theorem updateInundation_peopleLe (e : Env) (s : SimulationState) (dt : ℚ) (cfg : WorldConfig)
    (k : Nat) (l : List Person) (hl : s.people = l) :
    PeopleLe l (updateInundation e s dt cfg k).1.people := by
  subst hl
  simp only [updateInundation, updateFleeingEntities]
  refine peopleLe_trans ?_ (peopleLe_of_eq (ite_particles_comps _ _ _ _ _).2.2.1)
  refine peopleLe_trans ?_ (peopleLe_map (fleeingPersonStep dt) (fleeingPersonStep_fle dt) _)
  exact peopleLe_mapAccumRand _ (inundationPersonStep_fle cfg _) _ s.people _

theorem updateRecession_peopleLe (e : Env) (s : SimulationState) (dt : ℚ) (cfg : WorldConfig)
    (k : Nat) (l : List Person) (hl : s.people = l) :
    PeopleLe l (updateRecession e s dt cfg k).1.people := by
  subst hl
  simp only [updateRecession, updateFleeingEntities]
  refine peopleLe_trans ?_ (peopleLe_of_eq (ite_particles_comps _ _ _ _ _).2.2.1)
  refine peopleLe_trans ?_ (peopleLe_map (fleeingPersonStep dt) (fleeingPersonStep_fle dt) _)
  exact peopleLe_mapAccumRand _ (recessionPersonStep_fle e cfg _) _ s.people k

theorem updateAftermath_peopleLe (e : Env) (s : SimulationState) (dt : ℚ) (cfg : WorldConfig)
    (k : Nat) (l : List Person) (hl : s.people = l) :
    PeopleLe l (updateAftermath e s dt cfg k).1.people := by
  subst hl
  simp only [updateAftermath]
  exact peopleLe_mapAccumRand _ aftermathPersonStep_fle _ s.people k

set_option maxHeartbeats 1600000 in
/-- One engine tick never clears a caught or survived flag: positionally,
every input person is still present with monotone terminal flags. -/
theorem updateSimulation_peopleLe (e : Env) (s : SimulationState) (dt : ℚ)
    (cfg : WorldConfig) (k : Nat) :
    PeopleLe s.people (updateSimulation e s dt cfg k).1.people := by
  by_cases hp : s.paused = true
  · simp only [updateSimulation, if_pos hp]
    exact peopleLe_refl _
  · cases hph : s.phase
    · -- idle
      simp only [updateSimulation, if_neg hp, hph, PHASE_DURATIONS]
      rw [(updateParticles_comps _ (dt * s.speed)).2.2.1]
      exact peopleLe_refl _
    · -- earthquake
      simp only [updateSimulation, if_neg hp, hph, PHASE_DURATIONS, getNextPhase]
      by_cases ht : s.phaseTime ≥ 8000
      · simp only [if_pos ht]
        rw [(updateParticles_comps _ (dt * s.speed)).2.2.1]
        exact updateWaveFormation_peopleLe e _ (dt * s.speed) cfg k s.people rfl
      · simp only [if_neg ht]
        rw [(updateParticles_comps _ (dt * s.speed)).2.2.1]
        exact updateEarthquake_peopleLe e _ (dt * s.speed) cfg k s.people rfl
    · -- waveFormation
      simp only [updateSimulation, if_neg hp, hph, PHASE_DURATIONS, getNextPhase]
      by_cases ht : s.phaseTime ≥ 6000
      · simp only [if_pos ht]
        rw [(updateParticles_comps _ (dt * s.speed)).2.2.1]
        exact updateWaveTravel_peopleLe e _ (dt * s.speed) cfg k s.people rfl
      · simp only [if_neg ht]
        rw [(updateParticles_comps _ (dt * s.speed)).2.2.1]
        exact updateWaveFormation_peopleLe e _ (dt * s.speed) cfg k s.people rfl
    · -- waveTravel
      simp only [updateSimulation, if_neg hp, hph, PHASE_DURATIONS, getNextPhase]
      by_cases ht : s.phaseTime ≥ 12000
      · simp only [if_pos ht]
        rw [(updateParticles_comps _ (dt * s.speed)).2.2.1]
        exact updateWaveShoaling_peopleLe e _ (dt * s.speed) cfg k s.people rfl
      · simp only [if_neg ht]
        rw [(updateParticles_comps _ (dt * s.speed)).2.2.1]
        exact updateWaveTravel_peopleLe e _ (dt * s.speed) cfg k s.people rfl
    · -- waveShoaling
      simp only [updateSimulation, if_neg hp, hph, PHASE_DURATIONS, getNextPhase]
      by_cases ht : s.phaseTime ≥ 8000
      · simp only [if_pos ht]
        rw [(updateParticles_comps _ (dt * s.speed)).2.2.1]
        exact updateWaveBreaking_peopleLe e _ (dt * s.speed) cfg k s.people rfl
      · simp only [if_neg ht]
        rw [(updateParticles_comps _ (dt * s.speed)).2.2.1]
        exact updateWaveShoaling_peopleLe e _ (dt * s.speed) cfg k s.people rfl
    · -- waveBreaking
      simp only [updateSimulation, if_neg hp, hph, PHASE_DURATIONS, getNextPhase]
      by_cases ht : s.phaseTime ≥ 6000
      · simp only [if_pos ht]
        rw [(updateParticles_comps _ (dt * s.speed)).2.2.1]
        exact updateInundation_peopleLe e _ (dt * s.speed) cfg k s.people rfl
      · simp only [if_neg ht]
        rw [(updateParticles_comps _ (dt * s.speed)).2.2.1]
        exact updateWaveBreaking_peopleLe e _ (dt * s.speed) cfg k s.people rfl
    · -- inundation
      simp only [updateSimulation, if_neg hp, hph, PHASE_DURATIONS, getNextPhase]
      by_cases ht : s.phaseTime ≥ 15000
      · simp only [if_pos ht]
        rw [(updateParticles_comps _ (dt * s.speed)).2.2.1]
        exact updateRecession_peopleLe e _ (dt * s.speed) cfg k s.people rfl
      · simp only [if_neg ht]
        rw [(updateParticles_comps _ (dt * s.speed)).2.2.1]
        exact updateInundation_peopleLe e _ (dt * s.speed) cfg k s.people rfl
    · -- recession
      simp only [updateSimulation, if_neg hp, hph, PHASE_DURATIONS, getNextPhase]
      by_cases ht : s.phaseTime ≥ 12000
      · simp only [if_pos ht]
        rw [(updateParticles_comps _ (dt * s.speed)).2.2.1]
        exact updateAftermath_peopleLe e _ (dt * s.speed) cfg k s.people rfl
      · simp only [if_neg ht]
        rw [(updateParticles_comps _ (dt * s.speed)).2.2.1]
        exact updateRecession_peopleLe e _ (dt * s.speed) cfg k s.people rfl
    · -- aftermath
      simp only [updateSimulation, if_neg hp, hph, PHASE_DURATIONS]
      rw [(updateParticles_comps _ (dt * s.speed)).2.2.1]
      exact updateAftermath_peopleLe e _ (dt * s.speed) cfg k s.people rfl

theorem updateEarthquake_evacLe (e : Env) (s : SimulationState) (dt : ℚ) (cfg : WorldConfig)
    (k : Nat) (l : List Vehicle) (hl : s.vehicles = l) :
    EvacLe l (updateEarthquake e s dt cfg k).1.vehicles := by
  subst hl
  exact evacLe_of_eq (updateEarthquake_fixed e s dt cfg k).2.2.1

theorem updateWaveFormation_evacLe (e : Env) (s : SimulationState) (dt : ℚ) (cfg : WorldConfig)
    (k : Nat) (l : List Vehicle) (hl : s.vehicles = l) :
    EvacLe l (updateWaveFormation e s dt cfg k).1.vehicles := by
  subst hl
  exact evacLe_of_eq (updateWaveFormation_comps e s dt cfg k).2.2.2.1

theorem updateWaveTravel_evacLe (e : Env) (s : SimulationState) (dt : ℚ) (cfg : WorldConfig)
    (k : Nat) (l : List Vehicle) (hl : s.vehicles = l) :
    EvacLe l (updateWaveTravel e s dt cfg k).1.vehicles := by
  subst hl
  simp only [updateWaveTravel]
  by_cases h : s.phaseTime / 12000 > 0.3
  · simp only [if_pos h, updateFleeingEntities]
    exact evacLe_mapAccumRand (waveTravelVehicleStep e cfg)
      (fun acc v k' => (waveTravelVehicleStep_vehicle e cfg acc v k').2) _ s.vehicles _
  · simp only [if_neg h, updateFleeingEntities]
    exact evacLe_refl _

theorem updateWaveShoaling_evacLe (e : Env) (s : SimulationState) (dt : ℚ) (cfg : WorldConfig)
    (k : Nat) (l : List Vehicle) (hl : s.vehicles = l) :
    EvacLe l (updateWaveShoaling e s dt cfg k).1.vehicles := by
  subst hl
  simp only [updateWaveShoaling, updateFleeingEntities]
  refine evacLe_trans ?_ (evacLe_of_eq (ite_particles_comps _ _ _ _ _).2.2.2.1)
  exact evacLe_mapAccumRand (shoalingVehicleStep e cfg)
    (fun acc v k' => fun hev => by
      rw [(shoalingVehicleStep_vehicle e cfg acc v k').2, hev]
      rfl) _ s.vehicles _

theorem updateWaveBreaking_evacLe (e : Env) (s : SimulationState) (dt : ℚ) (cfg : WorldConfig)
    (k : Nat) (l : List Vehicle) (hl : s.vehicles = l) :
    EvacLe l (updateWaveBreaking e s dt cfg k).1.vehicles := by
  subst hl
  exact evacLe_of_eq (updateWaveBreaking_comps e s dt cfg k).2.2.2.2.1

theorem updateInundation_evacLe (e : Env) (s : SimulationState) (dt : ℚ) (cfg : WorldConfig)
    (k : Nat) (l : List Vehicle) (hl : s.vehicles = l) :
    EvacLe l (updateInundation e s dt cfg k).1.vehicles := by
  subst hl
  simp only [updateInundation, updateFleeingEntities]
  refine evacLe_trans ?_ (evacLe_of_eq (ite_particles_comps _ _ _ _ _).2.2.2.1)
  exact evacLe_mapAccumRand _
    (fun acc v k' => fun hev => by
      rw [(inundationVehicleStep_vehicle _ acc v k').1]
      exact hev) _ s.vehicles _

theorem updateRecession_evacLe (e : Env) (s : SimulationState) (dt : ℚ) (cfg : WorldConfig)
    (k : Nat) (l : List Vehicle) (hl : s.vehicles = l) :
    EvacLe l (updateRecession e s dt cfg k).1.vehicles := by
  subst hl
  exact evacLe_of_eq (updateRecession_inv e s dt cfg k).2.2.1

theorem updateAftermath_evacLe (e : Env) (s : SimulationState) (dt : ℚ) (cfg : WorldConfig)
    (k : Nat) (l : List Vehicle) (hl : s.vehicles = l) :
    EvacLe l (updateAftermath e s dt cfg k).1.vehicles := by
  subst hl
  exact evacLe_of_eq (updateAftermath_inv e s dt cfg k).2.2.1

set_option maxHeartbeats 1600000 in
/-- One engine tick never clears the evacuated flag of any vehicle. -/
theorem updateSimulation_evacLe (e : Env) (s : SimulationState) (dt : ℚ)
    (cfg : WorldConfig) (k : Nat) :
    EvacLe s.vehicles (updateSimulation e s dt cfg k).1.vehicles := by
  by_cases hp : s.paused = true
  · simp only [updateSimulation, if_pos hp]
    exact evacLe_refl _
  · cases hph : s.phase
    · -- idle
      simp only [updateSimulation, if_neg hp, hph, PHASE_DURATIONS]
      rw [(updateParticles_comps _ (dt * s.speed)).2.2.2.1]
      exact evacLe_refl _
    · -- earthquake
      simp only [updateSimulation, if_neg hp, hph, PHASE_DURATIONS, getNextPhase]
      by_cases ht : s.phaseTime ≥ 8000
      · simp only [if_pos ht]
        rw [(updateParticles_comps _ (dt * s.speed)).2.2.2.1]
        exact updateWaveFormation_evacLe e _ (dt * s.speed) cfg k s.vehicles rfl
      · simp only [if_neg ht]
        rw [(updateParticles_comps _ (dt * s.speed)).2.2.2.1]
        exact updateEarthquake_evacLe e _ (dt * s.speed) cfg k s.vehicles rfl
    · -- waveFormation
      simp only [updateSimulation, if_neg hp, hph, PHASE_DURATIONS, getNextPhase]
      by_cases ht : s.phaseTime ≥ 6000
      · simp only [if_pos ht]
        rw [(updateParticles_comps _ (dt * s.speed)).2.2.2.1]
        exact updateWaveTravel_evacLe e _ (dt * s.speed) cfg k s.vehicles rfl
      · simp only [if_neg ht]
        rw [(updateParticles_comps _ (dt * s.speed)).2.2.2.1]
        exact updateWaveFormation_evacLe e _ (dt * s.speed) cfg k s.vehicles rfl
    · -- waveTravel
      simp only [updateSimulation, if_neg hp, hph, PHASE_DURATIONS, getNextPhase]
      by_cases ht : s.phaseTime ≥ 12000
      · simp only [if_pos ht]
        rw [(updateParticles_comps _ (dt * s.speed)).2.2.2.1]
        exact updateWaveShoaling_evacLe e _ (dt * s.speed) cfg k s.vehicles rfl
      · simp only [if_neg ht]
        rw [(updateParticles_comps _ (dt * s.speed)).2.2.2.1]
        exact updateWaveTravel_evacLe e _ (dt * s.speed) cfg k s.vehicles rfl
    · -- waveShoaling
      simp only [updateSimulation, if_neg hp, hph, PHASE_DURATIONS, getNextPhase]
      by_cases ht : s.phaseTime ≥ 8000
      · simp only [if_pos ht]
        rw [(updateParticles_comps _ (dt * s.speed)).2.2.2.1]
        exact updateWaveBreaking_evacLe e _ (dt * s.speed) cfg k s.vehicles rfl
      · simp only [if_neg ht]
        rw [(updateParticles_comps _ (dt * s.speed)).2.2.2.1]
        exact updateWaveShoaling_evacLe e _ (dt * s.speed) cfg k s.vehicles rfl
    · -- waveBreaking
      simp only [updateSimulation, if_neg hp, hph, PHASE_DURATIONS, getNextPhase]
      by_cases ht : s.phaseTime ≥ 6000
      · simp only [if_pos ht]
        rw [(updateParticles_comps _ (dt * s.speed)).2.2.2.1]
        exact updateInundation_evacLe e _ (dt * s.speed) cfg k s.vehicles rfl
      · simp only [if_neg ht]
        rw [(updateParticles_comps _ (dt * s.speed)).2.2.2.1]
        exact updateWaveBreaking_evacLe e _ (dt * s.speed) cfg k s.vehicles rfl
    · -- inundation
      simp only [updateSimulation, if_neg hp, hph, PHASE_DURATIONS, getNextPhase]
      by_cases ht : s.phaseTime ≥ 15000
      · simp only [if_pos ht]
        rw [(updateParticles_comps _ (dt * s.speed)).2.2.2.1]
        exact updateRecession_evacLe e _ (dt * s.speed) cfg k s.vehicles rfl
      · simp only [if_neg ht]
        rw [(updateParticles_comps _ (dt * s.speed)).2.2.2.1]
        exact updateInundation_evacLe e _ (dt * s.speed) cfg k s.vehicles rfl
    · -- recession
      simp only [updateSimulation, if_neg hp, hph, PHASE_DURATIONS, getNextPhase]
      by_cases ht : s.phaseTime ≥ 12000
      · simp only [if_pos ht]
        rw [(updateParticles_comps _ (dt * s.speed)).2.2.2.1]
        exact updateAftermath_evacLe e _ (dt * s.speed) cfg k s.vehicles rfl
      · simp only [if_neg ht]
        rw [(updateParticles_comps _ (dt * s.speed)).2.2.2.1]
        exact updateRecession_evacLe e _ (dt * s.speed) cfg k s.vehicles rfl
    · -- aftermath
      simp only [updateSimulation, if_neg hp, hph, PHASE_DURATIONS]
      rw [(updateParticles_comps _ (dt * s.speed)).2.2.2.1]
      exact updateAftermath_evacLe e _ (dt * s.speed) cfg k s.vehicles rfl

/-! ### Per-building damage equations of the inundation tick -/

theorem get_of_list_eq {l l' : List α} (h : l = l') (i : Nat) (hi : i < l.length) :
    ∃ (hi' : i < l'.length), l.get ⟨i, hi⟩ = l'.get ⟨i, hi'⟩ := by
  subst h
  exact ⟨hi, rfl⟩

/-- The building part of `inundationBuildingStep` is a pure function of the
building. -/
theorem inundationBuildingStep_building (e : Env) (front depth ms dt : ℚ)
    (acc : List Debris × Stats) (b : Building) (k : Nat) :
    (inundationBuildingStep e front depth ms dt acc b k).1 =
      if b.destroyed = false ∧ b.x < front then
        if b.health - depth * (dt / 1000) * (ms + 0.5) ≤ 0 then
          { b with health := b.health - depth * (dt / 1000) * (ms + 0.5), destroyed := true }
        else { b with health := b.health - depth * (dt / 1000) * (ms + 0.5) }
      else b := by
  by_cases h1 : b.destroyed = false ∧ b.x < front
  · by_cases h2 : b.health - depth * (dt / 1000) * (ms + 0.5) ≤ 0
    · unfold inundationBuildingStep
      simp only [if_pos h1]
      simp only [if_pos h2]
    · unfold inundationBuildingStep
      simp only [if_pos h1]
      simp only [if_neg h2]
  · unfold inundationBuildingStep
    simp only [if_neg h1]

theorem inundation_buildings_get (e : Env) (front depth ms dt : ℚ)
    (acc : List Debris × Stats) (l : List Building) (k : Nat) (i : Nat)
    (hi : i < l.length)
    (hi' : i < (mapAccumRand (inundationBuildingStep e front depth ms dt) acc l k).1.length) :
    (mapAccumRand (inundationBuildingStep e front depth ms dt) acc l k).1.get ⟨i, hi'⟩ =
      (let b := l.get ⟨i, hi⟩
       if b.destroyed = false ∧ b.x < front then
         if b.health - depth * (dt / 1000) * (ms + 0.5) ≤ 0 then
           { b with health := b.health - depth * (dt / 1000) * (ms + 0.5), destroyed := true }
         else { b with health := b.health - depth * (dt / 1000) * (ms + 0.5) }
       else b) := by
  obtain ⟨acc', k', hk⟩ := mapAccumRand_get (inundationBuildingStep e front depth ms dt) acc l k i hi hi'
  rw [hk, inundationBuildingStep_building]

theorem updateInundation_buildings (e : Env) (s : SimulationState) (dt : ℚ)
    (cfg : WorldConfig) (k : Nat) :
    (updateInundation e s dt cfg k).1.buildings =
      (mapAccumRand (inundationBuildingStep e
          (cfg.townStartX + s.phaseTime / 15000 * (cfg.townEndX - cfg.townStartX))
          ((30 + (s.magnitude - 5) / 4 * 70) * (1 - s.phaseTime / 15000 * 0.5))
          ((s.magnitude - 5) / 4) dt)
        (s.debris, s.stats) s.buildings k).1 := by
  simp only [updateInundation, updateFleeingEntities]
  exact ((ite_particles_comps _ _ _ _ _).2.2.2.2.1).trans rfl

theorem updateInundation_debris (e : Env) (s : SimulationState) (dt : ℚ)
    (cfg : WorldConfig) (k : Nat) :
    (updateInundation e s dt cfg k).1.debris =
      (mapAccumRand (inundationBuildingStep e
          (cfg.townStartX + s.phaseTime / 15000 * (cfg.townEndX - cfg.townStartX))
          ((30 + (s.magnitude - 5) / 4 * 70) * (1 - s.phaseTime / 15000 * 0.5))
          ((s.magnitude - 5) / 4) dt)
        (s.debris, s.stats) s.buildings k).2.1.1 := by
  simp only [updateInundation, updateFleeingEntities]
  exact ((ite_particles_comps _ _ _ _ _).2.2.2.2.2.2).trans rfl

theorem updateInundation_stats_bd (e : Env) (s : SimulationState) (dt : ℚ)
    (cfg : WorldConfig) (k : Nat) :
    (updateInundation e s dt cfg k).1.stats.buildingsDestroyed =
      (mapAccumRand (inundationBuildingStep e
          (cfg.townStartX + s.phaseTime / 15000 * (cfg.townEndX - cfg.townStartX))
          ((30 + (s.magnitude - 5) / 4 * 70) * (1 - s.phaseTime / 15000 * 0.5))
          ((s.magnitude - 5) / 4) dt)
        (s.debris, s.stats) s.buildings k).2.1.2.buildingsDestroyed := by
  simp only [updateInundation, updateFleeingEntities]
  refine (congrArg Stats.buildingsDestroyed ((ite_particles_comps _ _ _ _ _).2.2.2.2.2.1)).trans ?_
  exact ((people_fold_stats _ (inundationPersonStep_summary cfg _) _ _ _).1).trans
    ((vehicles_fold_stats _ (inundationVehicleStep_summary _) _ _ _).1)

/-! ### Settlement width bound of createTowns -/

theorem createTownsLoop_width (e : Env) (cfg : WorldConfig) (tw : ℚ) :
    ∀ n i x un k, ∀ t ∈ (createTownsLoop e cfg tw n i x un k).1, 100 ≤ t.width := by
  intro n
  induction n with
  | zero =>
    intro i x un k t ht
    simp [createTownsLoop] at ht
  | succ m ih =>
    intro i x un k t ht
    simp only [createTownsLoop] at ht
    split at ht
    · split at ht
      · simp at ht
      · rename_i hw
        split at ht
        · simp only [List.mem_singleton] at ht
          subst ht
          push_neg at hw
          exact hw
        · simp only [List.mem_cons] at ht
          rcases ht with rfl | ht
          · push_neg at hw
            exact hw
          · exact ih _ _ _ _ t ht
    · split at ht
      · split at ht
        · simp at ht
        · rename_i hw
          split at ht
          · simp only [List.mem_singleton] at ht
            subst ht
            push_neg at hw
            exact hw
          · simp only [List.mem_cons] at ht
            rcases ht with rfl | ht
            · push_neg at hw
              exact hw
            · exact ih _ _ _ _ t ht
      · split at ht
        · simp at ht
        · rename_i hw
          split at ht
          · simp only [List.mem_singleton] at ht
            subst ht
            push_neg at hw
            exact hw
          · simp only [List.mem_cons] at ht
            rcases ht with rfl | ht
            · push_neg at hw
              exact hw
            · exact ih _ _ _ _ t ht

/-! ### The phase machine of updateSimulation -/

set_option maxHeartbeats 1600000 in
/-- C6: each tick advances the phase by at most one step of the fixed order
(`getNextPhase`), resets `phaseTime` to 0 on a transition, and never
advances out of `idle` or `aftermath`. -/
theorem C6_phase_step (e : Env) (s : SimulationState) (dt : ℚ) (cfg : WorldConfig) (k : Nat) :
    ((updateSimulation e s dt cfg k).1.phase = s.phase ∨
      ((updateSimulation e s dt cfg k).1.phase = getNextPhase s.phase ∧
       (updateSimulation e s dt cfg k).1.phaseTime = 0)) ∧
    (s.phase = .idle → (updateSimulation e s dt cfg k).1.phase = .idle) ∧
    (s.phase = .aftermath → (updateSimulation e s dt cfg k).1.phase = .aftermath) := by
  by_cases hp : s.paused = true
  · refine ⟨Or.inl ?_, fun h => ?_, fun h => ?_⟩
    · simp only [updateSimulation, if_pos hp]
    · simp only [updateSimulation, if_pos hp]
      exact h
    · simp only [updateSimulation, if_pos hp]
      exact h
  · cases hph : s.phase
    · -- idle
      have hcore : (updateSimulation e s dt cfg k).1.phase = SimulationPhase.idle := by
        simp only [updateSimulation, if_neg hp, hph, PHASE_DURATIONS]
        rw [(updateParticles_comps _ (dt * s.speed)).1]
      exact ⟨Or.inl hcore, fun _ => hcore, fun h => absurd h (by decide)⟩
    · -- earthquake
      refine ⟨?_, fun h => absurd h (by decide), fun h => absurd h (by decide)⟩
      simp only [updateSimulation, if_neg hp, hph, PHASE_DURATIONS, getNextPhase]
      by_cases ht : s.phaseTime ≥ 8000
      · simp only [if_pos ht]
        refine Or.inr ⟨?_, ?_⟩
        · rw [(updateParticles_comps _ (dt * s.speed)).1, (updateWaveFormation_comps e _ (dt * s.speed) cfg k).1]
        · rw [(updateParticles_comps _ (dt * s.speed)).2.1, (updateWaveFormation_comps e _ (dt * s.speed) cfg k).2.1]
      · simp only [if_neg ht]
        refine Or.inl ?_
        rw [(updateParticles_comps _ (dt * s.speed)).1, (updateEarthquake_fixed e _ (dt * s.speed) cfg k).1]
    · -- waveFormation
      refine ⟨?_, fun h => absurd h (by decide), fun h => absurd h (by decide)⟩
      simp only [updateSimulation, if_neg hp, hph, PHASE_DURATIONS, getNextPhase]
      by_cases ht : s.phaseTime ≥ 6000
      · simp only [if_pos ht]
        refine Or.inr ⟨?_, ?_⟩
        · rw [(updateParticles_comps _ (dt * s.speed)).1, (updateWaveTravel_comps e _ (dt * s.speed) cfg k).1]
        · rw [(updateParticles_comps _ (dt * s.speed)).2.1, (updateWaveTravel_comps e _ (dt * s.speed) cfg k).2.1]
      · simp only [if_neg ht]
        refine Or.inl ?_
        rw [(updateParticles_comps _ (dt * s.speed)).1, (updateWaveFormation_comps e _ (dt * s.speed) cfg k).1]
    · -- waveTravel
      refine ⟨?_, fun h => absurd h (by decide), fun h => absurd h (by decide)⟩
      simp only [updateSimulation, if_neg hp, hph, PHASE_DURATIONS, getNextPhase]
      by_cases ht : s.phaseTime ≥ 12000
      · simp only [if_pos ht]
        refine Or.inr ⟨?_, ?_⟩
        · rw [(updateParticles_comps _ (dt * s.speed)).1, (updateWaveShoaling_comps e _ (dt * s.speed) cfg k).1]
        · rw [(updateParticles_comps _ (dt * s.speed)).2.1, (updateWaveShoaling_comps e _ (dt * s.speed) cfg k).2.1]
      · simp only [if_neg ht]
        refine Or.inl ?_
        rw [(updateParticles_comps _ (dt * s.speed)).1, (updateWaveTravel_comps e _ (dt * s.speed) cfg k).1]
    · -- waveShoaling
      refine ⟨?_, fun h => absurd h (by decide), fun h => absurd h (by decide)⟩
      simp only [updateSimulation, if_neg hp, hph, PHASE_DURATIONS, getNextPhase]
      by_cases ht : s.phaseTime ≥ 8000
      · simp only [if_pos ht]
        refine Or.inr ⟨?_, ?_⟩
        · rw [(updateParticles_comps _ (dt * s.speed)).1, (updateWaveBreaking_comps e _ (dt * s.speed) cfg k).1]
        · rw [(updateParticles_comps _ (dt * s.speed)).2.1, (updateWaveBreaking_comps e _ (dt * s.speed) cfg k).2.1]
      · simp only [if_neg ht]
        refine Or.inl ?_
        rw [(updateParticles_comps _ (dt * s.speed)).1, (updateWaveShoaling_comps e _ (dt * s.speed) cfg k).1]
    · -- waveBreaking
      refine ⟨?_, fun h => absurd h (by decide), fun h => absurd h (by decide)⟩
      simp only [updateSimulation, if_neg hp, hph, PHASE_DURATIONS, getNextPhase]
      by_cases ht : s.phaseTime ≥ 6000
      · simp only [if_pos ht]
        refine Or.inr ⟨?_, ?_⟩
        · rw [(updateParticles_comps _ (dt * s.speed)).1, (updateInundation_inv e _ (dt * s.speed) cfg k).1]
        · rw [(updateParticles_comps _ (dt * s.speed)).2.1, (updateInundation_inv e _ (dt * s.speed) cfg k).2.1]
      · simp only [if_neg ht]
        refine Or.inl ?_
        rw [(updateParticles_comps _ (dt * s.speed)).1, (updateWaveBreaking_comps e _ (dt * s.speed) cfg k).1]
    · -- inundation
      refine ⟨?_, fun h => absurd h (by decide), fun h => absurd h (by decide)⟩
      simp only [updateSimulation, if_neg hp, hph, PHASE_DURATIONS, getNextPhase]
      by_cases ht : s.phaseTime ≥ 15000
      · simp only [if_pos ht]
        refine Or.inr ⟨?_, ?_⟩
        · rw [(updateParticles_comps _ (dt * s.speed)).1, (updateRecession_inv e _ (dt * s.speed) cfg k).1]
        · rw [(updateParticles_comps _ (dt * s.speed)).2.1, (updateRecession_inv e _ (dt * s.speed) cfg k).2.1]
      · simp only [if_neg ht]
        refine Or.inl ?_
        rw [(updateParticles_comps _ (dt * s.speed)).1, (updateInundation_inv e _ (dt * s.speed) cfg k).1]
    · -- recession
      refine ⟨?_, fun h => absurd h (by decide), fun h => absurd h (by decide)⟩
      simp only [updateSimulation, if_neg hp, hph, PHASE_DURATIONS, getNextPhase]
      by_cases ht : s.phaseTime ≥ 12000
      · simp only [if_pos ht]
        refine Or.inr ⟨?_, ?_⟩
        · rw [(updateParticles_comps _ (dt * s.speed)).1, (updateAftermath_inv e _ (dt * s.speed) cfg k).1]
        · rw [(updateParticles_comps _ (dt * s.speed)).2.1, (updateAftermath_inv e _ (dt * s.speed) cfg k).2.1]
      · simp only [if_neg ht]
        refine Or.inl ?_
        rw [(updateParticles_comps _ (dt * s.speed)).1, (updateRecession_inv e _ (dt * s.speed) cfg k).1]
    · -- aftermath
      have hcore : (updateSimulation e s dt cfg k).1.phase = SimulationPhase.aftermath := by
        simp only [updateSimulation, if_neg hp, hph, PHASE_DURATIONS]
        rw [(updateParticles_comps _ (dt * s.speed)).1, (updateAftermath_inv e _ (dt * s.speed) cfg k).1]
      exact ⟨Or.inl hcore, fun h => absurd h (by decide), fun _ => hcore⟩

/-! ### Per-person resolution of the inundation tick -/

theorem inundationPersonStep_person (cfg : WorldConfig) (front : ℚ) (acc : Stats)
    (p : Person) (k : Nat) :
    (inundationPersonStep cfg front acc p k).1 =
      if p.caught = false ∧ p.survived = false then
        if p.x < front then { p with caught := true }
        else if p.x > cfg.townEndX - 100 then { p with survived := true }
        else p
      else p := by
  unfold inundationPersonStep
  split_ifs <;> rfl

theorem updateInundation_people (e : Env) (s : SimulationState) (dt : ℚ)
    (cfg : WorldConfig) (k : Nat) :
    ∃ acc k2, (updateInundation e s dt cfg k).1.people =
      ((mapAccumRand (inundationPersonStep cfg
          (cfg.townStartX + s.phaseTime / 15000 * (cfg.townEndX - cfg.townStartX)))
        acc s.people k2).1).map (fleeingPersonStep dt) := by
  simp only [updateInundation, updateFleeingEntities]
  exact ⟨_, _, ((ite_particles_comps _ _ _ _ _).2.2.1).trans rfl⟩

theorem map_get2 (g : α → β) (l : List α) (i : Nat) (hi : i < l.length)
    (hi' : i < (l.map g).length) :
    (l.map g).get ⟨i, hi'⟩ = g (l.get ⟨i, hi⟩) := by
  simp

theorem updateInundation_people_flags (e : Env) (s : SimulationState) (dt : ℚ)
    (cfg : WorldConfig) (k : Nat) (i : Nat) (hi : i < s.people.length) :
    ∃ (hi' : i < (updateInundation e s dt cfg k).1.people.length),
      (((updateInundation e s dt cfg k).1.people.get ⟨i, hi'⟩).caught =
        (if (s.people.get ⟨i, hi⟩).caught = false ∧ (s.people.get ⟨i, hi⟩).survived = false then
           if (s.people.get ⟨i, hi⟩).x <
               cfg.townStartX + s.phaseTime / 15000 * (cfg.townEndX - cfg.townStartX) then
             { s.people.get ⟨i, hi⟩ with caught := true }
           else if (s.people.get ⟨i, hi⟩).x > cfg.townEndX - 100 then
             { s.people.get ⟨i, hi⟩ with survived := true }
           else s.people.get ⟨i, hi⟩
         else s.people.get ⟨i, hi⟩).caught) ∧
      (((updateInundation e s dt cfg k).1.people.get ⟨i, hi'⟩).survived =
        (if (s.people.get ⟨i, hi⟩).caught = false ∧ (s.people.get ⟨i, hi⟩).survived = false then
           if (s.people.get ⟨i, hi⟩).x <
               cfg.townStartX + s.phaseTime / 15000 * (cfg.townEndX - cfg.townStartX) then
             { s.people.get ⟨i, hi⟩ with caught := true }
           else if (s.people.get ⟨i, hi⟩).x > cfg.townEndX - 100 then
             { s.people.get ⟨i, hi⟩ with survived := true }
           else s.people.get ⟨i, hi⟩
         else s.people.get ⟨i, hi⟩).survived) := by
  obtain ⟨acc, k2, hp⟩ := updateInundation_people e s dt cfg k
  have hif : i < (mapAccumRand (inundationPersonStep cfg
      (cfg.townStartX + s.phaseTime / 15000 * (cfg.townEndX - cfg.townStartX)))
      acc s.people k2).1.length := by
    rw [mapAccumRand_length]
    exact hi
  have hlen : i < (updateInundation e s dt cfg k).1.people.length := by
    rw [hp, List.length_map, mapAccumRand_length]
    exact hi
  refine ⟨hlen, ?_⟩
  obtain ⟨hi2, hge⟩ := get_of_list_eq hp i hlen
  obtain ⟨acc3, k3, hk⟩ := mapAccumRand_get (inundationPersonStep cfg
    (cfg.townStartX + s.phaseTime / 15000 * (cfg.townEndX - cfg.townStartX)))
    acc s.people k2 i hi hif
  rw [hge, map_get2 (fleeingPersonStep dt) _ i hif hi2, hk, inundationPersonStep_person]
  exact ⟨(fleeingPersonStep_flags dt _).1, (fleeingPersonStep_flags dt _).2⟩

/-! ### Evacuee spawn geometry -/

theorem evacueeLoop_x (e : Env) (cfg : WorldConfig) (v : Vehicle)
    (hr : ∀ j, 0 ≤ e.rand j ∧ e.rand j ≤ 1) :
    ∀ n i k, ∀ p ∈ (evacueeLoop e cfg v n i k).1, |p.x - v.x| ≤ 10 := by
  intro n
  induction n with
  | zero =>
    intro i k p hp
    simp [evacueeLoop] at hp
  | succ m ih =>
    intro i k p hp
    simp only [evacueeLoop, List.mem_cons] at hp
    rcases hp with hp | hp
    · subst hp
      have hu := hr (k + 1)
      have hx : v.x + randomRange (-10) 10 (e.rand (k + 1)) - v.x
          = -10 + e.rand (k + 1) * 20 := by
        simp only [randomRange]
        ring
      show |v.x + randomRange (-10) 10 (e.rand (k + 1)) - v.x| ≤ 10
      rw [hx, abs_le]
      constructor <;> nlinarith [hu.1, hu.2]
    · exact ih (i + 1) (k + 6) p hp

/-! ### Concrete environment and scenario states -/

/-- The all-zeros oracle environment used for concrete scenario runs. -/
def e0 : Env := { rand := fun _ => 0, sin := fun _ => 0, exp := fun _ => 0, pi := 0, fact := fun _ => none }

/-- Iterate `updateSimulation` with a fixed tick length, threading the
draw index. -/
def stepMany (e : Env) (dt : ℚ) (cfg : WorldConfig) :
    Nat → SimulationState × Nat → SimulationState × Nat
  | 0, sk => sk
  | n + 1, sk => stepMany e dt cfg n (updateSimulation e sk.1 dt cfg sk.2)

theorem reachable_stepMany (e : Env) (dt : ℚ) (cfg : WorldConfig) (n : Nat)
    (sk : SimulationState × Nat) (h : Reachable sk.1) :
    Reachable (stepMany e dt cfg n sk).1 := by
  induction n generalizing sk with
  | zero => exact h
  | succ m ih => exact ih _ (Reachable.step e sk.1 dt cfg sk.2 h)

/-- The fresh world at magnitude 7 under the all-zeros oracle. -/
def s0 : SimulationState := (createInitialState e0 7 0).1

/-- That world dropped into the recession phase. -/
def sRec : SimulationState := { s0 with phase := .recession }

/-- That world dropped into the wave-shoaling phase. -/
def sSho : SimulationState := { s0 with phase := .waveShoaling }

/-- That world dropped into mid-inundation. -/
def sInu : SimulationState := { s0 with phase := .inundation, phaseTime := 7500 }

/-- 8 one-second ticks after startSimulation. -/
def run8 : SimulationState × Nat :=
  stepMany e0 1000 DEFAULT_WORLD_CONFIG 8 (startSimulation e0 s0 0)

/-- 9 one-second ticks after startSimulation. -/
def run9 : SimulationState × Nat :=
  stepMany e0 1000 DEFAULT_WORLD_CONFIG 9 (startSimulation e0 s0 0)

/-- 46 one-second ticks after startSimulation: one second into inundation,
with the water front past the settlement edge. -/
def run46 : SimulationState × Nat :=
  stepMany e0 1000 DEFAULT_WORLD_CONFIG 46 (startSimulation e0 s0 0)

def dfltVehicle : Vehicle :=
  { id := ("none"), x := 0, y := 0, width := 0, height := 0, colorIndex := 0, speed := 0,
    fleeing := false, destroyed := false, occupants := 0, evacuated := false }

def dfltPerson : Person :=
  { id := ("none"), x := 0, y := 0, speed := 0, fleeing := false, runFrame := 0,
    skinColorIndex := 0, clothesColorIndex := 0, survived := false, caught := false }

def dfltTown : Town :=
  { id := ("none"), name := ("none"), x := 0, width := 0, population := 0, type := .village }

/-- A 3-occupant vehicle that is neither evacuated nor destroyed. -/
def v3 : Vehicle := { dfltVehicle with occupants := 3 }

/-- The vehicle the 46-tick run has destroyed. -/
def vehD : Vehicle := run46.1.vehicles.getD 0 dfltVehicle

/-- The settlement generated by the all-zeros oracle. -/
def town0 : Town := (createTowns e0 DEFAULT_WORLD_CONFIG 0).1.getD 0 dfltTown

/-- The doomed person after one inundation handler call on `sInu`. -/
def qInu : Person := (updateInundation e0 sInu 1000 DEFAULT_WORLD_CONFIG 0).1.people.getD 0 dfltPerson

/-- A spray particle with a long remaining life, used to exhibit the
zero-dt particle housekeeping. -/
def part0 : Particle :=
  { x := 0, y := 0, vx := 0, vy := 0, life := 1000, maxLife := 1000, size := 1, type := .spray }

/-- The fresh idle world carrying one live particle. -/
def sIdleP : SimulationState := { s0 with particles := [part0] }

/-! ### Debris spawn geometry -/

/-- A debris piece lies within the horizontal and vertical extent of a
building. -/
def InFootprint (d : Debris) (b : Building) : Prop :=
  b.x ≤ d.x ∧ d.x ≤ b.x + b.width ∧ b.y ≤ d.y ∧ d.y ≤ b.y + b.height

theorem createDebris_footprint (e : Env) (b : Building) (k : Nat)
    (hr : ∀ j, 0 ≤ e.rand j ∧ e.rand j ≤ 1) (hw : 0 ≤ b.width) (hh : 0 ≤ b.height) :
    InFootprint (createDebris e b k).1 b := by
  have hx := hr k
  have hy := hr (k + 1)
  refine ⟨?_, ?_, ?_, ?_⟩
  · simp only [createDebris, randomRange]
    nlinarith [hx.1, hx.2]
  · simp only [createDebris, randomRange]
    nlinarith [hx.1, hx.2]
  · simp only [createDebris, randomRange]
    nlinarith [hy.1, hy.2]
  · simp only [createDebris, randomRange]
    nlinarith [hy.1, hy.2]

theorem debrisLoop_mem (e : Env) (b : Building) :
    ∀ n ds k, ∀ d ∈ (debrisLoop e b n ds k).1, d ∈ ds ∨ ∃ k2, d = (createDebris e b k2).1 := by
  intro n
  induction n with
  | zero =>
    intro ds k d hd
    exact Or.inl hd
  | succ m ih =>
    intro ds k d hd
    simp only [debrisLoop] at hd
    rcases ih (ds ++ [(createDebris e b k).1]) (createDebris e b k).2 d hd with hd | hd
    · rcases List.mem_append.1 hd with hd | hd
      · exact Or.inl hd
      · simp only [List.mem_singleton] at hd
        exact Or.inr ⟨k, hd⟩
    · exact Or.inr hd

/-- Debris emitted by one building step: either it was already there, or
the step newly destroyed the building and spawned the piece within its
footprint. -/
theorem inundationBuildingStep_debrisMem (e : Env) (front depth ms dt : ℚ)
    (hr : ∀ j, 0 ≤ e.rand j ∧ e.rand j ≤ 1)
    (acc : List Debris × Stats) (b : Building) (k : Nat)
    (hw : 0 ≤ b.width) (hh : 0 ≤ b.height) :
    ∀ d ∈ (inundationBuildingStep e front depth ms dt acc b k).2.1.1,
      d ∈ acc.1 ∨ (b.destroyed = false ∧ b.x < front ∧
        b.health - depth * (dt / 1000) * (ms + 0.5) ≤ 0 ∧ InFootprint d b) := by
  intro d hd
  by_cases h1 : b.destroyed = false ∧ b.x < front
  · by_cases h2 : b.health - depth * (dt / 1000) * (ms + 0.5) ≤ 0
    · unfold inundationBuildingStep at hd
      simp only [if_pos h1] at hd
      simp only [if_pos h2] at hd
      rcases debrisLoop_mem e _ 5 acc.1 k d hd with hd | ⟨k2, hd⟩
      · exact Or.inl hd
      · right
        refine ⟨h1.1, h1.2, h2, ?_⟩
        rw [hd]
        exact createDebris_footprint e _ k2 hr hw hh
    · unfold inundationBuildingStep at hd
      simp only [if_pos h1] at hd
      simp only [if_neg h2] at hd
      exact Or.inl hd
  · unfold inundationBuildingStep at hd
    simp only [if_neg h1] at hd
    exact Or.inl hd

/-- Over the whole building fold: every debris piece is pre-existing or
spawned inside the footprint of a building the tick newly destroyed. -/
theorem inundation_debris_mem (e : Env) (front depth ms dt : ℚ)
    (hr : ∀ j, 0 ≤ e.rand j ∧ e.rand j ≤ 1) :
    ∀ (l : List Building) (acc : List Debris × Stats) (k : Nat),
      (∀ b ∈ l, 0 ≤ b.width ∧ 0 ≤ b.height) →
      ∀ d ∈ (mapAccumRand (inundationBuildingStep e front depth ms dt) acc l k).2.1.1,
        d ∈ acc.1 ∨ ∃ b ∈ l, b.destroyed = false ∧ b.x < front ∧
          b.health - depth * (dt / 1000) * (ms + 0.5) ≤ 0 ∧ InFootprint d b := by
  intro l
  induction l with
  | nil =>
    intro acc k _ d hd
    exact Or.inl hd
  | cons b bs ih =>
    intro acc k hwf d hd
    rw [mapAccumRand_cons] at hd
    rcases ih (inundationBuildingStep e front depth ms dt acc b k).2.1 _
        (fun b2 hb2 => hwf b2 (List.mem_cons_of_mem b hb2)) d hd with hd | ⟨b2, hb2, hrest⟩
    · rcases inundationBuildingStep_debrisMem e front depth ms dt hr acc b k
          (hwf b (List.mem_cons_self b bs)).1 (hwf b (List.mem_cons_self b bs)).2 d hd with
        hd | hres
      · exact Or.inl hd
      · exact Or.inr ⟨b, List.mem_cons_self b bs, hres⟩
    · exact Or.inr ⟨b2, List.mem_cons_of_mem b hb2, hrest⟩

/-! ### The claims -/

/-- C1 (counterexample): with the all-zeros oracle, magnitude 7, speed 1,
not paused, 8 successive 1000 ms `updateSimulation` calls after
`startSimulation` leave the run still in the earthquake phase with
`earthquake.active = true`, not in `waveFormation` with the quake off. -/
theorem C1_counterexample :
    run8.1.phase = SimulationPhase.earthquake ∧
    run8.1.phase ≠ SimulationPhase.waveFormation ∧
    run8.1.earthquake.active = true := by
  decide!

/-- C1 (amended): the engine compares the pre-tick `phaseTime` with the
8000 ms duration, so the earthquake→waveFormation transition lands one tick
late: after 9 ticks (not 8) the state is in `waveFormation` with
`earthquake.active = false`. -/
theorem C1_amended :
    run9.1.phase = SimulationPhase.waveFormation ∧
    run9.1.earthquake.active = false ∧
    run8.1.phase = SimulationPhase.earthquake := by
  decide!

/-- C2 (counterexample): a recession tick leaves the buildings list exactly
unchanged, although a not-destroyed building stands behind the receding
water front and the damage term claimed for such a tick is positive. -/
theorem C2_counterexample :
    sRec.phase = SimulationPhase.recession ∧
    (updateSimulation e0 sRec 1000 DEFAULT_WORLD_CONFIG 0).1.phase = SimulationPhase.recession ∧
    (∃ b ∈ sRec.buildings, b.destroyed = false ∧
      b.x < DEFAULT_WORLD_CONFIG.townStartX +
        (DEFAULT_WORLD_CONFIG.townEndX - DEFAULT_WORLD_CONFIG.townStartX) *
          (1 - easeOut ((1000 : ℚ) / 12000) * 0.9)) ∧
    (0 : ℚ) < (30 + (sRec.magnitude - 5) / 4 * 70) * 0.5 * (1 - easeOut ((1000 : ℚ) / 12000)) *
        (1000 / 1000) * ((sRec.magnitude - 5) / 4 + 0.5) ∧
    (updateSimulation e0 sRec 1000 DEFAULT_WORLD_CONFIG 0).1.buildings = sRec.buildings := by
  decide!

set_option maxHeartbeats 800000 in
/-- C2 (amended): only the inundation handler damages buildings.  On an
inundation tick, a not-destroyed building behind the water front loses
health exactly `waterDepth * (dt/1000) * (magnitudeScale + 0.5)`, is marked
destroyed exactly when the new health is ≤ 0, and buildings out of range are
returned unchanged; the destroyed-building counter and the debris list (5
pieces per newly destroyed building) move in lockstep with the destroyed
count; and, for oracle draws in [0,1] and buildings of nonnegative extent,
every appended debris piece lies within the footprint of a building the
tick newly destroyed. -/
theorem C2_amended (e : Env) (s : SimulationState) (dt : ℚ) (cfg : WorldConfig) (k : Nat) :
    (∀ i (hi : i < s.buildings.length),
      ∃ (hi' : i < (updateInundation e s dt cfg k).1.buildings.length),
        (updateInundation e s dt cfg k).1.buildings.get ⟨i, hi'⟩ =
          (let b := s.buildings.get ⟨i, hi⟩
           if b.destroyed = false ∧
               b.x < cfg.townStartX + s.phaseTime / 15000 * (cfg.townEndX - cfg.townStartX) then
             if b.health - ((30 + (s.magnitude - 5) / 4 * 70) * (1 - s.phaseTime / 15000 * 0.5))
                 * (dt / 1000) * ((s.magnitude - 5) / 4 + 0.5) ≤ 0 then
               { b with
                   health := b.health -
                     ((30 + (s.magnitude - 5) / 4 * 70) * (1 - s.phaseTime / 15000 * 0.5))
                       * (dt / 1000) * ((s.magnitude - 5) / 4 + 0.5),
                   destroyed := true }
             else
               { b with
                   health := b.health -
                     ((30 + (s.magnitude - 5) / 4 * 70) * (1 - s.phaseTime / 15000 * 0.5))
                       * (dt / 1000) * ((s.magnitude - 5) / 4 + 0.5) }
           else b)) ∧
    ((updateInundation e s dt cfg k).1.stats.buildingsDestroyed
        + (countDestroyedBuildings s.buildings : ℚ)
      = s.stats.buildingsDestroyed
        + (countDestroyedBuildings (updateInundation e s dt cfg k).1.buildings : ℚ)) ∧
    ((updateInundation e s dt cfg k).1.debris.length + 5 * countDestroyedBuildings s.buildings
      = s.debris.length + 5 * countDestroyedBuildings (updateInundation e s dt cfg k).1.buildings) ∧
    ((∀ j, 0 ≤ e.rand j ∧ e.rand j ≤ 1) →
      (∀ b ∈ s.buildings, 0 ≤ b.width ∧ 0 ≤ b.height) →
      ∀ d ∈ (updateInundation e s dt cfg k).1.debris, d ∈ s.debris ∨
        ∃ b ∈ s.buildings, b.destroyed = false ∧
          b.x < cfg.townStartX + s.phaseTime / 15000 * (cfg.townEndX - cfg.townStartX) ∧
          b.health - ((30 + (s.magnitude - 5) / 4 * 70) * (1 - s.phaseTime / 15000 * 0.5))
              * (dt / 1000) * ((s.magnitude - 5) / 4 + 0.5) ≤ 0 ∧
          InFootprint d b) := by
  refine ⟨?_, ?_, ?_, ?_⟩
  · intro i hi
    have hb := updateInundation_buildings e s dt cfg k
    have hiu : i < (updateInundation e s dt cfg k).1.buildings.length := by
      rw [hb, mapAccumRand_length]
      exact hi
    refine ⟨hiu, ?_⟩
    obtain ⟨hi2, hge⟩ := get_of_list_eq hb i hiu
    rw [hge]
    exact inundation_buildings_get e _ _ _ dt (s.debris, s.stats) s.buildings k i hi hi2
  · rw [updateInundation_stats_bd e s dt cfg k, updateInundation_buildings e s dt cfg k]
    exact (inundation_buildings_stats e _ _ _ dt s.buildings s.debris s.stats k).2.2.2.1
  · rw [updateInundation_debris e s dt cfg k, updateInundation_buildings e s dt cfg k]
    exact (inundation_buildings_stats e _ _ _ dt s.buildings s.debris s.stats k).2.2.2.2
  · intro hr hwf d hd
    rw [updateInundation_debris e s dt cfg k] at hd
    exact inundation_debris_mem e _ _ _ dt hr s.buildings (s.debris, s.stats) k hwf d hd

/-- C3 (counterexample): a zero-length tick is not a no-op.  During wave
shoaling it force-evacuates the remaining vehicle (flipping its evacuated
flag) and spawns its occupant as a new person; and even in the idle phase
it bumps the velocity of every live particle by the gravity increment. -/
theorem C3_counterexample :
    (updateSimulation e0 sSho 0 DEFAULT_WORLD_CONFIG 0).1.people.length = 5 ∧
    sSho.people.length = 4 ∧
    ((updateSimulation e0 sSho 0 DEFAULT_WORLD_CONFIG 0).1.vehicles.map (fun v => v.evacuated)) = [true] ∧
    (sSho.vehicles.map (fun v => v.evacuated)) = [false] ∧
    sIdleP.phase = SimulationPhase.idle ∧
    (sIdleP.particles.map (fun p => p.vy)) = [0] ∧
    ((updateSimulation e0 sIdleP 0 DEFAULT_WORLD_CONFIG 0).1.particles.map (fun p => p.vy)) = [0.2] := by
  decide!

/-- C3 (amended): a zero-length tick is unchanged only in restricted cases:
a paused state is returned exactly as-is; an unpaused idle state changes
exactly its particles component (each live particle integrated at dt = 0,
which still adds the gravity increment to its velocity, and expired ones
dropped); hence an idle state with no live particles is returned as-is.
In other phases the handlers still run, as the counterexample shows. -/
theorem C3_amended (e : Env) (s : SimulationState) (cfg : WorldConfig) (k : Nat) :
    (s.paused = true → updateSimulation e s 0 cfg k = (s, k)) ∧
    (s.phase = SimulationPhase.idle → s.paused = false →
      updateSimulation e s 0 cfg k =
        ({ s with
            particles :=
              (s.particles.map (particleStep 0)).filter (fun p => decide (p.life > 0)) },
         k)) ∧
    (s.phase = SimulationPhase.idle → s.particles = [] →
      (updateSimulation e s 0 cfg k).1 = s) := by
  refine ⟨?_, ?_, ?_⟩
  · intro hp
    simp only [updateSimulation, if_pos hp]
  · intro hph hp0
    have hp : ¬s.paused = true := by simp [hp0]
    simp only [updateSimulation, if_neg hp, hph, PHASE_DURATIONS, zero_mul, add_zero,
      updateParticles]
  · intro hph hpart
    by_cases hp : s.paused = true
    · simp only [updateSimulation, if_pos hp]
    · simp only [updateSimulation, if_neg hp, hph, PHASE_DURATIONS]
      simp only [updateParticles, hpart, List.map_nil, List.filter_nil]
      rw [← hpart]
      have h1 : s.time + 0 * s.speed = s.time := by ring
      have h2 : s.phaseTime + 0 * s.speed = s.phaseTime := by ring
      rw [h1, h2, ← hph]

/-- C4: in every reachable state no person has caught and survived both
true, and one engine tick only ever raises the terminal flags positionally
(`PeopleLe`), so each flag transitions false→true at most once per person. -/
theorem C4_flags (s : SimulationState) (h : Reachable s) :
    PeopleOk s ∧
    ∀ (e : Env) (dt : ℚ) (cfg : WorldConfig) (k : Nat),
      PeopleLe s.people (updateSimulation e s dt cfg k).1.people :=
  ⟨(invariant_of_reachable s h).1, fun e dt cfg k => updateSimulation_peopleLe e s dt cfg k⟩

/-- C4 (witness): the invariant and the per-tick monotonicity at the
freshly created world. -/
theorem C4_witness :
    PeopleOk s0 ∧
    ∀ (e : Env) (dt : ℚ) (cfg : WorldConfig) (k : Nat),
      PeopleLe s0.people (updateSimulation e s0 dt cfg k).1.people :=
  C4_flags s0 (Reachable.init e0 7 0)

/-- C5: after every `updateSimulation` call from a reachable state, the
stats block equals the terminal-flag counts (casualties, survivors,
destroyed buildings, destroyed vehicles). -/
theorem C5_stats (e : Env) (s : SimulationState) (dt : ℚ) (cfg : WorldConfig) (k : Nat)
    (h : Reachable s) : StatsOk (updateSimulation e s dt cfg k).1 :=
  (inv_step e s dt cfg k (invariant_of_reachable s h)).2.1

/-- C5 (witness): the synchronized stats after one tick on the fresh world. -/
theorem C5_witness : StatsOk (updateSimulation e0 s0 1000 DEFAULT_WORLD_CONFIG 0).1 :=
  C5_stats e0 s0 1000 DEFAULT_WORLD_CONFIG 0 (Reachable.init e0 7 0)

set_option maxHeartbeats 800000 in
/-- C7: evacuating a 3-occupant, not yet evacuated, not destroyed vehicle
appends exactly 3 new people, each fleeing and spawned within 10 units of
the vehicle (for oracle draws in [0,1]); the vehicle comes back evacuated;
an already-evacuated vehicle is a strict no-op; and no tick ever clears an
evacuated flag. -/
theorem C7_evacuation (e : Env) (cfg : WorldConfig) (v : Vehicle) (s : SimulationState) (k : Nat)
    (hocc : v.occupants = 3) (hev : v.evacuated = false) (hd : v.destroyed = false)
    (hr : ∀ j, 0 ≤ e.rand j ∧ e.rand j ≤ 1) :
    (evacuateVehicle e cfg v s k).2.1.people.length = s.people.length + 3 ∧
    (∀ p ∈ (evacuateVehicle e cfg v s k).2.1.people, p ∈ s.people ∨
      (p.fleeing = true ∧ |p.x - v.x| ≤ 10)) ∧
    (evacuateVehicle e cfg v s k).1.evacuated = true ∧
    (∀ (v2 : Vehicle) (s2 : SimulationState) (k2 : Nat), v2.evacuated = true →
      evacuateVehicle e cfg v2 s2 k2 = (v2, s2, k2)) ∧
    (∀ (s3 : SimulationState) (dt : ℚ) (k3 : Nat),
      EvacLe s3.vehicles (updateSimulation e s3 dt cfg k3).1.vehicles) := by
  have hcond : ¬(v.evacuated = true ∨ v.destroyed = true) := by
    simp [hev, hd]
  refine ⟨?_, ?_, ?_, ?_, ?_⟩
  · simp only [evacuateVehicle, if_neg hcond]
    rw [List.length_append, evacueeLoop_length, hocc]
    rfl
  · intro p hp
    simp only [evacuateVehicle, if_neg hcond] at hp
    rcases List.mem_append.1 hp with hp | hp
    · exact Or.inl hp
    · right
      refine ⟨(evacueeLoop_flags e cfg _ _ 0 k p hp).2.2, ?_⟩
      exact evacueeLoop_x e cfg { v with evacuated := true } hr _ 0 k p hp
  · rw [(evacuateVehicle_vehicle e cfg v s k).2, hev, hd]
    rfl
  · intro v2 s2 k2 h2
    unfold evacuateVehicle
    rw [if_pos (Or.inl h2)]
  · intro s3 dt k3
    exact updateSimulation_evacLe e s3 dt cfg k3

/-- C7 (witness): the evacuation facts at a concrete 3-occupant vehicle in
the fresh world under the all-zeros oracle. -/
theorem C7_witness :
    (evacuateVehicle e0 DEFAULT_WORLD_CONFIG v3 s0 0).2.1.people.length = s0.people.length + 3 ∧
    (∀ p ∈ (evacuateVehicle e0 DEFAULT_WORLD_CONFIG v3 s0 0).2.1.people, p ∈ s0.people ∨
      (p.fleeing = true ∧ |p.x - v3.x| ≤ 10)) ∧
    (evacuateVehicle e0 DEFAULT_WORLD_CONFIG v3 s0 0).1.evacuated = true ∧
    (∀ (v2 : Vehicle) (s2 : SimulationState) (k2 : Nat), v2.evacuated = true →
      evacuateVehicle e0 DEFAULT_WORLD_CONFIG v2 s2 k2 = (v2, s2, k2)) ∧
    (∀ (s3 : SimulationState) (dt : ℚ) (k3 : Nat),
      EvacLe s3.vehicles (updateSimulation e0 s3 dt DEFAULT_WORLD_CONFIG k3).1.vehicles) :=
  C7_evacuation e0 DEFAULT_WORLD_CONFIG v3 s0 0 rfl rfl rfl
    (fun _ => ⟨le_refl 0, zero_le_one⟩)

/-- C8: every settlement produced by `createTowns` has width at least 100:
the generation loop stops before emitting an undersized or negative one. -/
theorem C8_town_width (e : Env) (cfg : WorldConfig) (k : Nat) :
    ∀ t ∈ (createTowns e cfg k).1, 100 ≤ t.width := by
  intro t ht
  exact createTownsLoop_width e cfg _ _ _ _ _ _ t ht

/-- C8 (witness): the bound at the settlement the all-zeros oracle
generates. -/
theorem C8_witness : 100 ≤ town0.width :=
  C8_town_width e0 DEFAULT_WORLD_CONFIG 0 town0 (by decide!)

/-- C9: in every reachable state, every destroyed vehicle has been
evacuated first. -/
theorem C9_destroyed_evacuated (s : SimulationState) (h : Reachable s) :
    ∀ v ∈ s.vehicles, v.destroyed = true → v.evacuated = true :=
  (invariant_of_reachable s h).2.2.1

/-- C9 (witness): the vehicle destroyed by tick 46 of the concrete run was
evacuated. -/
theorem C9_witness : vehD.evacuated = true :=
  C9_destroyed_evacuated run46.1
    (reachable_stepMany e0 1000 DEFAULT_WORLD_CONFIG 46 (startSimulation e0 s0 0)
      (Reachable.start e0 s0 0 (Reachable.init e0 7 0)))
    vehD (by decide!) (by decide!)

/-- C10: in the inundation tick, capture has priority: an unresolved person
behind the water front is marked caught (never survived), even past the
survival threshold; the survival check applies only at or ahead of the
front. -/
theorem C10_priority (e : Env) (s : SimulationState) (dt : ℚ) (cfg : WorldConfig) (k : Nat)
    (i : Nat) (hi : i < s.people.length)
    (hc : (s.people.get ⟨i, hi⟩).caught = false)
    (hs : (s.people.get ⟨i, hi⟩).survived = false) :
    ∃ (hi' : i < (updateInundation e s dt cfg k).1.people.length),
      ((s.people.get ⟨i, hi⟩).x <
          cfg.townStartX + s.phaseTime / 15000 * (cfg.townEndX - cfg.townStartX) →
        ((updateInundation e s dt cfg k).1.people.get ⟨i, hi'⟩).caught = true ∧
        ((updateInundation e s dt cfg k).1.people.get ⟨i, hi'⟩).survived = false) ∧
      (¬(s.people.get ⟨i, hi⟩).x <
          cfg.townStartX + s.phaseTime / 15000 * (cfg.townEndX - cfg.townStartX) →
        ((updateInundation e s dt cfg k).1.people.get ⟨i, hi'⟩).caught = false ∧
        (((updateInundation e s dt cfg k).1.people.get ⟨i, hi'⟩).survived = true ↔
          (s.people.get ⟨i, hi⟩).x > cfg.townEndX - 100)) := by
  obtain ⟨hi', hcg, hsg⟩ := updateInundation_people_flags e s dt cfg k i hi
  refine ⟨hi', ?_, ?_⟩
  · intro hx
    rw [hcg, hsg, if_pos ⟨hc, hs⟩, if_pos hx]
    exact ⟨rfl, hs⟩
  · intro hx
    rw [hcg, hsg, if_pos ⟨hc, hs⟩, if_neg hx]
    by_cases hx2 : (s.people.get ⟨i, hi⟩).x > cfg.townEndX - 100
    · rw [if_pos hx2]
      exact ⟨hc, iff_of_true rfl hx2⟩
    · rw [if_neg hx2]
      refine ⟨hc, iff_of_false ?_ hx2⟩
      rw [hs]
      exact Bool.false_ne_true

/-- C10 (witness): the unresolved doomed person behind the front in `sInu`
comes out caught and not survived. -/
theorem C10_witness : qInu.caught = true ∧ qInu.survived = false := by
  obtain ⟨hi', himp, _⟩ :=
    C10_priority e0 sInu 1000 DEFAULT_WORLD_CONFIG 0 0 (by decide!) (by decide!) (by decide!)
  obtain ⟨h1, h2⟩ := himp (by decide!)
  have hq : qInu = (updateInundation e0 sInu 1000 DEFAULT_WORLD_CONFIG 0).1.people.get ⟨0, hi'⟩ := by
    simp only [qInu]
    rw [List.getD_eq_getElem _ _ hi']
    simp
  rw [hq]
  exact ⟨h1, h2⟩

end TsunamiSim
